import Mathlib

/-!
# BgeoReader: attribute-table decoding and channel materialisation

A shallow embedding of `src/houdini/body-io/BgeoReader.h`.

* The parsed file (`Bgeo`, declared in `Bgeo.h`, which is not among the sources) is a record of
  the values its accessors return; `type2Bytes` and the byte counts are fields of that record, so
  every theorem holds for whatever widths `Bgeo.h` defines.
* `Nb::String::listed_in` belongs to the Naiad SDK; the membership test is a parameter.
* The side effects on the output body are recorded, in program order, as a list of `Op`.
* `float` and `uint32_t` scalars are carried as their 32-bit patterns (a `Nat`); the reader only
  copies them.
* `int` arithmetic on the running offset is taken without overflow (`Int`).

The namespace `Plugin` embeds `UserOpAlloc` of `src/renderman/user-ops/plugin.cc`.
-/

set_option autoImplicit false

namespace Plugin

/-- The user ops the plugin can build; each constructor stands for one C++ class and carries the
`name` passed to its constructor -/
inductive UserOp where
  | Renderman_Particle (name : String)
  | Renderman_Mesh (name : String)
  | Renderman_Rib_Write (name : String)
  | Delight_Particle (name : String)
  | Delight_Mesh (name : String)
  | Delight_Rib_Write (name : String)
  deriving DecidableEq, Repr

/-- The function `UserOpAlloc(type, name)` of `plugin.cc`. `NtString::toLower` belongs to the
Naiad SDK and is a parameter; `none` is the null pointer returned after `NB_ERROR` has reported
the unknown type. -/
def UserOpAlloc (toLower : String → String) (type name : String) : Option UserOp :=
  let typeName := toLower type
  if typeName = "renderman-particle" then some (.Renderman_Particle name)
  else if typeName = "renderman-mesh" then some (.Renderman_Mesh name)
  else if typeName = "renderman-rib-write" then some (.Renderman_Rib_Write name)
  else if typeName = "delight-particle" then some (.Delight_Particle name)
  else if typeName = "delight-mesh" then some (.Delight_Mesh name)
  else if typeName = "delight-rib-write" then some (.Delight_Rib_Write name)
  else none

/-- A sample lower-casing: ASCII capitals are replaced by their small letters -/
def asciiLower (s : String) : String := String.mk (s.data.map Char.toLower)

end Plugin

namespace BgeoReader

/-- The membership test `Nb::String(name).listed_in(list)` of the Naiad SDK -/
abbrev ListedIn := String → String → Bool

/-- A `Bgeo::attribute`: name, numeric type tag, vector size and the default-value buffer,
given as the scalars it holds -/
structure Attribute where
  name : String
  type : Int
  size : Int
  defBuf : List Nat
  deriving DecidableEq, Repr

/-- The values the reader obtains from an opened `Bgeo` object -/
structure Bgeo where
  /-- Result of `getPointAtr()`, of length `getNumberOfPointAtr()` -/
  pointAtr : List Attribute
  /-- Result of `getPrimAtr()`, of length `getNumberOfPrimAtr()` -/
  primAtr : List Attribute
  /-- Result of `getVtxAtr()`, of length `getNumberOfVtxAtr()` -/
  vtxAtr : List Attribute
  /-- Result of `getNumberOfPoints()` -/
  nPoints : Int
  /-- Result of `getNumberOfPrims()` -/
  nPrims : Int
  /-- Result of `type2Bytes(type)` -/
  type2Bytes : Int → Int
  /-- Result of `getIdxBytes()` -/
  idxBytes : Int
  /-- Result of `getVtxAtrBytes()` -/
  vtxAtrBytes : Int
  /-- Result of `getBytesPerPrimLine()` -/
  bytesPerPrimLine : Int
  /-- Result of `getPrimAtrBytes()` -/
  primAtrBytes : Int

/-- Modelled from the spec: `Bgeo::copyBufLocal(buf, dst, n)` is defined in `Bgeo.h`, which is
missing; it copies `n` scalars out of the descriptor's default buffer. A scalar the buffer does
not hold reads as `0`. -/
def copyBufLocal (defBuf : List Nat) (n : Nat) : List Nat :=
  (List.range n).map (fun i => defBuf.getD i 0)

/-- The template argument of the array accessors: `float` or `uint32_t` -/
inductive Elem where
  | f32
  | u32
  deriving DecidableEq, Repr

/-- Which accessor is called: `getPointAtrArr`, `getPrimAtrArr` or `getVtxAtrArr` -/
inductive Accessor where
  | point
  | prim
  | vtx
  deriving DecidableEq, Repr

/-- The array returned by `b.getXAtrArr<T>(size, offset)` -/
structure Extraction where
  acc : Accessor
  elem : Elem
  size : Int
  offset : Int
  deriving DecidableEq, Repr

/-- Where the bytes of a bulk write come from -/
inductive Source where
  /-- The array `b.getPoints3v()` -/
  | points
  /-- The array `b.getIndices3v()` -/
  | indices
  /-- An attribute array -/
  | atr (e : Extraction)
  deriving DecidableEq, Repr

/-- The object a channel operation is called on -/
inductive Shape where
  | body
  | point
  | triangle
  | particle
  deriving DecidableEq, Repr

/-- Channel types: the `1f`, `3f`, `1i`, `3i` suffix of the Naiad channel calls -/
inductive ChanType where
  | c1f
  | c3f
  | c1i
  | c3i
  deriving DecidableEq, Repr

/-- The calls the reader makes, in program order -/
inductive Op where
  /-- Call `Nb::Factory::createBody(sig, name, true)` -/
  | createBody (sig : String) (name : String)
  /-- Call `b.readPoints()` -/
  | readPoints
  /-- Call `b.readPrims(integrityCheck)` -/
  | readPrims (integrityCheck : Bool)
  /-- Call `shape.guaranteeChannelXX(name, default)` -/
  | guaranteeChannel (shape : Shape) (ty : ChanType) (name : String) (dflt : List Nat)
  /-- Call `shape.mutableBufferXX(name).resize(n)` -/
  | resize (shape : Shape) (ty : ChanType) (name : String) (n : Int)
  /-- Call `b.getXAtrArr<T>(size, offset)` -/
  | getAtrArr (e : Extraction)
  /-- Call `memcpy(buf.data, src, bytes)` into the buffer `shape.mutableBufferXX(name)` -/
  | memcpy (shape : Shape) (ty : ChanType) (name : String) (src : Source) (bytes : Int)
  /-- Call `particle.beginBlockChannelData(layout)` -/
  | beginBlockChannelData
  /-- Call `particle.blockChannelDataXX(name, src, n)` -/
  | blockChannelData (ty : ChanType) (name : String) (src : Source) (n : Int)
  /-- Call `particle.endBlockChannelData()` -/
  | endBlockChannelData
  /-- Call `body->computeCachedMinMaxAvg()` -/
  | computeCachedMinMaxAvg
  deriving DecidableEq, Repr

/-- The exceptions raised with `NB_THROW`, by message -/
inductive Error where
  /-- Message "no support for float attributes of size" -/
  | floatSize (size : Int)
  /-- Message "no support for int attributes of size" -/
  | intSize (size : Int)
  /-- Message "no support for string attributes" -/
  | stringAttr
  /-- Message "no support for char attributes" -/
  | charAttr
  /-- Message "no support for index attributes" -/
  | indexAttr
  /-- Message "Could not read attribute type." -/
  | badType
  /-- Message "Body Signature ... is incompatible with the bgeo file format" -/
  | signature (sig : String)
  deriving DecidableEq, Repr

/-- State after some statements have run: the running offset, the calls made so far, and the
exception that stopped execution, if any -/
structure Run where
  offset : Int
  ops : List Op
  err : Option Error
  deriving DecidableEq, Repr

/-- The bit pattern of the literal `0.f` -/
def float_zero : Nat := 0

/-- The bit pattern of the literal `-1.f` -/
def float_neg_one : Nat := 0xBF800000

/-- Value of `sizeof(float)` and `sizeof(uint32_t)` -/
def sizeof32 : Int := 4

/-- The loop `for (i = 0; i < n; ++i) body` over the descriptors: the body runs on each
descriptor in order with the offset the previous ones left, and an exception ends the loop -/
def forAtr (body : Attribute → Int → Run) : List Attribute → Int → Run
  | [], offset => ⟨offset, [], none⟩
  | a :: rest, offset =>
    let s := body a offset
    match s.err with
    | some e => ⟨s.offset, s.ops, some e⟩
    | none =>
      let r := forAtr body rest s.offset
      ⟨r.offset, s.ops ++ r.ops, r.err⟩

/-- The macro `NB_THROW(msg)`: execution stops at `offset` with no further call made -/
def NB_THROW (offset : Int) (e : Error) : Run := ⟨offset, [], some e⟩

/-- Body of the loop of `_createParticleChannels` (lines 152-237) for the descriptor `a`. The
routine keeps no cursor; `offset` is passed through unchanged. -/
def _createParticleChannels_body (listed_in : ListedIn) (pointAttributes : String)
    (a : Attribute) (offset : Int) : Run :=
  if listed_in a.name pointAttributes then
    if a.type = 0 then
      if a.size = 1 then
        let name := "Particle." ++ a.name
        let dflt := copyBufLocal a.defBuf 1
        ⟨offset, [.guaranteeChannel .body .c1f name dflt], none⟩
      else if a.size = 3 then
        let dflt := copyBufLocal a.defBuf 3
        let name := "Particle." ++ a.name ++ "$3f"
        ⟨offset, [.guaranteeChannel .body .c3f name dflt], none⟩
      else if a.size = 2 ∧ a.name = "life" then
        ⟨offset, [.guaranteeChannel .body .c1f "Particle.life0" [float_zero],
                  .guaranteeChannel .body .c1f "Particle.life1" [float_neg_one]], none⟩
      else NB_THROW offset (.floatSize a.size)
    else if a.type = 1 then
      if a.size = 1 then
        let dflt := copyBufLocal a.defBuf 1
        let name := "Particle." ++ a.name
        ⟨offset, [.guaranteeChannel .body .c1i name dflt], none⟩
      else if a.size = 3 then
        let dflt := copyBufLocal a.defBuf 3
        let name := "Particle." ++ a.name
        ⟨offset, [.guaranteeChannel .body .c3i name dflt], none⟩
      else NB_THROW offset (.intSize a.size)
    else if a.type = 2 then NB_THROW offset .stringAttr
    else if a.type = 3 then NB_THROW offset .charAttr
    else if a.type = 4 then NB_THROW offset .indexAttr
    else if a.type = 5 then
      if a.name ≠ "v" ∧ a.name ≠ "velocity" then
        let dflt := copyBufLocal a.defBuf 3
        let name := "Particle." ++ a.name
        ⟨offset, [.guaranteeChannel .body .c3f name dflt], none⟩
      else ⟨offset, [], none⟩
    else NB_THROW offset .badType
  else ⟨offset, [], none⟩

/-- The routine `_createParticleChannels(b, pointAttributes, body)` -/
def _createParticleChannels (listed_in : ListedIn) (b : Bgeo) (pointAttributes : String) : Run :=
  forAtr (_createParticleChannels_body listed_in pointAttributes) b.pointAtr 0

/-- Body of the loop of `_readPointAtr(b, pointAttributes, Nb::PointShape&, nPoints)`
(lines 251-365) for the descriptor `a`, entered with the running `offset` -/
def _readPointAtr_PointShape_body (listed_in : ListedIn) (b : Bgeo) (pointAttributes : String)
    (nPoints : Int) (a : Attribute) (offset : Int) : Run :=
  if listed_in a.name pointAttributes then
    if a.type = 0 then
      if a.size = 1 then
        let dflt := copyBufLocal a.defBuf 1
        let p : Extraction := ⟨.point, .f32, a.size, offset⟩
        ⟨offset + b.type2Bytes a.type * a.size,
          [.guaranteeChannel .point .c1f a.name dflt,
           .resize .point .c1f a.name nPoints,
           .getAtrArr p,
           .memcpy .point .c1f a.name (.atr p) (sizeof32 * nPoints)], none⟩
      else if a.size = 3 then
        let dflt := copyBufLocal a.defBuf 3
        let name := a.name ++ "$3f"
        let p : Extraction := ⟨.point, .f32, a.size, offset⟩
        ⟨offset + b.type2Bytes a.type * a.size,
          [.guaranteeChannel .point .c3f name dflt,
           .resize .point .c3f name nPoints,
           .getAtrArr p,
           .memcpy .point .c3f name (.atr p) (sizeof32 * 3 * nPoints)], none⟩
      else NB_THROW offset (.floatSize a.size)
    else if a.type = 1 then
      if a.size = 1 then
        let dflt := copyBufLocal a.defBuf 1
        let p : Extraction := ⟨.point, .u32, a.size, offset⟩
        ⟨offset + b.type2Bytes a.type * a.size,
          [.guaranteeChannel .point .c1i a.name dflt,
           .resize .point .c1i a.name nPoints,
           .getAtrArr p,
           .memcpy .point .c1i a.name (.atr p) (sizeof32 * nPoints)], none⟩
      else if a.size = 3 then
        let dflt := copyBufLocal a.defBuf 3
        let p : Extraction := ⟨.point, .u32, a.size, offset⟩
        ⟨offset + b.type2Bytes a.type * a.size,
          [.guaranteeChannel .point .c3i a.name dflt,
           .resize .point .c3i a.name nPoints,
           .getAtrArr p,
           .memcpy .point .c3i a.name (.atr p) (sizeof32 * 3 * nPoints)], none⟩
      else NB_THROW offset (.intSize a.size)
    else if a.type = 2 then NB_THROW offset .stringAttr
    else if a.type = 3 then NB_THROW offset .charAttr
    else if a.type = 4 then NB_THROW offset .indexAttr
    else if a.type = 5 then
      let dflt := copyBufLocal a.defBuf 3
      let name := a.name
      let p : Extraction := ⟨.point, .f32, a.size, offset⟩
      ⟨offset + b.type2Bytes a.type * a.size,
        [.guaranteeChannel .point .c3f name dflt,
         .resize .point .c3f name nPoints,
         .getAtrArr p,
         .memcpy .point .c3f name (.atr p) (sizeof32 * 3 * nPoints)], none⟩
    else NB_THROW offset .badType
  else ⟨offset, [], none⟩

/-- The routine `_readPointAtr(b, pointAttributes, Nb::PointShape&, nPoints)`: the cursor starts
at `sizeof(float) * 4` -/
def _readPointAtr_PointShape (listed_in : ListedIn) (b : Bgeo) (pointAttributes : String)
    (nPoints : Int) : Run :=
  forAtr (_readPointAtr_PointShape_body listed_in b pointAttributes nPoints) b.pointAtr
    (sizeof32 * 4)

/-- Body of the loop of `_readPointAtr(b, pointAttributes, Nb::ParticleShape&, nPoints)`
(lines 379-457) for the descriptor `a`, entered with the running `offset` -/
def _readPointAtr_ParticleShape_body (listed_in : ListedIn) (b : Bgeo)
    (pointAttributes : String) (nPoints : Int) (a : Attribute) (offset : Int) : Run :=
  if listed_in a.name pointAttributes then
    if a.type = 0 then
      if a.size = 1 then
        let p : Extraction := ⟨.point, .f32, a.size, offset⟩
        let name := "Particle." ++ a.name
        ⟨offset + b.type2Bytes a.type * a.size,
          [.getAtrArr p, .blockChannelData .c1f name (.atr p) nPoints], none⟩
      else if a.size = 3 then
        let name := "Particle." ++ a.name ++ "$3f"
        let p : Extraction := ⟨.point, .f32, a.size, offset⟩
        ⟨offset + b.type2Bytes a.type * a.size,
          [.getAtrArr p, .blockChannelData .c3f name (.atr p) nPoints], none⟩
      else if a.size = 2 ∧ a.name = "life" then
        let p0 : Extraction := ⟨.point, .f32, 1, offset⟩
        let offset1 := offset + b.type2Bytes a.type * 1
        let p1 : Extraction := ⟨.point, .f32, 1, offset1⟩
        let offset2 := offset1 + b.type2Bytes a.type * 1
        ⟨offset2,
          [.getAtrArr p0, .getAtrArr p1,
           .blockChannelData .c1f "Particle.life0" (.atr p0) nPoints,
           .blockChannelData .c1f "Particle.life1" (.atr p1) nPoints], none⟩
      else ⟨offset, [], none⟩
    else if a.type = 1 then
      if a.size = 1 then
        let p : Extraction := ⟨.point, .u32, a.size, offset⟩
        let name := "Particle." ++ a.name
        ⟨offset + b.type2Bytes a.type * a.size,
          [.getAtrArr p, .blockChannelData .c1i name (.atr p) nPoints], none⟩
      else if a.size = 3 then
        let p : Extraction := ⟨.point, .u32, a.size, offset⟩
        let name := "Particle." ++ a.name
        ⟨offset + b.type2Bytes a.type * a.size,
          [.getAtrArr p, .blockChannelData .c3i name (.atr p) nPoints], none⟩
      else ⟨offset, [], none⟩
    else if a.type = 5 then
      let p : Extraction := ⟨.point, .f32, a.size, offset⟩
      if a.name ≠ "v" ∧ a.name ≠ "velocity" then
        let name := "Particle." ++ a.name
        ⟨offset + b.type2Bytes a.type * a.size,
          [.getAtrArr p, .blockChannelData .c3f name (.atr p) nPoints], none⟩
      else
        ⟨offset + b.type2Bytes a.type * a.size,
          [.getAtrArr p, .blockChannelData .c3f "velocity" (.atr p) nPoints], none⟩
    else NB_THROW offset .badType
  else ⟨offset, [], none⟩

/-- The routine `_readPointAtr(b, pointAttributes, Nb::ParticleShape&, nPoints)`: the cursor
starts at `sizeof(float) * 4` -/
def _readPointAtr_ParticleShape (listed_in : ListedIn) (b : Bgeo) (pointAttributes : String)
    (nPoints : Int) : Run :=
  forAtr (_readPointAtr_ParticleShape_body listed_in b pointAttributes nPoints) b.pointAtr
    (sizeof32 * 4)

/-- Body of the loop of `_readPrimAtr` (lines 471-583) for the descriptor `a`, entered with the
running `offset` -/
def _readPrimAtr_body (listed_in : ListedIn) (b : Bgeo) (primitiveAttributes : String)
    (nPrims : Int) (a : Attribute) (offset : Int) : Run :=
  if listed_in a.name primitiveAttributes then
    if a.type = 0 then
      if a.size = 1 then
        let dflt := copyBufLocal a.defBuf 1
        let p : Extraction := ⟨.prim, .f32, a.size, offset⟩
        ⟨offset + b.type2Bytes a.type * a.size,
          [.guaranteeChannel .triangle .c1f a.name dflt,
           .resize .triangle .c1f a.name nPrims,
           .getAtrArr p,
           .memcpy .triangle .c1f a.name (.atr p) (sizeof32 * nPrims)], none⟩
      else if a.size = 3 then
        let dflt := copyBufLocal a.defBuf 3
        let name := a.name ++ "$3f"
        let p : Extraction := ⟨.prim, .f32, a.size, offset⟩
        ⟨offset + b.type2Bytes a.type * a.size,
          [.guaranteeChannel .triangle .c3f name dflt,
           .resize .triangle .c3f name nPrims,
           .getAtrArr p,
           .memcpy .triangle .c3f name (.atr p) (sizeof32 * 3 * nPrims)], none⟩
      else NB_THROW offset (.floatSize a.size)
    else if a.type = 1 then
      if a.size = 1 then
        let dflt := copyBufLocal a.defBuf 1
        let p : Extraction := ⟨.prim, .u32, a.size, offset⟩
        ⟨offset + b.type2Bytes a.type * a.size,
          [.guaranteeChannel .triangle .c1i a.name dflt,
           .resize .triangle .c1i a.name nPrims,
           .getAtrArr p,
           .memcpy .triangle .c1i a.name (.atr p) (sizeof32 * nPrims)], none⟩
      else if a.size = 3 then
        let dflt := copyBufLocal a.defBuf 3
        let p : Extraction := ⟨.prim, .u32, a.size, offset⟩
        ⟨offset + b.type2Bytes a.type * a.size,
          [.guaranteeChannel .triangle .c3i a.name dflt,
           .resize .triangle .c3i a.name nPrims,
           .getAtrArr p,
           .memcpy .triangle .c3i a.name (.atr p) (sizeof32 * 3 * nPrims)], none⟩
      else NB_THROW offset (.intSize a.size)
    else if a.type = 2 then NB_THROW offset .stringAttr
    else if a.type = 3 then NB_THROW offset .charAttr
    else if a.type = 4 then NB_THROW offset .indexAttr
    else if a.type = 5 then
      let dflt := copyBufLocal a.defBuf 3
      let name := a.name
      let p : Extraction := ⟨.prim, .f32, a.size, offset⟩
      ⟨offset + b.type2Bytes a.type * a.size,
        [.guaranteeChannel .triangle .c3f name dflt,
         .resize .triangle .c3f name nPrims,
         .getAtrArr p,
         .memcpy .triangle .c3f name (.atr p) (sizeof32 * 3 * nPrims)], none⟩
    else NB_THROW offset .badType
  else ⟨offset, [], none⟩

/-- The routine `_readPrimAtr(b, primitiveAttributes, triangle, nPrims)`: the cursor starts at
`b.getBytesPerPrimLine() - b.getPrimAtrBytes()` -/
def _readPrimAtr (listed_in : ListedIn) (b : Bgeo) (primitiveAttributes : String)
    (nPrims : Int) : Run :=
  forAtr (_readPrimAtr_body listed_in b primitiveAttributes nPrims) b.primAtr
    (b.bytesPerPrimLine - b.primAtrBytes)

/-- Body of the loop of `_readVtxAtr` (lines 597-807) for the descriptor `a`, entered with the
running `offset` -/
def _readVtxAtr_body (listed_in : ListedIn) (b : Bgeo) (vertexAttributes : String)
    (nPrims : Int) (a : Attribute) (offset : Int) : Run :=
  if listed_in a.name vertexAttributes then
    if a.type = 0 then
      if a.size = 1 then
        let dflt := copyBufLocal a.defBuf 1
        let name := a.name ++ "$v"
        let p : Extraction := ⟨.vtx, .f32, a.size, offset⟩
        ⟨offset + b.type2Bytes a.type * a.size,
          [.guaranteeChannel .triangle .c3f name (dflt ++ dflt ++ dflt),
           .resize .triangle .c3f name nPrims,
           .getAtrArr p,
           .memcpy .triangle .c3f name (.atr p) (sizeof32 * 3 * nPrims)], none⟩
      else if a.size = 3 then
        let dflt := copyBufLocal a.defBuf 3
        let name0 := a.name ++ "$v0$3f"
        let name1 := a.name ++ "$v1$3f"
        let name2 := a.name ++ "$v2$3f"
        let spacing := b.idxBytes + b.vtxAtrBytes
        let p0 : Extraction := ⟨.prim, .f32, a.size, offset⟩
        let p1 : Extraction := ⟨.prim, .f32, a.size, offset + spacing⟩
        let p2 : Extraction := ⟨.prim, .f32, a.size, offset + 2 * spacing⟩
        ⟨offset + b.type2Bytes a.type * a.size,
          [.guaranteeChannel .triangle .c3f name0 dflt,
           .guaranteeChannel .triangle .c3f name1 dflt,
           .guaranteeChannel .triangle .c3f name2 dflt,
           .resize .triangle .c3f name0 nPrims,
           .resize .triangle .c3f name1 nPrims,
           .resize .triangle .c3f name2 nPrims,
           .getAtrArr p0,
           .memcpy .triangle .c3f name0 (.atr p0) (sizeof32 * 3 * nPrims),
           .getAtrArr p1,
           .memcpy .triangle .c3f name1 (.atr p1) (sizeof32 * 3 * nPrims),
           .getAtrArr p2,
           .memcpy .triangle .c3f name2 (.atr p2) (sizeof32 * 3 * nPrims)], none⟩
      else NB_THROW offset (.floatSize a.size)
    else if a.type = 1 then
      if a.size = 1 then
        let dflt := copyBufLocal a.defBuf 1
        let name := a.name ++ "$v"
        let p : Extraction := ⟨.vtx, .u32, a.size, offset⟩
        ⟨offset + b.type2Bytes a.type * a.size,
          [.guaranteeChannel .triangle .c3i name (dflt ++ dflt ++ dflt),
           .resize .triangle .c3i name nPrims,
           .getAtrArr p,
           .memcpy .triangle .c3i name (.atr p) (sizeof32 * 3 * nPrims)], none⟩
      else if a.size = 3 then
        let dflt := copyBufLocal a.defBuf 3
        let name0 := a.name ++ "$v0"
        let name1 := a.name ++ "$v1"
        let name2 := a.name ++ "$v2"
        let spacing := b.idxBytes + b.vtxAtrBytes
        let p0 : Extraction := ⟨.prim, .u32, a.size, offset⟩
        let p1 : Extraction := ⟨.prim, .u32, a.size, offset + spacing⟩
        let p2 : Extraction := ⟨.prim, .u32, a.size, offset + 2 * spacing⟩
        ⟨offset + b.type2Bytes a.type * a.size,
          [.guaranteeChannel .triangle .c3i name0 dflt,
           .guaranteeChannel .triangle .c3i name1 dflt,
           .guaranteeChannel .triangle .c3i name2 dflt,
           .resize .triangle .c3i name0 nPrims,
           .resize .triangle .c3i name1 nPrims,
           .resize .triangle .c3i name2 nPrims,
           .getAtrArr p0,
           .memcpy .triangle .c3i name0 (.atr p0) (sizeof32 * 3 * nPrims),
           .getAtrArr p1,
           .memcpy .triangle .c3i name1 (.atr p1) (sizeof32 * 3 * nPrims),
           .getAtrArr p2,
           .memcpy .triangle .c3i name2 (.atr p2) (sizeof32 * 3 * nPrims)], none⟩
      else NB_THROW offset (.intSize a.size)
    else if a.type = 2 then NB_THROW offset .stringAttr
    else if a.type = 3 then NB_THROW offset .charAttr
    else if a.type = 4 then NB_THROW offset .indexAttr
    else if a.type = 5 then
      let dflt := copyBufLocal a.defBuf 3
      let name0 := a.name ++ "$v0"
      let name1 := a.name ++ "$v1"
      let name2 := a.name ++ "$v2"
      let spacing := b.idxBytes + b.vtxAtrBytes
      let p0 : Extraction := ⟨.prim, .f32, a.size, offset⟩
      let p1 : Extraction := ⟨.prim, .f32, a.size, offset + spacing⟩
      let p2 : Extraction := ⟨.prim, .f32, a.size, offset + 2 * spacing⟩
      ⟨offset + b.type2Bytes a.type * a.size,
        [.guaranteeChannel .triangle .c3f name0 dflt,
         .guaranteeChannel .triangle .c3f name1 dflt,
         .guaranteeChannel .triangle .c3f name2 dflt,
         .resize .triangle .c3f name0 nPrims,
         .resize .triangle .c3f name1 nPrims,
         .resize .triangle .c3f name2 nPrims,
         .getAtrArr p0,
         .memcpy .triangle .c3f name0 (.atr p0) (sizeof32 * 3 * nPrims),
         .getAtrArr p1,
         .memcpy .triangle .c3f name1 (.atr p1) (sizeof32 * 3 * nPrims),
         .getAtrArr p2,
         .memcpy .triangle .c3f name2 (.atr p2) (sizeof32 * 3 * nPrims)], none⟩
    else NB_THROW offset .badType
  else ⟨offset, [], none⟩

/-- The routine `_readVtxAtr(b, vertexAttributes, triangle, nPrims)`: the cursor starts at
`5 + b.getIdxBytes()` -/
def _readVtxAtr (listed_in : ListedIn) (b : Bgeo) (vertexAttributes : String)
    (nPrims : Int) : Run :=
  forAtr (_readVtxAtr_body listed_in b vertexAttributes nPrims) b.vtxAtr (5 + b.idxBytes)

/-- The members of `Nb::BodyReader` that `_loadBody` reads -/
structure Reader where
  /-- Result of `sigFilter()` -/
  sigFilter : String
  /-- Member `_pointAttributes` -/
  pointAttributes : String
  /-- Member `_primitiveAttributes` -/
  primitiveAttributes : String
  /-- Member `_vertexAttributes` -/
  vertexAttributes : String
  /-- Member `_integrityCheck` -/
  integrityCheck : Bool

/-- What `_loadBody` did: the calls it made and the exception it raised, if any; with no
exception the body is returned -/
structure Outcome where
  ops : List Op
  err : Option Error
  deriving DecidableEq, Repr

/-- The routine `_loadBody(i)`, for the body name `bodyName` of entry `i` and the file contents
`b`. The calls into the SDK and into `Bgeo` (body creation, opening and reading the file) are
taken to return normally; the exceptions modelled are those `BgeoReader.h` raises itself. -/
def _loadBody (listed_in : ListedIn) (r : Reader) (bodyName : String) (b : Bgeo) : Outcome :=
  let opened : List Op := [.createBody r.sigFilter bodyName, .readPoints]
  let nPoints := b.nPoints
  if r.sigFilter = "Mesh" then
    let position : List Op :=
      [.resize .point .c3f "position" nPoints,
       .memcpy .point .c3f "position" .points (sizeof32 * 3 * nPoints)]
    let s1 := _readPointAtr_PointShape listed_in b r.pointAttributes nPoints
    match s1.err with
    | some e => ⟨opened ++ position ++ s1.ops, some e⟩
    | none =>
      let nPrims := b.nPrims
      let index : List Op :=
        [.resize .triangle .c3i "index" nPrims,
         .readPrims r.integrityCheck,
         .memcpy .triangle .c3i "index" .indices (sizeof32 * 3 * nPrims)]
      let s2 := _readPrimAtr listed_in b r.primitiveAttributes nPrims
      match s2.err with
      | some e => ⟨opened ++ position ++ s1.ops ++ index ++ s2.ops, some e⟩
      | none =>
        let s3 := _readVtxAtr listed_in b r.vertexAttributes nPrims
        match s3.err with
        | some e => ⟨opened ++ position ++ s1.ops ++ index ++ s2.ops ++ s3.ops, some e⟩
        | none =>
          ⟨opened ++ position ++ s1.ops ++ index ++ s2.ops ++ s3.ops ++
            [.computeCachedMinMaxAvg], none⟩
  else if r.sigFilter = "Particle" then
    let s1 := _createParticleChannels listed_in b r.pointAttributes
    match s1.err with
    | some e => ⟨opened ++ s1.ops, some e⟩
    | none =>
      let begun : List Op :=
        [.beginBlockChannelData, .blockChannelData .c3f "position" .points nPoints]
      let s2 := _readPointAtr_ParticleShape listed_in b r.pointAttributes nPoints
      match s2.err with
      | some e => ⟨opened ++ s1.ops ++ begun ++ s2.ops, some e⟩
      | none =>
        ⟨opened ++ s1.ops ++ begun ++ s2.ops ++
          [.endBlockChannelData, .computeCachedMinMaxAvg], none⟩
  else ⟨opened, some (.signature r.sigFilter)⟩

/-- The width `type2Bytes(type) * size` by which a descriptor moves the cursor -/
def width (b : Bgeo) (a : Attribute) : Int := b.type2Bytes a.type * a.size

/-- The extractions among a list of calls, in order -/
def extractions : List Op → List Extraction
  | [] => []
  | .getAtrArr e :: rest => e :: extractions rest
  | _ :: rest => extractions rest

/-- The channels registered by a list of calls: name, type and default, in order -/
def registered : List Op → List (String × ChanType × List Nat)
  | [] => []
  | .guaranteeChannel _ ty name dflt :: rest => (name, ty, dflt) :: registered rest
  | _ :: rest => registered rest

/-- The bulk writes among a list of calls: channel name, channel type and source, in order -/
def written : List Op → List (String × ChanType × Source)
  | [] => []
  | .memcpy _ ty name src _ :: rest => (name, ty, src) :: written rest
  | .blockChannelData ty name src _ :: rest => (name, ty, src) :: written rest
  | _ :: rest => written rest

/-- The names of the channels a list of calls registers, resizes or writes -/
def channelNames : List Op → List String
  | [] => []
  | .guaranteeChannel _ _ name _ :: rest => name :: channelNames rest
  | .resize _ _ name _ :: rest => name :: channelNames rest
  | .memcpy _ _ name _ _ :: rest => name :: channelNames rest
  | .blockChannelData _ name _ _ :: rest => name :: channelNames rest
  | _ :: rest => channelNames rest

/-- Descriptors on which the particle load phase takes a branch that extracts: Float of size 1
or 3, the Float `life` of size 2, Int of size 1 or 3, and Vector3Float -/
def particleExtracted (a : Attribute) : Bool :=
  (a.type = 0 ∧ (a.size = 1 ∨ a.size = 3 ∨ (a.size = 2 ∧ a.name = "life"))) ∨
  (a.type = 1 ∧ (a.size = 1 ∨ a.size = 3)) ∨ a.type = 5

/-- The width a descriptor adds to the cursor of the mesh routines: its own width when its name
is in the allow-list, nothing otherwise -/
def listedWidth (listed_in : ListedIn) (allow : String) (b : Bgeo) (a : Attribute) : Int :=
  if listed_in a.name allow then width b a else 0

/-- The width a descriptor adds to the cursor of the particle load phase -/
def particleWidth (listed_in : ListedIn) (allow : String) (b : Bgeo) (a : Attribute) : Int :=
  if listed_in a.name allow ∧ particleExtracted a then width b a else 0

/-- The run `first`, which raised nothing, continued by the run `next` -/
def Run.andThen (first next : Run) : Run :=
  ⟨next.offset, first.ops ++ next.ops, next.err⟩

/-- A sample membership test: the allow-list holds one name -/
def listedExact : ListedIn := fun name list => name == list

/-- A sample file: every section holds a Float `a` followed by a Float `b`, both of size 1;
every scalar is four bytes wide -/
def skipFile : Bgeo :=
  { pointAtr := [⟨"a", 0, 1, [0]⟩, ⟨"b", 0, 1, [0]⟩]
    primAtr := [⟨"a", 0, 1, [0]⟩, ⟨"b", 0, 1, [0]⟩]
    vtxAtr := [⟨"a", 0, 1, [0]⟩, ⟨"b", 0, 1, [0]⟩]
    nPoints := 4
    nPrims := 2
    type2Bytes := fun _ => 4
    idxBytes := 4
    vtxAtrBytes := 8
    bytesPerPrimLine := 45
    primAtrBytes := 8 }

/-- A sample file: every section holds a Float `a` of size 1 followed by a String `s` -/
def stringFile : Bgeo :=
  { skipFile with
    pointAtr := [⟨"a", 0, 1, [0]⟩, ⟨"s", 2, 1, []⟩]
    primAtr := [⟨"a", 0, 1, [0]⟩, ⟨"s", 2, 1, []⟩]
    vtxAtr := [⟨"a", 0, 1, [0]⟩, ⟨"s", 2, 1, []⟩] }

/-- A sample file: every section holds a Float `a` of size 1 followed by a Float `w` of size 4 -/
def wideFile : Bgeo :=
  { skipFile with
    pointAtr := [⟨"a", 0, 1, [0]⟩, ⟨"w", 0, 4, [0, 0, 0, 0]⟩]
    primAtr := [⟨"a", 0, 1, [0]⟩, ⟨"w", 0, 4, [0, 0, 0, 0]⟩]
    vtxAtr := [⟨"a", 0, 1, [0]⟩, ⟨"w", 0, 4, [0, 0, 0, 0]⟩] }

/-- A sample file whose point table holds the Float `life` of size 2 with the default buffer
`(1.0, 2.0)`, as bit patterns -/
def lifeFile : Bgeo :=
  { skipFile with pointAtr := [⟨"life", 0, 2, [0x3F800000, 0x40000000]⟩] }

/-- A sample file: four points, no primitive, and a point table holding the Float `mass` of
size 1 with default `1.0` -/
def massFile : Bgeo :=
  { skipFile with
    pointAtr := [⟨"mass", 0, 1, [0x3F800000]⟩]
    primAtr := []
    vtxAtr := []
    nPoints := 4
    nPrims := 0 }

/-- A sample membership test: the allow-list holds one name, or none when it is empty -/
def listedNonEmpty : ListedIn := fun name list => list != "" && name == list

/-- Descriptors of a supported kind and size: Float or Int of size 1 or 3, and Vector3Float -/
def supported (a : Attribute) : Bool :=
  ((a.type = 0 ∨ a.type = 1) ∧ (a.size = 1 ∨ a.size = 3)) ∨ a.type = 5

/-- A sample membership test: the allow-list is a wildcard and lists every name -/
def listedAll : ListedIn := fun _ _ => true

/-- The stages of the particle block-write protocol: channels are being declared, the block
write is open, the block write is closed -/
inductive Phase where
  | declaring
  | loading
  | finished
  deriving DecidableEq, Repr

/-- The calls the two-phase protocol allows in each stage, and the stage each leads to: channel
registrations only before `beginBlockChannelData`, extractions and bulk writes only between
`beginBlockChannelData` and `endBlockChannelData` -/
def Phase.next : Phase → Op → Option Phase
  | .declaring, .createBody _ _ => some .declaring
  | .declaring, .readPoints => some .declaring
  | .declaring, .guaranteeChannel _ _ _ _ => some .declaring
  | .declaring, .beginBlockChannelData => some .loading
  | .loading, .getAtrArr _ => some .loading
  | .loading, .blockChannelData _ _ _ _ => some .loading
  | .loading, .endBlockChannelData => some .finished
  | .finished, .computeCachedMinMaxAvg => some .finished
  | _, _ => none

/-- The stage reached from `p` by a list of calls, or `none` when a call is made out of order -/
def Phase.run : Phase → List Op → Option Phase
  | p, [] => some p
  | p, op :: rest =>
    match p.next op with
    | some q => q.run rest
    | none => none

/-- The buffers resized by a list of calls: shape, channel type, name and new length, in order -/
def resized : List Op → List (Shape × ChanType × String × Int)
  | [] => []
  | .resize shape ty name n :: rest => (shape, ty, name, n) :: resized rest
  | _ :: rest => resized rest

/-! ## Theorems -/

/-- Running the loop over `pre ++ post` is running it over `pre` and, when that raised nothing,
over `post` from the offset `pre` left -/
theorem forAtr_append (body : Attribute → Int → Run) (pre post : List Attribute) (offset : Int)
    (h : (forAtr body pre offset).err = none) :
    forAtr body (pre ++ post) offset =
      (forAtr body pre offset).andThen (forAtr body post (forAtr body pre offset).offset) := by
  induction pre generalizing offset with
  | nil => simp [forAtr, Run.andThen]
  | cons a rest ih =>
    rw [List.cons_append]
    simp only [forAtr] at h ⊢
    cases hs : (body a offset).err with
    | some e => simp [hs] at h
    | none =>
      simp only [hs] at h ⊢
      rw [ih _ h]
      simp [Run.andThen]

/-- When each descriptor that raises nothing moves the offset by `w`, a loop that raises nothing
moves it by the sum of `w` -/
theorem forAtr_offset (body : Attribute → Int → Run) (w : Attribute → Int)
    (hw : ∀ a off, (body a off).err = none → (body a off).offset = off + w a)
    (l : List Attribute) (offset : Int) (h : (forAtr body l offset).err = none) :
    (forAtr body l offset).offset = offset + (l.map w).sum := by
  induction l generalizing offset with
  | nil => simp [forAtr]
  | cons a rest ih =>
    simp only [forAtr] at h ⊢
    cases hs : (body a offset).err with
    | some e => simp [hs] at h
    | none =>
      simp only [hs] at h ⊢
      rw [ih _ h, hw a offset hs]
      simp [add_assoc]

/-- Splitting a loop at index `k` -/
theorem forAtr_split (body : Attribute → Int → Run) (w : Attribute → Int)
    (hw : ∀ a off, (body a off).err = none → (body a off).offset = off + w a)
    (l : List Attribute) (k : Nat) (base : Int)
    (h : (forAtr body (l.take k) base).err = none) :
    forAtr body l base =
      (forAtr body (l.take k) base).andThen
        (forAtr body (l.drop k) (base + ((l.take k).map w).sum)) := by
  have h1 := forAtr_append body (l.take k) (l.drop k) base h
  rw [List.take_append_drop] at h1
  rw [h1, forAtr_offset body w hw _ _ h]

/-- Case analysis on a descriptor following the `switch` on its type and the tests on its size -/
theorem Attribute.kind_cases (a : Attribute) (P : Prop)
    (f1 : a.type = 0 → a.size = 1 → P)
    (f3 : a.type = 0 → a.size = 3 → P)
    (fx : a.type = 0 → a.size ≠ 1 → a.size ≠ 3 → P)
    (i1 : a.type = 1 → a.size = 1 → P)
    (i3 : a.type = 1 → a.size = 3 → P)
    (ix : a.type = 1 → a.size ≠ 1 → a.size ≠ 3 → P)
    (s : a.type = 2 → P) (c : a.type = 3 → P) (x : a.type = 4 → P) (v : a.type = 5 → P)
    (o : a.type ≠ 0 → a.type ≠ 1 → a.type ≠ 2 → a.type ≠ 3 → a.type ≠ 4 → a.type ≠ 5 → P) :
    P := by
  by_cases h0 : a.type = 0
  · by_cases s1 : a.size = 1
    · exact f1 h0 s1
    · by_cases s3 : a.size = 3
      · exact f3 h0 s3
      · exact fx h0 s1 s3
  · by_cases h1 : a.type = 1
    · by_cases s1 : a.size = 1
      · exact i1 h1 s1
      · by_cases s3 : a.size = 3
        · exact i3 h1 s3
        · exact ix h1 s1 s3
    · by_cases h2 : a.type = 2
      · exact s h2
      · by_cases h3 : a.type = 3
        · exact c h3
        · by_cases h4 : a.type = 4
          · exact x h4
          · by_cases h5 : a.type = 5
            · exact v h5
            · exact o h0 h1 h2 h3 h4 h5

/-- A descriptor that raises nothing in `_readPointAtr_PointShape_body` moves the offset by `listedWidth` -/
theorem pointShape_body_offset (listed_in : ListedIn) (b : Bgeo) (allow : String) (n : Int)
    (a : Attribute) (off : Int)
    (h : (_readPointAtr_PointShape_body listed_in b allow n a off).err = none) :
    (_readPointAtr_PointShape_body listed_in b allow n a off).offset = off + listedWidth listed_in allow b a := by
  by_cases hl : listed_in a.name allow = true
  · revert h
    refine a.kind_cases _ ?_ ?_ ?_ ?_ ?_ ?_ ?_ ?_ ?_ ?_ ?_ <;> intros <;>
      simp_all [_readPointAtr_PointShape_body, NB_THROW, width, listedWidth]
  · simp [_readPointAtr_PointShape_body, hl, listedWidth]

/-- A descriptor that raises nothing in `_readPrimAtr_body` moves the offset by `listedWidth` -/
theorem prim_body_offset (listed_in : ListedIn) (b : Bgeo) (allow : String) (n : Int)
    (a : Attribute) (off : Int)
    (h : (_readPrimAtr_body listed_in b allow n a off).err = none) :
    (_readPrimAtr_body listed_in b allow n a off).offset = off + listedWidth listed_in allow b a := by
  by_cases hl : listed_in a.name allow = true
  · revert h
    refine a.kind_cases _ ?_ ?_ ?_ ?_ ?_ ?_ ?_ ?_ ?_ ?_ ?_ <;> intros <;>
      simp_all [_readPrimAtr_body, NB_THROW, width, listedWidth]
  · simp [_readPrimAtr_body, hl, listedWidth]

/-- A descriptor that raises nothing in `_readVtxAtr_body` moves the offset by `listedWidth` -/
theorem vtx_body_offset (listed_in : ListedIn) (b : Bgeo) (allow : String) (n : Int)
    (a : Attribute) (off : Int)
    (h : (_readVtxAtr_body listed_in b allow n a off).err = none) :
    (_readVtxAtr_body listed_in b allow n a off).offset = off + listedWidth listed_in allow b a := by
  by_cases hl : listed_in a.name allow = true
  · revert h
    refine a.kind_cases _ ?_ ?_ ?_ ?_ ?_ ?_ ?_ ?_ ?_ ?_ ?_ <;> intros <;>
      simp_all [_readVtxAtr_body, NB_THROW, width, listedWidth]
  · simp [_readVtxAtr_body, hl, listedWidth]

/-- A descriptor that raises nothing in `_readPointAtr_ParticleShape_body` moves the offset by `particleWidth` -/
theorem particleShape_body_offset (listed_in : ListedIn) (b : Bgeo) (allow : String) (n : Int)
    (a : Attribute) (off : Int)
    (h : (_readPointAtr_ParticleShape_body listed_in b allow n a off).err = none) :
    (_readPointAtr_ParticleShape_body listed_in b allow n a off).offset = off + particleWidth listed_in allow b a := by
  by_cases hl : listed_in a.name allow = true
  · revert h
    refine a.kind_cases _ ?_ ?_ ?_ ?_ ?_ ?_ ?_ ?_ ?_ ?_ ?_ <;> intros <;>
      simp_all [_readPointAtr_ParticleShape_body, NB_THROW, width, particleWidth, particleExtracted]
    · split_ifs <;> simp_all
      ring
    · split_ifs <;> simp_all
  · simp [_readPointAtr_ParticleShape_body, hl, particleWidth]

/-- A descriptor on which the body makes no call, raises nothing and keeps the offset can be
dropped from the list -/
theorem forAtr_skip (body : Attribute → Int → Run) (a : Attribute)
    (ha : ∀ off, body a off = ⟨off, [], none⟩) (pre post : List Attribute) (offset : Int) :
    forAtr body (pre ++ a :: post) offset = forAtr body (pre ++ post) offset := by
  induction pre generalizing offset with
  | nil => simp [forAtr, ha]
  | cons p rest ih =>
    rw [List.cons_append, List.cons_append]
    simp only [forAtr, ih]

/-- A descriptor on which the body always raises, having made no call, ends the loop: the
calls made are those of the descriptors before it -/
theorem forAtr_throw (body : Attribute → Int → Run) (a : Attribute)
    (ha : ∀ off, (body a off).ops = [] ∧ (body a off).err ≠ none)
    (pre post : List Attribute) (offset : Int) :
    (forAtr body (pre ++ a :: post) offset).err ≠ none ∧
      (forAtr body (pre ++ a :: post) offset).ops = (forAtr body pre offset).ops := by
  induction pre generalizing offset with
  | nil =>
    have h := ha offset
    cases hs : (body a offset).err with
    | none => exact absurd hs h.2
    | some e => simp [forAtr, hs, h.1]
  | cons p rest ih =>
    rw [List.cons_append]
    simp only [forAtr]
    cases hs : (body p offset).err with
    | some e => simp
    | none =>
      have h := ih (body p offset).offset
      simp [h.1, h.2]

/-- C1 does not hold of the code, by a defect of the code: each record of the sample file holds
the Float `a` and then the Float `b`, four bytes each. With every name requested the four
routines extract `b` four bytes after the section base, where its bytes lie; with only `b`
requested they extract `b` at the section base itself, where the bytes of `a` lie, because the
cursor is advanced only inside the branch taken for a requested name. -/
theorem skipped_descriptor_leaves_offset_unchanged :
    (extractions (_readPointAtr_PointShape listedAll skipFile "*" 4).ops
        = [⟨.point, .f32, 1, 16⟩, ⟨.point, .f32, 1, 20⟩] ∧
      extractions (_readPointAtr_PointShape listedExact skipFile "b" 4).ops
        = [⟨.point, .f32, 1, 16⟩] ∧
      sizeof32 * 4 + ((skipFile.pointAtr.take 1).map (width skipFile)).sum = 20 ∧
      extractions (_readPointAtr_PointShape listedExact skipFile "b" 4).ops ≠
        [⟨.point, .f32, 1,
          sizeof32 * 4 + ((skipFile.pointAtr.take 1).map (width skipFile)).sum⟩]) ∧
    (extractions (_readPointAtr_ParticleShape listedAll skipFile "*" 4).ops
        = [⟨.point, .f32, 1, 16⟩, ⟨.point, .f32, 1, 20⟩] ∧
      extractions (_readPointAtr_ParticleShape listedExact skipFile "b" 4).ops
        = [⟨.point, .f32, 1, 16⟩]) ∧
    (extractions (_readPrimAtr listedAll skipFile "*" 2).ops
        = [⟨.prim, .f32, 1, 37⟩, ⟨.prim, .f32, 1, 41⟩] ∧
      extractions (_readPrimAtr listedExact skipFile "b" 2).ops
        = [⟨.prim, .f32, 1, 37⟩]) ∧
    (extractions (_readVtxAtr listedAll skipFile "*" 2).ops
        = [⟨.vtx, .f32, 1, 9⟩, ⟨.vtx, .f32, 1, 13⟩] ∧
      extractions (_readVtxAtr listedExact skipFile "b" 2).ops
        = [⟨.vtx, .f32, 1, 9⟩]) := by
  decide

/-- The cursor of the code as written: in the four reading routines a descriptor whose name is
not in the allow-list makes no call and leaves the offset where it is, and a descriptor that is
extracted advances it by `type2Bytes(type) * size`. So whenever the first `k` descriptors raise
nothing, the routine goes on with descriptor `k` at the section base plus the widths of the
allow-listed descriptors before `k` (in the particle routine: of those allow-listed descriptors
it extracts), the widths of the skipped descriptors being left out. -/
theorem offset_sums_widths_of_extracted_descriptors (listed_in : ListedIn) (b : Bgeo)
    (allow : String) (n : Int) (k : Nat) (a : Attribute) (off : Int) :
    (listed_in a.name allow = false →
      _readPointAtr_PointShape_body listed_in b allow n a off = ⟨off, [], none⟩ ∧
      _readPointAtr_ParticleShape_body listed_in b allow n a off = ⟨off, [], none⟩ ∧
      _readPrimAtr_body listed_in b allow n a off = ⟨off, [], none⟩ ∧
      _readVtxAtr_body listed_in b allow n a off = ⟨off, [], none⟩) ∧
    ((forAtr (_readPointAtr_PointShape_body listed_in b allow n) (b.pointAtr.take k)
        (sizeof32 * 4)).err = none →
      _readPointAtr_PointShape listed_in b allow n =
        (forAtr (_readPointAtr_PointShape_body listed_in b allow n) (b.pointAtr.take k)
          (sizeof32 * 4)).andThen
        (forAtr (_readPointAtr_PointShape_body listed_in b allow n) (b.pointAtr.drop k)
          (sizeof32 * 4 + ((b.pointAtr.take k).map (listedWidth listed_in allow b)).sum))) ∧
    ((forAtr (_readPointAtr_ParticleShape_body listed_in b allow n) (b.pointAtr.take k)
        (sizeof32 * 4)).err = none →
      _readPointAtr_ParticleShape listed_in b allow n =
        (forAtr (_readPointAtr_ParticleShape_body listed_in b allow n) (b.pointAtr.take k)
          (sizeof32 * 4)).andThen
        (forAtr (_readPointAtr_ParticleShape_body listed_in b allow n) (b.pointAtr.drop k)
          (sizeof32 * 4 + ((b.pointAtr.take k).map (particleWidth listed_in allow b)).sum))) ∧
    ((forAtr (_readPrimAtr_body listed_in b allow n) (b.primAtr.take k)
        (b.bytesPerPrimLine - b.primAtrBytes)).err = none →
      _readPrimAtr listed_in b allow n =
        (forAtr (_readPrimAtr_body listed_in b allow n) (b.primAtr.take k)
          (b.bytesPerPrimLine - b.primAtrBytes)).andThen
        (forAtr (_readPrimAtr_body listed_in b allow n) (b.primAtr.drop k)
          (b.bytesPerPrimLine - b.primAtrBytes +
            ((b.primAtr.take k).map (listedWidth listed_in allow b)).sum))) ∧
    ((forAtr (_readVtxAtr_body listed_in b allow n) (b.vtxAtr.take k)
        (5 + b.idxBytes)).err = none →
      _readVtxAtr listed_in b allow n =
        (forAtr (_readVtxAtr_body listed_in b allow n) (b.vtxAtr.take k)
          (5 + b.idxBytes)).andThen
        (forAtr (_readVtxAtr_body listed_in b allow n) (b.vtxAtr.drop k)
          (5 + b.idxBytes + ((b.vtxAtr.take k).map (listedWidth listed_in allow b)).sum))) := by
  refine ⟨?_, ?_, ?_, ?_, ?_⟩
  · intro h
    simp [_readPointAtr_PointShape_body, _readPointAtr_ParticleShape_body, _readPrimAtr_body,
      _readVtxAtr_body, h]
  · exact forAtr_split _ _ (pointShape_body_offset listed_in b allow n) _ _ _
  · exact forAtr_split _ _ (particleShape_body_offset listed_in b allow n) _ _ _
  · exact forAtr_split _ _ (prim_body_offset listed_in b allow n) _ _ _
  · exact forAtr_split _ _ (vtx_body_offset listed_in b allow n) _ _ _

/-- The cursor of the code as written, on the sample file with only `b` requested, split after
the first descriptor -/
theorem offset_sums_widths_of_extracted_descriptors_witness :
    (listedExact "a" "b" = false ∧
      (forAtr (_readPointAtr_PointShape_body listedExact skipFile "b" 4)
        (skipFile.pointAtr.take 1) (sizeof32 * 4)).err = none ∧
      (forAtr (_readPointAtr_ParticleShape_body listedExact skipFile "b" 4)
        (skipFile.pointAtr.take 1) (sizeof32 * 4)).err = none ∧
      (forAtr (_readPrimAtr_body listedExact skipFile "b" 4) (skipFile.primAtr.take 1)
        (skipFile.bytesPerPrimLine - skipFile.primAtrBytes)).err = none ∧
      (forAtr (_readVtxAtr_body listedExact skipFile "b" 4) (skipFile.vtxAtr.take 1)
        (5 + skipFile.idxBytes)).err = none) ∧
    _readPointAtr_PointShape_body listedExact skipFile "b" 4 ⟨"a", 0, 1, [0]⟩ 16
      = ⟨16, [], none⟩ ∧
    _readPointAtr_PointShape listedExact skipFile "b" 4 =
      (forAtr (_readPointAtr_PointShape_body listedExact skipFile "b" 4)
        (skipFile.pointAtr.take 1) (sizeof32 * 4)).andThen
      (forAtr (_readPointAtr_PointShape_body listedExact skipFile "b" 4)
        (skipFile.pointAtr.drop 1)
        (sizeof32 * 4 + ((skipFile.pointAtr.take 1).map
          (listedWidth listedExact "b" skipFile)).sum)) ∧
    _readPointAtr_ParticleShape listedExact skipFile "b" 4 =
      (forAtr (_readPointAtr_ParticleShape_body listedExact skipFile "b" 4)
        (skipFile.pointAtr.take 1) (sizeof32 * 4)).andThen
      (forAtr (_readPointAtr_ParticleShape_body listedExact skipFile "b" 4)
        (skipFile.pointAtr.drop 1)
        (sizeof32 * 4 + ((skipFile.pointAtr.take 1).map
          (particleWidth listedExact "b" skipFile)).sum)) ∧
    _readPrimAtr listedExact skipFile "b" 4 =
      (forAtr (_readPrimAtr_body listedExact skipFile "b" 4) (skipFile.primAtr.take 1)
        (skipFile.bytesPerPrimLine - skipFile.primAtrBytes)).andThen
      (forAtr (_readPrimAtr_body listedExact skipFile "b" 4) (skipFile.primAtr.drop 1)
        (skipFile.bytesPerPrimLine - skipFile.primAtrBytes +
          ((skipFile.primAtr.take 1).map (listedWidth listedExact "b" skipFile)).sum)) ∧
    _readVtxAtr listedExact skipFile "b" 4 =
      (forAtr (_readVtxAtr_body listedExact skipFile "b" 4) (skipFile.vtxAtr.take 1)
        (5 + skipFile.idxBytes)).andThen
      (forAtr (_readVtxAtr_body listedExact skipFile "b" 4) (skipFile.vtxAtr.drop 1)
        (5 + skipFile.idxBytes +
          ((skipFile.vtxAtr.take 1).map (listedWidth listedExact "b" skipFile)).sum)) :=
  have h := offset_sums_widths_of_extracted_descriptors listedExact skipFile "b" 4 1
    ⟨"a", 0, 1, [0]⟩ 16
  ⟨by decide, (h.1 (by decide)).1, h.2.1 (by decide), h.2.2.1 (by decide),
    h.2.2.2.1 (by decide), h.2.2.2.2 (by decide)⟩

/-- C2: in the particle load phase an allow-listed Float attribute `life` of size 2 met at
cursor `c` makes two 1-wide extractions, at `c` and at `c + type2Bytes(Float)`, writes the first
to `Particle.life0` and the second to `Particle.life1` as scalar channels and nothing else, and
leaves the cursor at `c + 2 * type2Bytes(Float)`. -/
theorem particle_load_splits_life (listed_in : ListedIn) (b : Bgeo) (allow : String) (n : Int)
    (a : Attribute) (c : Int) (hl : listed_in a.name allow = true) (ht : a.type = 0)
    (hs : a.size = 2) (hn : a.name = "life") :
    extractions (_readPointAtr_ParticleShape_body listed_in b allow n a c).ops
        = [⟨.point, .f32, 1, c⟩, ⟨.point, .f32, 1, c + b.type2Bytes 0⟩] ∧
      written (_readPointAtr_ParticleShape_body listed_in b allow n a c).ops
        = [("Particle.life0", .c1f, .atr ⟨.point, .f32, 1, c⟩),
           ("Particle.life1", .c1f, .atr ⟨.point, .f32, 1, c + b.type2Bytes 0⟩)] ∧
      (_readPointAtr_ParticleShape_body listed_in b allow n a c).offset
        = c + 2 * b.type2Bytes 0 ∧
      (_readPointAtr_ParticleShape_body listed_in b allow n a c).err = none := by
  rw [hn] at hl
  simp [_readPointAtr_ParticleShape_body, hl, ht, hs, hn, extractions, written]
  ring

/-- Witness for C2: a `life` descriptor met at cursor 16 with four-byte floats -/
theorem particle_load_splits_life_witness :
    extractions (_readPointAtr_ParticleShape_body listedExact skipFile "life" 4
        ⟨"life", 0, 2, [0, 0]⟩ 16).ops
        = [⟨.point, .f32, 1, 16⟩, ⟨.point, .f32, 1, 16 + skipFile.type2Bytes 0⟩] ∧
      written (_readPointAtr_ParticleShape_body listedExact skipFile "life" 4
        ⟨"life", 0, 2, [0, 0]⟩ 16).ops
        = [("Particle.life0", .c1f, .atr ⟨.point, .f32, 1, 16⟩),
           ("Particle.life1", .c1f, .atr ⟨.point, .f32, 1, 16 + skipFile.type2Bytes 0⟩)] ∧
      (_readPointAtr_ParticleShape_body listedExact skipFile "life" 4
        ⟨"life", 0, 2, [0, 0]⟩ 16).offset = 16 + 2 * skipFile.type2Bytes 0 ∧
      (_readPointAtr_ParticleShape_body listedExact skipFile "life" 4
        ⟨"life", 0, 2, [0, 0]⟩ 16).err = none :=
  particle_load_splits_life listedExact skipFile "life" 4 ⟨"life", 0, 2, [0, 0]⟩ 16
    (by decide) (by decide) (by decide) (by decide)

/-- C3: a Vector3Float attribute named `v` or `velocity` registers no channel in the particle
declare phase, whatever the allow-list and wherever it stands in the table (the routine behaves
as if the descriptor were absent); in the particle load phase, when allow-listed and met at
cursor `c`, its one extraction at `c` is written to the channel `velocity` and the cursor moves
by `type2Bytes(type) * size`. -/
theorem velocity_is_aliased_not_declared (listed_in : ListedIn) (b : Bgeo) (allow : String)
    (n : Int) (a : Attribute) (c : Int) (pre post : List Attribute)
    (ht : a.type = 5) (hn : a.name = "v" ∨ a.name = "velocity") :
    _createParticleChannels_body listed_in allow a c = ⟨c, [], none⟩ ∧
      _createParticleChannels listed_in { b with pointAtr := pre ++ a :: post } allow =
        _createParticleChannels listed_in { b with pointAtr := pre ++ post } allow ∧
      (listed_in a.name allow = true →
        extractions (_readPointAtr_ParticleShape_body listed_in b allow n a c).ops
          = [⟨.point, .f32, a.size, c⟩] ∧
        written (_readPointAtr_ParticleShape_body listed_in b allow n a c).ops
          = [("velocity", .c3f, .atr ⟨.point, .f32, a.size, c⟩)] ∧
        (_readPointAtr_ParticleShape_body listed_in b allow n a c).offset
          = c + b.type2Bytes a.type * a.size ∧
        (_readPointAtr_ParticleShape_body listed_in b allow n a c).err = none) := by
  have hbody : ∀ off, _createParticleChannels_body listed_in allow a off = ⟨off, [], none⟩ := by
    intro off
    rcases hn with hn | hn <;> simp [_createParticleChannels_body, ht, hn]
  refine ⟨hbody c, ?_, ?_⟩
  · exact forAtr_skip _ a hbody pre post 0
  · intro hl
    rcases hn with hn | hn <;> rw [hn] at hl <;>
      simp [_readPointAtr_ParticleShape_body, ht, hn, hl, extractions, written]

/-- Witness for C3: a table holding a requested Vector3Float `v` after a Float `a` -/
theorem velocity_is_aliased_not_declared_witness :
    _createParticleChannels_body listedExact "v" ⟨"v", 5, 3, [0, 0, 0]⟩ 16 = ⟨16, [], none⟩ ∧
      _createParticleChannels listedExact
          { skipFile with pointAtr := [⟨"a", 0, 1, [0]⟩] ++ ⟨"v", 5, 3, [0, 0, 0]⟩ :: [] } "v" =
        _createParticleChannels listedExact
          { skipFile with pointAtr := [⟨"a", 0, 1, [0]⟩] ++ [] } "v" ∧
      extractions (_readPointAtr_ParticleShape_body listedExact skipFile "v" 4
          ⟨"v", 5, 3, [0, 0, 0]⟩ 16).ops = [⟨.point, .f32, 3, 16⟩] ∧
      written (_readPointAtr_ParticleShape_body listedExact skipFile "v" 4
          ⟨"v", 5, 3, [0, 0, 0]⟩ 16).ops
        = [("velocity", .c3f, .atr ⟨.point, .f32, 3, 16⟩)] ∧
      (_readPointAtr_ParticleShape_body listedExact skipFile "v" 4
          ⟨"v", 5, 3, [0, 0, 0]⟩ 16).offset = 16 + skipFile.type2Bytes 5 * 3 ∧
      (_readPointAtr_ParticleShape_body listedExact skipFile "v" 4
          ⟨"v", 5, 3, [0, 0, 0]⟩ 16).err = none :=
  ⟨(velocity_is_aliased_not_declared listedExact skipFile "v" 4 ⟨"v", 5, 3, [0, 0, 0]⟩ 16
      [⟨"a", 0, 1, [0]⟩] [] (by decide) (by decide)).1,
   (velocity_is_aliased_not_declared listedExact skipFile "v" 4 ⟨"v", 5, 3, [0, 0, 0]⟩ 16
      [⟨"a", 0, 1, [0]⟩] [] (by decide) (by decide)).2.1,
   (velocity_is_aliased_not_declared listedExact skipFile "v" 4 ⟨"v", 5, 3, [0, 0, 0]⟩ 16
      [⟨"a", 0, 1, [0]⟩] [] (by decide) (by decide)).2.2 (by decide)⟩

/-- C4: an allow-listed attribute of kind String, Char or Index (type 2, 3 or 4) makes each of
the five attribute routines raise at that attribute without a call for it: the loop body makes
no call and raises, and a routine whose table holds the attribute ends with an error, having
made only the calls of the descriptors before it. -/
theorem unsupported_kind_raises (listed_in : ListedIn) (b : Bgeo) (allow : String) (n : Int)
    (a : Attribute) (pre post : List Attribute) (hl : listed_in a.name allow = true)
    (hk : a.type = 2 ∨ a.type = 3 ∨ a.type = 4) :
    ((∀ c, (_createParticleChannels_body listed_in allow a c).ops = [] ∧
          (_createParticleChannels_body listed_in allow a c).err ≠ none) ∧
      (b.pointAtr = pre ++ a :: post →
        (_createParticleChannels listed_in b allow).err ≠ none ∧
        (_createParticleChannels listed_in b allow).ops =
          (forAtr (_createParticleChannels_body listed_in allow) pre 0).ops)) ∧
    ((∀ c, (_readPointAtr_PointShape_body listed_in b allow n a c).ops = [] ∧
          (_readPointAtr_PointShape_body listed_in b allow n a c).err ≠ none) ∧
      (b.pointAtr = pre ++ a :: post →
        (_readPointAtr_PointShape listed_in b allow n).err ≠ none ∧
        (_readPointAtr_PointShape listed_in b allow n).ops =
          (forAtr (_readPointAtr_PointShape_body listed_in b allow n) pre
            (sizeof32 * 4)).ops)) ∧
    ((∀ c, (_readPointAtr_ParticleShape_body listed_in b allow n a c).ops = [] ∧
          (_readPointAtr_ParticleShape_body listed_in b allow n a c).err ≠ none) ∧
      (b.pointAtr = pre ++ a :: post →
        (_readPointAtr_ParticleShape listed_in b allow n).err ≠ none ∧
        (_readPointAtr_ParticleShape listed_in b allow n).ops =
          (forAtr (_readPointAtr_ParticleShape_body listed_in b allow n) pre
            (sizeof32 * 4)).ops)) ∧
    ((∀ c, (_readPrimAtr_body listed_in b allow n a c).ops = [] ∧
          (_readPrimAtr_body listed_in b allow n a c).err ≠ none) ∧
      (b.primAtr = pre ++ a :: post →
        (_readPrimAtr listed_in b allow n).err ≠ none ∧
        (_readPrimAtr listed_in b allow n).ops =
          (forAtr (_readPrimAtr_body listed_in b allow n) pre
            (b.bytesPerPrimLine - b.primAtrBytes)).ops)) ∧
    ((∀ c, (_readVtxAtr_body listed_in b allow n a c).ops = [] ∧
          (_readVtxAtr_body listed_in b allow n a c).err ≠ none) ∧
      (b.vtxAtr = pre ++ a :: post →
        (_readVtxAtr listed_in b allow n).err ≠ none ∧
        (_readVtxAtr listed_in b allow n).ops =
          (forAtr (_readVtxAtr_body listed_in b allow n) pre (5 + b.idxBytes)).ops)) := by
  have h1 : ∀ c, (_createParticleChannels_body listed_in allow a c).ops = [] ∧
      (_createParticleChannels_body listed_in allow a c).err ≠ none := by
    intro c
    rcases hk with hk | hk | hk <;> simp [_createParticleChannels_body, hl, hk, NB_THROW]
  have h2 : ∀ c, (_readPointAtr_PointShape_body listed_in b allow n a c).ops = [] ∧
      (_readPointAtr_PointShape_body listed_in b allow n a c).err ≠ none := by
    intro c
    rcases hk with hk | hk | hk <;> simp [_readPointAtr_PointShape_body, hl, hk, NB_THROW]
  have h3 : ∀ c, (_readPointAtr_ParticleShape_body listed_in b allow n a c).ops = [] ∧
      (_readPointAtr_ParticleShape_body listed_in b allow n a c).err ≠ none := by
    intro c
    rcases hk with hk | hk | hk <;> simp [_readPointAtr_ParticleShape_body, hl, hk, NB_THROW]
  have h4 : ∀ c, (_readPrimAtr_body listed_in b allow n a c).ops = [] ∧
      (_readPrimAtr_body listed_in b allow n a c).err ≠ none := by
    intro c
    rcases hk with hk | hk | hk <;> simp [_readPrimAtr_body, hl, hk, NB_THROW]
  have h5 : ∀ c, (_readVtxAtr_body listed_in b allow n a c).ops = [] ∧
      (_readVtxAtr_body listed_in b allow n a c).err ≠ none := by
    intro c
    rcases hk with hk | hk | hk <;> simp [_readVtxAtr_body, hl, hk, NB_THROW]
  refine ⟨⟨h1, ?_⟩, ⟨h2, ?_⟩, ⟨h3, ?_⟩, ⟨h4, ?_⟩, ⟨h5, ?_⟩⟩
  · intro hb
    simpa [_createParticleChannels, hb] using forAtr_throw _ a h1 pre post 0
  · intro hb
    simpa [_readPointAtr_PointShape, hb] using forAtr_throw _ a h2 pre post (sizeof32 * 4)
  · intro hb
    simpa [_readPointAtr_ParticleShape, hb] using forAtr_throw _ a h3 pre post (sizeof32 * 4)
  · intro hb
    simpa [_readPrimAtr, hb] using
      forAtr_throw _ a h4 pre post (b.bytesPerPrimLine - b.primAtrBytes)
  · intro hb
    simpa [_readVtxAtr, hb] using forAtr_throw _ a h5 pre post (5 + b.idxBytes)

/-- Witness for C4: the sample file whose sections hold a requested String `s` after a Float -/
theorem unsupported_kind_raises_witness :
    (listedExact "s" "s" = true ∧
      stringFile.pointAtr = [⟨"a", 0, 1, [0]⟩] ++ ⟨"s", 2, 1, []⟩ :: [] ∧
      stringFile.primAtr = [⟨"a", 0, 1, [0]⟩] ++ ⟨"s", 2, 1, []⟩ :: [] ∧
      stringFile.vtxAtr = [⟨"a", 0, 1, [0]⟩] ++ ⟨"s", 2, 1, []⟩ :: []) ∧
    ((_createParticleChannels listedExact stringFile "s").err ≠ none ∧
      (_createParticleChannels listedExact stringFile "s").ops =
        (forAtr (_createParticleChannels_body listedExact "s") [⟨"a", 0, 1, [0]⟩] 0).ops) ∧
    ((_readPointAtr_PointShape listedExact stringFile "s" 4).err ≠ none ∧
      (_readPointAtr_PointShape listedExact stringFile "s" 4).ops =
        (forAtr (_readPointAtr_PointShape_body listedExact stringFile "s" 4)
          [⟨"a", 0, 1, [0]⟩] (sizeof32 * 4)).ops) ∧
    ((_readPointAtr_ParticleShape listedExact stringFile "s" 4).err ≠ none ∧
      (_readPointAtr_ParticleShape listedExact stringFile "s" 4).ops =
        (forAtr (_readPointAtr_ParticleShape_body listedExact stringFile "s" 4)
          [⟨"a", 0, 1, [0]⟩] (sizeof32 * 4)).ops) ∧
    ((_readPrimAtr listedExact stringFile "s" 4).err ≠ none ∧
      (_readPrimAtr listedExact stringFile "s" 4).ops =
        (forAtr (_readPrimAtr_body listedExact stringFile "s" 4) [⟨"a", 0, 1, [0]⟩]
          (stringFile.bytesPerPrimLine - stringFile.primAtrBytes)).ops) ∧
    ((_readVtxAtr listedExact stringFile "s" 4).err ≠ none ∧
      (_readVtxAtr listedExact stringFile "s" 4).ops =
        (forAtr (_readVtxAtr_body listedExact stringFile "s" 4) [⟨"a", 0, 1, [0]⟩]
          (5 + stringFile.idxBytes)).ops) :=
  have h := unsupported_kind_raises listedExact stringFile "s" 4 ⟨"s", 2, 1, []⟩
    [⟨"a", 0, 1, [0]⟩] [] (by decide) (by decide)
  ⟨by decide, h.1.2 rfl, h.2.1.2 rfl, h.2.2.1.2 rfl, h.2.2.2.1.2 rfl, h.2.2.2.2.2 rfl⟩

/-- C5, as stated, fails for the particle load routine: with a requested Float `w` of size 4
in the table it raises nothing; it extracts and writes nothing and ends at the section base. -/
theorem particle_load_accepts_unsupported_size :
    _readPointAtr_ParticleShape listedExact wideFile "w" 4 = ⟨16, [], none⟩ := by
  decide

/-- C5 (amended): an allow-listed Float or Int attribute whose size is neither 1 nor 3, and
which is not the Float `life` of size 2, makes `_createParticleChannels`, the mesh
`_readPointAtr`, `_readPrimAtr` and `_readVtxAtr` raise the unsupported-size error at that
attribute, so each of these routines ends with an error when its table holds it. The particle
`_readPointAtr` makes no call for it, raises nothing and keeps its cursor; `_loadBody` never
reaches it there, since in Particle mode the declare phase has raised and the load phase is not
entered. -/
theorem unsupported_size_raises_except_in_particle_load (listed_in : ListedIn) (b : Bgeo)
    (r : Reader) (bodyName : String) (allow : String) (n : Int) (a : Attribute)
    (pre post : List Attribute) (c : Int)
    (hl : listed_in a.name allow = true) (hk : a.type = 0 ∨ a.type = 1)
    (h1 : a.size ≠ 1) (h3 : a.size ≠ 3)
    (hlife : ¬ (a.type = 0 ∧ a.size = 2 ∧ a.name = "life")) :
    (_createParticleChannels_body listed_in allow a c =
        NB_THROW c (if a.type = 0 then .floatSize a.size else .intSize a.size) ∧
      _readPointAtr_PointShape_body listed_in b allow n a c =
        NB_THROW c (if a.type = 0 then .floatSize a.size else .intSize a.size) ∧
      _readPrimAtr_body listed_in b allow n a c =
        NB_THROW c (if a.type = 0 then .floatSize a.size else .intSize a.size) ∧
      _readVtxAtr_body listed_in b allow n a c =
        NB_THROW c (if a.type = 0 then .floatSize a.size else .intSize a.size) ∧
      _readPointAtr_ParticleShape_body listed_in b allow n a c = ⟨c, [], none⟩) ∧
    (b.pointAtr = pre ++ a :: post →
      (_createParticleChannels listed_in b allow).err ≠ none ∧
      (_readPointAtr_PointShape listed_in b allow n).err ≠ none) ∧
    (b.primAtr = pre ++ a :: post → (_readPrimAtr listed_in b allow n).err ≠ none) ∧
    (b.vtxAtr = pre ++ a :: post → (_readVtxAtr listed_in b allow n).err ≠ none) ∧
    (b.pointAtr = pre ++ a :: post → r.sigFilter = "Particle" →
      r.pointAttributes = allow →
      (_loadBody listed_in r bodyName b).err ≠ none ∧
      (_loadBody listed_in r bodyName b).ops =
        [.createBody r.sigFilter bodyName, .readPoints] ++
          (_createParticleChannels listed_in b allow).ops) := by
  have e1 : ∀ c, _createParticleChannels_body listed_in allow a c =
      NB_THROW c (if a.type = 0 then .floatSize a.size else .intSize a.size) := by
    intro c
    rcases hk with hk | hk
    · have h2 : ¬ (a.size = 2 ∧ a.name = "life") := fun h => hlife ⟨hk, h⟩
      simp [_createParticleChannels_body, hl, hk, h1, h3, h2]
    · simp [_createParticleChannels_body, hl, hk, h1, h3]
  have e2 : ∀ c, _readPointAtr_PointShape_body listed_in b allow n a c =
      NB_THROW c (if a.type = 0 then .floatSize a.size else .intSize a.size) := by
    intro c
    rcases hk with hk | hk <;> simp [_readPointAtr_PointShape_body, hl, hk, h1, h3]
  have e3 : ∀ c, _readPrimAtr_body listed_in b allow n a c =
      NB_THROW c (if a.type = 0 then .floatSize a.size else .intSize a.size) := by
    intro c
    rcases hk with hk | hk <;> simp [_readPrimAtr_body, hl, hk, h1, h3]
  have e4 : ∀ c, _readVtxAtr_body listed_in b allow n a c =
      NB_THROW c (if a.type = 0 then .floatSize a.size else .intSize a.size) := by
    intro c
    rcases hk with hk | hk <;> simp [_readVtxAtr_body, hl, hk, h1, h3]
  have e5 : _readPointAtr_ParticleShape_body listed_in b allow n a c = ⟨c, [], none⟩ := by
    rcases hk with hk | hk
    · have h2 : ¬ (a.size = 2 ∧ a.name = "life") := fun h => hlife ⟨hk, h⟩
      simp [_readPointAtr_ParticleShape_body, hl, hk, h1, h3, h2]
    · simp [_readPointAtr_ParticleShape_body, hl, hk, h1, h3]
  have t1 : b.pointAtr = pre ++ a :: post →
      (_createParticleChannels listed_in b allow).err ≠ none := by
    intro hb
    have := forAtr_throw (_createParticleChannels_body listed_in allow) a
      (fun c => by rw [e1 c]; simp [NB_THROW]) pre post 0
    simpa [_createParticleChannels, hb] using this.1
  refine ⟨⟨e1 c, e2 c, e3 c, e4 c, e5⟩, ?_, ?_, ?_, ?_⟩
  · intro hb
    refine ⟨t1 hb, ?_⟩
    have := forAtr_throw (_readPointAtr_PointShape_body listed_in b allow n) a
      (fun c => by rw [e2 c]; simp [NB_THROW]) pre post (sizeof32 * 4)
    simpa [_readPointAtr_PointShape, hb] using this.1
  · intro hb
    have := forAtr_throw (_readPrimAtr_body listed_in b allow n) a
      (fun c => by rw [e3 c]; simp [NB_THROW]) pre post (b.bytesPerPrimLine - b.primAtrBytes)
    simpa [_readPrimAtr, hb] using this.1
  · intro hb
    have := forAtr_throw (_readVtxAtr_body listed_in b allow n) a
      (fun c => by rw [e4 c]; simp [NB_THROW]) pre post (5 + b.idxBytes)
    simpa [_readVtxAtr, hb] using this.1
  · intro hb hsig hall
    have hne := t1 hb
    have hmesh : r.sigFilter ≠ "Mesh" := by rw [hsig]; decide
    cases he : (_createParticleChannels listed_in b allow).err with
    | none => exact absurd he hne
    | some e => simp [_loadBody, hmesh, hsig, hall, he]

/-- Witness for C5 (amended): the sample file whose sections hold a requested Float `w` of
size 4 after a Float `a` -/
theorem unsupported_size_raises_except_in_particle_load_witness :
    (listedExact "w" "w" = true ∧
      wideFile.pointAtr = [⟨"a", 0, 1, [0]⟩] ++ ⟨"w", 0, 4, [0, 0, 0, 0]⟩ :: [] ∧
      wideFile.primAtr = [⟨"a", 0, 1, [0]⟩] ++ ⟨"w", 0, 4, [0, 0, 0, 0]⟩ :: [] ∧
      wideFile.vtxAtr = [⟨"a", 0, 1, [0]⟩] ++ ⟨"w", 0, 4, [0, 0, 0, 0]⟩ :: []) ∧
    (_createParticleChannels_body listedExact "w" ⟨"w", 0, 4, [0, 0, 0, 0]⟩ 20 =
        NB_THROW 20 (.floatSize 4) ∧
      _readPointAtr_ParticleShape_body listedExact wideFile "w" 4
        ⟨"w", 0, 4, [0, 0, 0, 0]⟩ 20 = ⟨20, [], none⟩) ∧
    ((_createParticleChannels listedExact wideFile "w").err ≠ none ∧
      (_readPointAtr_PointShape listedExact wideFile "w" 4).err ≠ none) ∧
    (_readPrimAtr listedExact wideFile "w" 4).err ≠ none ∧
    (_readVtxAtr listedExact wideFile "w" 4).err ≠ none ∧
    ((_loadBody listedExact ⟨"Particle", "w", "", "", false⟩ "body" wideFile).err ≠ none ∧
      (_loadBody listedExact ⟨"Particle", "w", "", "", false⟩ "body" wideFile).ops =
        [.createBody "Particle" "body", .readPoints] ++
          (_createParticleChannels listedExact wideFile "w").ops) :=
  have h := unsupported_size_raises_except_in_particle_load listedExact wideFile
    ⟨"Particle", "w", "", "", false⟩ "body" "w" 4 ⟨"w", 0, 4, [0, 0, 0, 0]⟩
    [⟨"a", 0, 1, [0]⟩] [] 20 (by decide) (by decide) (by decide) (by decide) (by decide)
  ⟨by decide, ⟨h.1.1, h.1.2.2.2.2⟩, h.2.1 rfl, h.2.2.1 rfl, h.2.2.2.1 rfl,
    h.2.2.2.2 rfl rfl rfl⟩

/-- An exception raised by the loop was raised by the body on some descriptor -/
theorem forAtr_err (body : Attribute → Int → Run) (P : Error → Prop)
    (hb : ∀ a off e, (body a off).err = some e → P e) (l : List Attribute) (offset : Int)
    (e : Error) (h : (forAtr body l offset).err = some e) : P e := by
  induction l generalizing offset with
  | nil => simp [forAtr] at h
  | cons a rest ih =>
    simp only [forAtr] at h
    cases hs : (body a offset).err with
    | some e1 =>
      simp only [hs] at h
      cases h
      exact hb a offset e hs
    | none =>
      simp only [hs] at h
      exact ih _ h

/-- No attribute routine raises the incompatible-signature exception -/
theorem attribute_routines_raise_no_signature_error (listed_in : ListedIn) (b : Bgeo)
    (allow : String) (n : Int) (s : String) :
    (_createParticleChannels listed_in b allow).err ≠ some (.signature s) ∧
    (_readPointAtr_PointShape listed_in b allow n).err ≠ some (.signature s) ∧
    (_readPointAtr_ParticleShape listed_in b allow n).err ≠ some (.signature s) ∧
    (_readPrimAtr listed_in b allow n).err ≠ some (.signature s) ∧
    (_readVtxAtr listed_in b allow n).err ≠ some (.signature s) := by
  refine ⟨?_, ?_, ?_, ?_, ?_⟩ <;> intro h
  · refine forAtr_err _ (fun e => e ≠ .signature s) ?_ _ _ _ h rfl
    intro a off e he hc
    subst hc
    have key : (_createParticleChannels_body listed_in allow a off).err ≠ some (.signature s) := by
      by_cases hl : listed_in a.name allow = true
      · refine a.kind_cases _ ?_ ?_ ?_ ?_ ?_ ?_ ?_ ?_ ?_ ?_ ?_ <;> intros <;>
          simp [_createParticleChannels_body, NB_THROW, *] <;> split_ifs <;> simp
      · simp [_createParticleChannels_body, hl]
    exact key he
  · refine forAtr_err _ (fun e => e ≠ .signature s) ?_ _ _ _ h rfl
    intro a off e he hc
    subst hc
    have key : (_readPointAtr_PointShape_body listed_in b allow n a off).err ≠ some (.signature s) := by
      by_cases hl : listed_in a.name allow = true
      · refine a.kind_cases _ ?_ ?_ ?_ ?_ ?_ ?_ ?_ ?_ ?_ ?_ ?_ <;> intros <;>
          simp [_readPointAtr_PointShape_body, NB_THROW, *]
      · simp [_readPointAtr_PointShape_body, hl]
    exact key he
  · refine forAtr_err _ (fun e => e ≠ .signature s) ?_ _ _ _ h rfl
    intro a off e he hc
    subst hc
    have key : (_readPointAtr_ParticleShape_body listed_in b allow n a off).err ≠ some (.signature s) := by
      by_cases hl : listed_in a.name allow = true
      · refine a.kind_cases _ ?_ ?_ ?_ ?_ ?_ ?_ ?_ ?_ ?_ ?_ ?_ <;> intros <;>
          simp [_readPointAtr_ParticleShape_body, NB_THROW, *] <;> split_ifs <;> simp
      · simp [_readPointAtr_ParticleShape_body, hl]
    exact key he
  · refine forAtr_err _ (fun e => e ≠ .signature s) ?_ _ _ _ h rfl
    intro a off e he hc
    subst hc
    have key : (_readPrimAtr_body listed_in b allow n a off).err ≠ some (.signature s) := by
      by_cases hl : listed_in a.name allow = true
      · refine a.kind_cases _ ?_ ?_ ?_ ?_ ?_ ?_ ?_ ?_ ?_ ?_ ?_ <;> intros <;>
          simp [_readPrimAtr_body, NB_THROW, *]
      · simp [_readPrimAtr_body, hl]
    exact key he
  · refine forAtr_err _ (fun e => e ≠ .signature s) ?_ _ _ _ h rfl
    intro a off e he hc
    subst hc
    have key : (_readVtxAtr_body listed_in b allow n a off).err ≠ some (.signature s) := by
      by_cases hl : listed_in a.name allow = true
      · refine a.kind_cases _ ?_ ?_ ?_ ?_ ?_ ?_ ?_ ?_ ?_ ?_ ?_ <;> intros <;>
          simp [_readVtxAtr_body, NB_THROW, *]
      · simp [_readVtxAtr_body, hl]
    exact key he

/-- C6: `_loadBody` raises the incompatible-signature exception for every signature filter
other than `Mesh` and `Particle`, having done nothing but create the body and read the points;
for `Mesh` and `Particle` it never raises that exception; and a `Mesh` request on a file with
zero primitives, once the point attributes are read, resizes the index buffer to 0. -/
theorem loadBody_rejects_other_signatures (listed_in : ListedIn) (r : Reader)
    (bodyName : String) (b : Bgeo) :
    (r.sigFilter ≠ "Mesh" → r.sigFilter ≠ "Particle" →
      _loadBody listed_in r bodyName b =
        ⟨[.createBody r.sigFilter bodyName, .readPoints], some (.signature r.sigFilter)⟩) ∧
    (r.sigFilter = "Mesh" ∨ r.sigFilter = "Particle" →
      ∀ s, (_loadBody listed_in r bodyName b).err ≠ some (.signature s)) ∧
    (r.sigFilter = "Mesh" → b.nPrims = 0 →
      (_readPointAtr_PointShape listed_in b r.pointAttributes b.nPoints).err = none →
      Op.resize .triangle .c3i "index" 0 ∈ (_loadBody listed_in r bodyName b).ops) := by
  refine ⟨?_, ?_, ?_⟩
  · intro h1 h2
    simp [_loadBody, h1, h2]
  · intro h s
    have hP := attribute_routines_raise_no_signature_error listed_in b r.pointAttributes
      b.nPoints s
    have hQ := attribute_routines_raise_no_signature_error listed_in b r.primitiveAttributes
      b.nPrims s
    have hV := attribute_routines_raise_no_signature_error listed_in b r.vertexAttributes
      b.nPrims s
    rcases h with h | h
    · simp only [_loadBody, h, if_true]
      split
      · rename_i e he
        intro hc
        simp only [Option.some.injEq] at hc
        rw [hc] at he
        exact hP.2.1 he
      · split
        · rename_i e he
          intro hc
          simp only [Option.some.injEq] at hc
          rw [hc] at he
          exact hQ.2.2.2.1 he
        · split
          · rename_i e he
            intro hc
            simp only [Option.some.injEq] at hc
            rw [hc] at he
            exact hV.2.2.2.2 he
          · simp
    · have hm : ¬ ("Particle" = "Mesh") := by decide
      simp only [_loadBody, h, hm, if_true, if_false]
      split
      · rename_i e he
        intro hc
        simp only [Option.some.injEq] at hc
        rw [hc] at he
        exact hP.1 he
      · split
        · rename_i e he
          intro hc
          simp only [Option.some.injEq] at hc
          rw [hc] at he
          exact hP.2.2.1 he
        · simp
  · intro h h0 hp
    simp only [_loadBody, h, if_true, hp, h0]
    split
    · simp
    · split <;> simp

/-- Witness for C6: the signature `Volume` is rejected; `Mesh` on a file with no primitives
and no requested attribute is not -/
theorem loadBody_rejects_other_signatures_witness :
    ("Volume" ≠ "Mesh" ∧ "Volume" ≠ "Particle" ∧ { skipFile with nPrims := 0 }.nPrims = 0 ∧
      (_readPointAtr_PointShape listedExact { skipFile with nPrims := 0 } "" 4).err = none) ∧
    _loadBody listedExact ⟨"Volume", "", "", "", false⟩ "body" skipFile =
      ⟨[.createBody "Volume" "body", .readPoints], some (.signature "Volume")⟩ ∧
    (∀ s, (_loadBody listedExact ⟨"Mesh", "", "", "", false⟩ "body"
      { skipFile with nPrims := 0 }).err ≠ some (.signature s)) ∧
    Op.resize .triangle .c3i "index" 0 ∈
      (_loadBody listedExact ⟨"Mesh", "", "", "", false⟩ "body"
        { skipFile with nPrims := 0 }).ops :=
  ⟨by decide,
   (loadBody_rejects_other_signatures listedExact ⟨"Volume", "", "", "", false⟩ "body"
      skipFile).1 (by decide) (by decide),
   (loadBody_rejects_other_signatures listedExact ⟨"Mesh", "", "", "", false⟩ "body"
      { skipFile with nPrims := 0 }).2.1 (Or.inl rfl),
   (loadBody_rejects_other_signatures listedExact ⟨"Mesh", "", "", "", false⟩ "body"
      { skipFile with nPrims := 0 }).2.2 rfl rfl (by decide)⟩

/-- Appending different suffixes to one string gives different strings -/
theorem append_ne_append (s t u : String) (h : t ≠ u) : s ++ t ≠ s ++ u := by
  intro hc
  apply h
  have := congrArg String.data hc
  simp only [String.data_append, List.append_cancel_left_eq] at this
  exact String.ext this

/-- C7: in `_readVtxAtr` an allow-listed vertex attribute of width 3 (Float of size 3, Int of
size 3, or Vector3Float) met at cursor `c` is extracted exactly three times, at `c`,
`c + spacing` and `c + 2 * spacing` with `spacing = getIdxBytes() + getVtxAtrBytes()`; the three
arrays are written, in this order, to the channels of corner 0, 1 and 2, whose names are
pairwise distinct; the cursor then stands at `c + type2Bytes(type) * size`. -/
theorem vertex_attribute_read_at_three_corners (listed_in : ListedIn) (b : Bgeo)
    (allow : String) (n : Int) (a : Attribute) (c : Int)
    (hl : listed_in a.name allow = true)
    (hk : (a.type = 0 ∧ a.size = 3) ∨ (a.type = 1 ∧ a.size = 3) ∨ a.type = 5) :
    extractions (_readVtxAtr_body listed_in b allow n a c).ops =
        [⟨.prim, if a.type = 1 then .u32 else .f32, a.size, c⟩,
         ⟨.prim, if a.type = 1 then .u32 else .f32, a.size,
            c + (b.idxBytes + b.vtxAtrBytes)⟩,
         ⟨.prim, if a.type = 1 then .u32 else .f32, a.size,
            c + 2 * (b.idxBytes + b.vtxAtrBytes)⟩] ∧
      written (_readVtxAtr_body listed_in b allow n a c).ops =
        [(a.name ++ (if a.type = 0 then "$v0$3f" else "$v0"),
            if a.type = 1 then .c3i else .c3f,
            .atr ⟨.prim, if a.type = 1 then .u32 else .f32, a.size, c⟩),
         (a.name ++ (if a.type = 0 then "$v1$3f" else "$v1"),
            if a.type = 1 then .c3i else .c3f,
            .atr ⟨.prim, if a.type = 1 then .u32 else .f32, a.size,
              c + (b.idxBytes + b.vtxAtrBytes)⟩),
         (a.name ++ (if a.type = 0 then "$v2$3f" else "$v2"),
            if a.type = 1 then .c3i else .c3f,
            .atr ⟨.prim, if a.type = 1 then .u32 else .f32, a.size,
              c + 2 * (b.idxBytes + b.vtxAtrBytes)⟩)] ∧
      (a.name ++ (if a.type = 0 then "$v0$3f" else "$v0") ≠
          a.name ++ (if a.type = 0 then "$v1$3f" else "$v1") ∧
        a.name ++ (if a.type = 0 then "$v0$3f" else "$v0") ≠
          a.name ++ (if a.type = 0 then "$v2$3f" else "$v2") ∧
        a.name ++ (if a.type = 0 then "$v1$3f" else "$v1") ≠
          a.name ++ (if a.type = 0 then "$v2$3f" else "$v2")) ∧
      (_readVtxAtr_body listed_in b allow n a c).offset = c + b.type2Bytes a.type * a.size ∧
      (_readVtxAtr_body listed_in b allow n a c).err = none := by
  have hne : (a.name ++ (if a.type = 0 then "$v0$3f" else "$v0") ≠
        a.name ++ (if a.type = 0 then "$v1$3f" else "$v1") ∧
      a.name ++ (if a.type = 0 then "$v0$3f" else "$v0") ≠
        a.name ++ (if a.type = 0 then "$v2$3f" else "$v2") ∧
      a.name ++ (if a.type = 0 then "$v1$3f" else "$v1") ≠
        a.name ++ (if a.type = 0 then "$v2$3f" else "$v2")) := by
    refine ⟨append_ne_append _ _ _ ?_, append_ne_append _ _ _ ?_, append_ne_append _ _ _ ?_⟩ <;>
      split_ifs <;> decide
  rcases hk with ⟨ht, hs⟩ | ⟨ht, hs⟩ | ht
  · refine ⟨?_, ?_, hne, ?_, ?_⟩ <;>
      simp [_readVtxAtr_body, hl, ht, hs, extractions, written]
  · refine ⟨?_, ?_, hne, ?_, ?_⟩ <;>
      simp [_readVtxAtr_body, hl, ht, hs, extractions, written]
  · refine ⟨?_, ?_, hne, ?_, ?_⟩ <;>
      simp [_readVtxAtr_body, hl, ht, extractions, written]

/-- Witness for C7: a requested Vector3Float `N` met at cursor 9 -/
theorem vertex_attribute_read_at_three_corners_witness :
    extractions (_readVtxAtr_body listedExact skipFile "N" 2 ⟨"N", 5, 3, [0, 0, 0]⟩ 9).ops =
        [⟨.prim, .f32, 3, 9⟩, ⟨.prim, .f32, 3, 21⟩, ⟨.prim, .f32, 3, 33⟩] ∧
      written (_readVtxAtr_body listedExact skipFile "N" 2 ⟨"N", 5, 3, [0, 0, 0]⟩ 9).ops =
        [("N$v0", .c3f, .atr ⟨.prim, .f32, 3, 9⟩),
         ("N$v1", .c3f, .atr ⟨.prim, .f32, 3, 21⟩),
         ("N$v2", .c3f, .atr ⟨.prim, .f32, 3, 33⟩)] ∧
      (_readVtxAtr_body listedExact skipFile "N" 2 ⟨"N", 5, 3, [0, 0, 0]⟩ 9).offset = 21 :=
  have h := vertex_attribute_read_at_three_corners listedExact skipFile "N" 2
    ⟨"N", 5, 3, [0, 0, 0]⟩ 9 (by decide) (by decide)
  ⟨h.1, h.2.1, h.2.2.2.1⟩

/-- C8, as stated, fails for Float attributes of size 3: the requested vertex attribute `N` is
written to `N$v0$3f`, `N$v1$3f` and `N$v2$3f`, none of which is `N$v0`, `N$v1` or `N$v2`. -/
theorem float3_vertex_channels_carry_3f_suffix :
    (written (_readVtxAtr_body listedExact skipFile "N" 2 ⟨"N", 0, 3, [0, 0, 0]⟩ 9).ops).map
        Prod.fst = ["N$v0$3f", "N$v1$3f", "N$v2$3f"] ∧
      ["N$v0$3f", "N$v1$3f", "N$v2$3f"] ≠ ["N$v0", "N$v1", "N$v2"] := by
  decide

/-- C8 (amended): in `_readVtxAtr` an allow-listed Int attribute of size 3 or Vector3Float
attribute named `n` is registered and written as `n$v0`, `n$v1`, `n$v2`; an allow-listed Float
attribute of size 3 as `n$v0$3f`, `n$v1$3f`, `n$v2$3f`; an allow-listed Float or Int attribute
of size 1 as the single channel `n$v`. -/
theorem vertex_channel_names (listed_in : ListedIn) (b : Bgeo) (allow : String) (n : Int)
    (a : Attribute) (c : Int) (hl : listed_in a.name allow = true) :
    ((a.type = 1 ∧ a.size = 3) ∨ a.type = 5 →
      (registered (_readVtxAtr_body listed_in b allow n a c).ops).map Prod.fst =
        [a.name ++ "$v0", a.name ++ "$v1", a.name ++ "$v2"] ∧
      (written (_readVtxAtr_body listed_in b allow n a c).ops).map Prod.fst =
        [a.name ++ "$v0", a.name ++ "$v1", a.name ++ "$v2"]) ∧
    (a.type = 0 ∧ a.size = 3 →
      (registered (_readVtxAtr_body listed_in b allow n a c).ops).map Prod.fst =
        [a.name ++ "$v0$3f", a.name ++ "$v1$3f", a.name ++ "$v2$3f"] ∧
      (written (_readVtxAtr_body listed_in b allow n a c).ops).map Prod.fst =
        [a.name ++ "$v0$3f", a.name ++ "$v1$3f", a.name ++ "$v2$3f"]) ∧
    ((a.type = 0 ∨ a.type = 1) ∧ a.size = 1 →
      (registered (_readVtxAtr_body listed_in b allow n a c).ops).map Prod.fst =
        [a.name ++ "$v"] ∧
      (written (_readVtxAtr_body listed_in b allow n a c).ops).map Prod.fst =
        [a.name ++ "$v"]) := by
  refine ⟨?_, ?_, ?_⟩
  · rintro (⟨ht, hs⟩ | ht)
    · simp [_readVtxAtr_body, hl, ht, hs, registered, written]
    · simp [_readVtxAtr_body, hl, ht, registered, written]
  · rintro ⟨ht, hs⟩
    simp [_readVtxAtr_body, hl, ht, hs, registered, written]
  · rintro ⟨ht | ht, hs⟩ <;> simp [_readVtxAtr_body, hl, ht, hs, registered, written]

/-- Witness for C8 (amended): the requested vertex attribute `N` as an Int of size 3, as a
Float of size 3 and as a Float of size 1 -/
theorem vertex_channel_names_witness :
    (written (_readVtxAtr_body listedExact skipFile "N" 2 ⟨"N", 1, 3, [0, 0, 0]⟩ 9).ops).map
        Prod.fst = ["N" ++ "$v0", "N" ++ "$v1", "N" ++ "$v2"] ∧
      (written (_readVtxAtr_body listedExact skipFile "N" 2 ⟨"N", 0, 3, [0, 0, 0]⟩ 9).ops).map
        Prod.fst = ["N" ++ "$v0$3f", "N" ++ "$v1$3f", "N" ++ "$v2$3f"] ∧
      (written (_readVtxAtr_body listedExact skipFile "N" 2 ⟨"N", 0, 1, [0]⟩ 9).ops).map
        Prod.fst = ["N" ++ "$v"] :=
  ⟨((vertex_channel_names listedExact skipFile "N" 2 ⟨"N", 1, 3, [0, 0, 0]⟩ 9
      (by decide)).1 (by decide)).2,
   ((vertex_channel_names listedExact skipFile "N" 2 ⟨"N", 0, 3, [0, 0, 0]⟩ 9
      (by decide)).2.1 (by decide)).2,
   ((vertex_channel_names listedExact skipFile "N" 2 ⟨"N", 0, 1, [0]⟩ 9
      (by decide)).2.2 (by decide)).2⟩

/-- The registered channels of two lists of calls, one after the other -/
theorem registered_append (xs ys : List Op) :
    registered (xs ++ ys) = registered xs ++ registered ys := by
  induction xs with
  | nil => rfl
  | cons o rest ih => cases o <;> simp [registered, ih]

/-- A channel registered by the loop was registered by the body on some descriptor -/
theorem forAtr_registered (body : Attribute → Int → Run) (l : List Attribute) (offset : Int)
    (x : String × ChanType × List Nat) (h : x ∈ registered (forAtr body l offset).ops) :
    ∃ a ∈ l, ∃ off, x ∈ registered (body a off).ops := by
  induction l generalizing offset with
  | nil => simp [forAtr, registered] at h
  | cons a rest ih =>
    simp only [forAtr] at h
    cases hs : (body a offset).err with
    | some e =>
      simp only [hs] at h
      exact ⟨a, List.mem_cons_self _ _, offset, h⟩
    | none =>
      simp only [hs, registered_append, List.mem_append] at h
      rcases h with h | h
      · exact ⟨a, List.mem_cons_self _ _, offset, h⟩
      · obtain ⟨a1, ha1, off, hx⟩ := ih _ h
        exact ⟨a1, List.mem_cons_of_mem _ ha1, off, hx⟩

/-- The particle name of a Float of size 3 is not the particle name of a Vector3Float -/
theorem particle_3f_name_ne (nm : String) :
    "Particle." ++ nm ++ "$3f" ≠ "Particle." ++ nm ∧ "Particle." ++ nm ++ "$3f" ≠ "velocity" := by
  constructor
  · intro hc
    have := congrArg String.length hc
    simp [String.length_append] at this
    exact absurd this (by decide)
  · intro hc
    have := congrArg String.data hc
    simp at this

/-- C9: for every base name `nm`, an allow-listed Float attribute `nm` of size 3 is registered
and written in particle mode as `Particle.nm$3f`, while an allow-listed Vector3Float attribute
`nm` is registered, if at all, as `Particle.nm` and written as `Particle.nm` or `velocity`; the
first name differs from the other two, so a table holding both attributes writes two distinct
channels and registers no channel twice. -/
theorem particle_float3_and_vector_names_differ (listed_in : ListedIn) (b : Bgeo)
    (allow : String) (n : Int) (nm : String) (dF dV : List Nat) (sz : Int) (c : Int)
    (hl : listed_in nm allow = true) :
    ((registered (_createParticleChannels_body listed_in allow ⟨nm, 0, 3, dF⟩ c).ops).map
        Prod.fst = ["Particle." ++ nm ++ "$3f"] ∧
      (∀ x ∈ (registered (_createParticleChannels_body listed_in allow
          ⟨nm, 5, sz, dV⟩ c).ops).map Prod.fst, x = "Particle." ++ nm)) ∧
    ((written (_readPointAtr_ParticleShape_body listed_in b allow n ⟨nm, 0, 3, dF⟩ c).ops).map
        Prod.fst = ["Particle." ++ nm ++ "$3f"] ∧
      ((written (_readPointAtr_ParticleShape_body listed_in b allow n
          ⟨nm, 5, sz, dV⟩ c).ops).map Prod.fst = ["Particle." ++ nm] ∨
        (written (_readPointAtr_ParticleShape_body listed_in b allow n
          ⟨nm, 5, sz, dV⟩ c).ops).map Prod.fst = ["velocity"])) ∧
    ("Particle." ++ nm ++ "$3f" ≠ "Particle." ++ nm ∧
      "Particle." ++ nm ++ "$3f" ≠ "velocity") ∧
    (((written (_readPointAtr_ParticleShape listed_in
          { b with pointAtr := [⟨nm, 0, 3, dF⟩, ⟨nm, 5, sz, dV⟩] } allow n).ops).map
        Prod.fst).length = 2 ∧
      ((written (_readPointAtr_ParticleShape listed_in
          { b with pointAtr := [⟨nm, 0, 3, dF⟩, ⟨nm, 5, sz, dV⟩] } allow n).ops).map
        Prod.fst).Nodup ∧
      ((registered (_createParticleChannels listed_in
          { b with pointAtr := [⟨nm, 0, 3, dF⟩, ⟨nm, 5, sz, dV⟩] } allow).ops).map
        Prod.fst).Nodup) := by
  have hne := particle_3f_name_ne nm
  have dF3 : ∀ off, _createParticleChannels_body listed_in allow ⟨nm, 0, 3, dF⟩ off =
      ⟨off, [.guaranteeChannel .body .c3f ("Particle." ++ nm ++ "$3f")
        (copyBufLocal dF 3)], none⟩ := by
    intro off
    simp [_createParticleChannels_body, hl]
  have lF3 : ∀ bb off, _readPointAtr_ParticleShape_body listed_in bb allow n ⟨nm, 0, 3, dF⟩ off =
      ⟨off + bb.type2Bytes 0 * 3,
        [.getAtrArr ⟨.point, .f32, 3, off⟩,
         .blockChannelData .c3f ("Particle." ++ nm ++ "$3f")
           (.atr ⟨.point, .f32, 3, off⟩) n], none⟩ := by
    intro bb off
    simp [_readPointAtr_ParticleShape_body, hl]
  by_cases hv : nm = "v" ∨ nm = "velocity"
  · have dV5 : ∀ off, _createParticleChannels_body listed_in allow ⟨nm, 5, sz, dV⟩ off =
        ⟨off, [], none⟩ := by
      intro off
      rcases hv with hv | hv <;> simp [_createParticleChannels_body, hv]
    have lV5 : ∀ bb off, _readPointAtr_ParticleShape_body listed_in bb allow n
        ⟨nm, 5, sz, dV⟩ off =
        ⟨off + bb.type2Bytes 5 * sz,
          [.getAtrArr ⟨.point, .f32, sz, off⟩,
           .blockChannelData .c3f "velocity" (.atr ⟨.point, .f32, sz, off⟩) n], none⟩ := by
      intro bb off
      rcases hv with hv | hv <;> rw [hv] at hl <;>
        simp [_readPointAtr_ParticleShape_body, hv, hl]
    refine ⟨⟨?_, ?_⟩, ⟨?_, ?_⟩, hne, ?_, ?_, ?_⟩
    · simp [dF3, registered]
    · simp [dV5, registered]
    · simp [lF3, written]
    · right
      simp [lV5, written]
    · simp [_readPointAtr_ParticleShape, forAtr, lF3, lV5, written]
    · simp [_readPointAtr_ParticleShape, forAtr, lF3, lV5, written, hne.2]
    · simp [_createParticleChannels, forAtr, dF3, dV5, registered]
  · have hv1 : nm ≠ "v" := fun h => hv (Or.inl h)
    have hv2 : nm ≠ "velocity" := fun h => hv (Or.inr h)
    have dV5 : ∀ off, _createParticleChannels_body listed_in allow ⟨nm, 5, sz, dV⟩ off =
        ⟨off, [.guaranteeChannel .body .c3f ("Particle." ++ nm) (copyBufLocal dV 3)],
          none⟩ := by
      intro off
      simp [_createParticleChannels_body, hl, hv1, hv2]
    have lV5 : ∀ bb off, _readPointAtr_ParticleShape_body listed_in bb allow n
        ⟨nm, 5, sz, dV⟩ off =
        ⟨off + bb.type2Bytes 5 * sz,
          [.getAtrArr ⟨.point, .f32, sz, off⟩,
           .blockChannelData .c3f ("Particle." ++ nm) (.atr ⟨.point, .f32, sz, off⟩) n],
          none⟩ := by
      intro bb off
      simp [_readPointAtr_ParticleShape_body, hl, hv1, hv2]
    refine ⟨⟨?_, ?_⟩, ⟨?_, ?_⟩, hne, ?_, ?_, ?_⟩
    · simp [dF3, registered]
    · simp [dV5, registered]
    · simp [lF3, written]
    · left
      simp [lV5, written]
    · simp [_readPointAtr_ParticleShape, forAtr, lF3, lV5, written]
    · simp [_readPointAtr_ParticleShape, forAtr, lF3, lV5, written, hne.1]
    · simp [_createParticleChannels, forAtr, dF3, dV5, registered, hne.1]

/-- Witness for C9: the base name `N`, with a point table holding a Float `N` of size 3 and a
Vector3Float `N` -/
theorem particle_float3_and_vector_names_differ_witness :
    listedExact "N" "N" = true ∧
      (registered (_createParticleChannels_body listedExact "N"
        ⟨"N", 0, 3, [0, 0, 0]⟩ 16).ops).map Prod.fst = ["Particle." ++ "N" ++ "$3f"] ∧
      ((written (_readPointAtr_ParticleShape listedExact
          { skipFile with pointAtr := [⟨"N", 0, 3, [0, 0, 0]⟩, ⟨"N", 5, 3, [1, 1, 1]⟩] }
          "N" 4).ops).map Prod.fst).Nodup :=
  have h := particle_float3_and_vector_names_differ listedExact skipFile "N" 4 "N"
    [0, 0, 0] [1, 1, 1] 3 16 (by decide)
  ⟨by decide, h.1.1, h.2.2.2.2.1⟩

/-- C10, as stated, fails for the life split channels: the descriptor `life` carries the buffer
`(1.0, 2.0)` of defaults, yet `Particle.life0` is registered with default `0.0` and
`Particle.life1` with default `-1.0`. -/
theorem life_channels_declared_with_fixed_defaults :
    registered (_createParticleChannels listedExact lifeFile "life").ops =
        [("Particle.life0", .c1f, [0]), ("Particle.life1", .c1f, [0xBF800000])] ∧
      copyBufLocal [0x3F800000, 0x40000000] 2 = [0x3F800000, 0x40000000] ∧
      ([0] : List Nat) ≠ [0x3F800000] ∧ ([0xBF800000] : List Nat) ≠ [0x40000000] := by
  decide

/-- C10 (amended): in the particle declare phase, whatever the cursor, an allow-listed Float or
Int attribute of size 1 or 3 is registered with the default made of the first `size` scalars of
its own default buffer, and an allow-listed Vector3Float attribute other than `v` and `velocity`
with the first three; the two channels of the Float `life` of size 2 are registered with the
fixed defaults `0.0` and `-1.0`. Every channel the routine registers is one of these. -/
theorem declared_defaults (listed_in : ListedIn) (b : Bgeo) (allow : String) (a : Attribute)
    (c : Int) (hl : listed_in a.name allow = true) :
    (a.type = 0 ∧ a.size = 1 →
      registered (_createParticleChannels_body listed_in allow a c).ops =
        [("Particle." ++ a.name, .c1f, copyBufLocal a.defBuf 1)]) ∧
    (a.type = 0 ∧ a.size = 3 →
      registered (_createParticleChannels_body listed_in allow a c).ops =
        [("Particle." ++ a.name ++ "$3f", .c3f, copyBufLocal a.defBuf 3)]) ∧
    (a.type = 1 ∧ a.size = 1 →
      registered (_createParticleChannels_body listed_in allow a c).ops =
        [("Particle." ++ a.name, .c1i, copyBufLocal a.defBuf 1)]) ∧
    (a.type = 1 ∧ a.size = 3 →
      registered (_createParticleChannels_body listed_in allow a c).ops =
        [("Particle." ++ a.name, .c3i, copyBufLocal a.defBuf 3)]) ∧
    (a.type = 5 ∧ a.name ≠ "v" ∧ a.name ≠ "velocity" →
      registered (_createParticleChannels_body listed_in allow a c).ops =
        [("Particle." ++ a.name, .c3f, copyBufLocal a.defBuf 3)]) ∧
    (a.type = 0 ∧ a.size = 2 ∧ a.name = "life" →
      registered (_createParticleChannels_body listed_in allow a c).ops =
        [("Particle.life0", .c1f, [float_zero]), ("Particle.life1", .c1f, [float_neg_one])]) ∧
    (∀ x ∈ registered (_createParticleChannels listed_in b allow).ops,
      ∃ d ∈ b.pointAtr, listed_in d.name allow = true ∧
        ((d.size = 1 ∧ x.2.2 = copyBufLocal d.defBuf 1) ∨
         ((d.size = 3 ∨ d.type = 5) ∧ x.2.2 = copyBufLocal d.defBuf 3) ∨
         (d.type = 0 ∧ d.size = 2 ∧ d.name = "life" ∧
           (x = ("Particle.life0", .c1f, [float_zero]) ∨
            x = ("Particle.life1", .c1f, [float_neg_one]))))) := by
  refine ⟨?_, ?_, ?_, ?_, ?_, ?_, ?_⟩
  · rintro ⟨ht, hs⟩
    simp [_createParticleChannels_body, hl, ht, hs, registered]
  · rintro ⟨ht, hs⟩
    simp [_createParticleChannels_body, hl, ht, hs, registered]
  · rintro ⟨ht, hs⟩
    simp [_createParticleChannels_body, hl, ht, hs, registered]
  · rintro ⟨ht, hs⟩
    simp [_createParticleChannels_body, hl, ht, hs, registered]
  · rintro ⟨ht, hv1, hv2⟩
    simp [_createParticleChannels_body, hl, ht, hv1, hv2, registered]
  · rintro ⟨ht, hs, hn⟩
    rw [hn] at hl
    simp [_createParticleChannels_body, hl, ht, hs, hn, registered]
  · intro x hx
    obtain ⟨d, hd, off, hx⟩ := forAtr_registered _ _ _ x hx
    refine ⟨d, hd, ?_⟩
    by_cases hdl : listed_in d.name allow = true
    · refine ⟨hdl, ?_⟩
      revert hx
      refine d.kind_cases _ ?_ ?_ ?_ ?_ ?_ ?_ ?_ ?_ ?_ ?_ ?_ <;> intros <;>
        simp_all [_createParticleChannels_body, NB_THROW, registered] <;>
        split_ifs at * <;> simp_all [registered]
    · simp [_createParticleChannels_body, hdl, registered] at hx

/-- Witness for C10 (amended): a requested Float `mass` of size 1 with default `1.0`, and the
requested `life` of the sample file -/
theorem declared_defaults_witness :
    (listedExact "mass" "mass" = true ∧ listedExact "life" "life" = true) ∧
      registered (_createParticleChannels_body listedExact "mass"
        ⟨"mass", 0, 1, [0x3F800000]⟩ 16).ops =
        [("Particle." ++ "mass", .c1f, copyBufLocal [0x3F800000] 1)] ∧
      registered (_createParticleChannels_body listedExact "life"
        ⟨"life", 0, 2, [0x3F800000, 0x40000000]⟩ 16).ops =
        [("Particle.life0", .c1f, [float_zero]), ("Particle.life1", .c1f, [float_neg_one])] :=
  ⟨by decide,
   (declared_defaults listedExact skipFile "mass" ⟨"mass", 0, 1, [0x3F800000]⟩ 16
      (by decide)).1 (by decide),
   (declared_defaults listedExact lifeFile "life" ⟨"life", 0, 2, [0x3F800000, 0x40000000]⟩ 16
      (by decide)).2.2.2.2.2.1 (by decide)⟩

/-- C11: for a point table holding the single Float attribute `nm` of size 1 with default `d`,
with `nm` in the allow-list and signature `Particle`, the declare phase registers exactly one
channel, the scalar float channel `Particle.nm` with default `d`, and the load phase makes one
extraction, of size 1 at offset 16, and writes it as `nPoints` values to the one attribute
channel `Particle.nm`; `_loadBody` returns normally with these calls in order. -/
theorem single_float_attribute_particle (listed_in : ListedIn) (b : Bgeo) (r : Reader)
    (bodyName nm : String) (d : Nat)
    (hb : b.pointAtr = [⟨nm, 0, 1, [d]⟩]) (hsig : r.sigFilter = "Particle")
    (hl : listed_in nm r.pointAttributes = true) :
    _createParticleChannels listed_in b r.pointAttributes =
        ⟨0, [.guaranteeChannel .body .c1f ("Particle." ++ nm) [d]], none⟩ ∧
      _readPointAtr_ParticleShape listed_in b r.pointAttributes b.nPoints =
        ⟨16 + b.type2Bytes 0 * 1,
          [.getAtrArr ⟨.point, .f32, 1, 16⟩,
           .blockChannelData .c1f ("Particle." ++ nm) (.atr ⟨.point, .f32, 1, 16⟩) b.nPoints],
          none⟩ ∧
      _loadBody listed_in r bodyName b =
        ⟨[.createBody "Particle" bodyName, .readPoints,
          .guaranteeChannel .body .c1f ("Particle." ++ nm) [d],
          .beginBlockChannelData,
          .blockChannelData .c3f "position" .points b.nPoints,
          .getAtrArr ⟨.point, .f32, 1, 16⟩,
          .blockChannelData .c1f ("Particle." ++ nm) (.atr ⟨.point, .f32, 1, 16⟩) b.nPoints,
          .endBlockChannelData, .computeCachedMinMaxAvg], none⟩ := by
  have hc : copyBufLocal [d] 1 = [d] := rfl
  have hd : _createParticleChannels listed_in b r.pointAttributes =
      ⟨0, [.guaranteeChannel .body .c1f ("Particle." ++ nm) [d]], none⟩ := by
    simp [_createParticleChannels, hb, forAtr, _createParticleChannels_body, hl, hc]
  have hload : _readPointAtr_ParticleShape listed_in b r.pointAttributes b.nPoints =
      ⟨16 + b.type2Bytes 0 * 1,
        [.getAtrArr ⟨.point, .f32, 1, 16⟩,
         .blockChannelData .c1f ("Particle." ++ nm) (.atr ⟨.point, .f32, 1, 16⟩) b.nPoints],
        none⟩ := by
    simp [_readPointAtr_ParticleShape, hb, forAtr, _readPointAtr_ParticleShape_body, hl,
      sizeof32]
  refine ⟨hd, hload, ?_⟩
  have hm : ¬ ("Particle" = "Mesh") := by decide
  simp [_loadBody, hsig, hm, hd, hload]

/-- Witness for C11: the attribute `mass` with default `1.0`, four points, no primitive -/
theorem single_float_attribute_particle_witness :
    _createParticleChannels listedExact massFile "mass" =
        ⟨0, [.guaranteeChannel .body .c1f ("Particle." ++ "mass") [0x3F800000]], none⟩ ∧
      _readPointAtr_ParticleShape listedExact massFile "mass" massFile.nPoints =
        ⟨16 + massFile.type2Bytes 0 * 1,
          [.getAtrArr ⟨.point, .f32, 1, 16⟩,
           .blockChannelData .c1f ("Particle." ++ "mass") (.atr ⟨.point, .f32, 1, 16⟩)
             massFile.nPoints],
          none⟩ ∧
      _loadBody listedExact ⟨"Particle", "mass", "", "", false⟩ "body" massFile =
        ⟨[.createBody "Particle" "body", .readPoints,
          .guaranteeChannel .body .c1f ("Particle." ++ "mass") [0x3F800000],
          .beginBlockChannelData,
          .blockChannelData .c3f "position" .points massFile.nPoints,
          .getAtrArr ⟨.point, .f32, 1, 16⟩,
          .blockChannelData .c1f ("Particle." ++ "mass") (.atr ⟨.point, .f32, 1, 16⟩)
            massFile.nPoints,
          .endBlockChannelData, .computeCachedMinMaxAvg], none⟩ :=
  single_float_attribute_particle listedExact massFile ⟨"Particle", "mass", "", "", false⟩
    "body" "mass" 0x3F800000 rfl rfl (by decide)

/-- The bulk writes of two lists of calls, one after the other -/
theorem written_append (xs ys : List Op) : written (xs ++ ys) = written xs ++ written ys := by
  induction xs with
  | nil => rfl
  | cons o rest ih => cases o <;> simp [written, ih]

/-- A call made by the loop was made by the body on some descriptor -/
theorem forAtr_ops_mem (body : Attribute → Int → Run) (l : List Attribute) (offset : Int)
    (op : Op) (h : op ∈ (forAtr body l offset).ops) :
    ∃ a ∈ l, ∃ off, op ∈ (body a off).ops := by
  induction l generalizing offset with
  | nil => simp [forAtr] at h
  | cons a rest ih =>
    simp only [forAtr] at h
    cases hs : (body a offset).err with
    | some e =>
      simp only [hs] at h
      exact ⟨a, List.mem_cons_self _ _, offset, h⟩
    | none =>
      simp only [hs, List.mem_append] at h
      rcases h with h | h
      · exact ⟨a, List.mem_cons_self _ _, offset, h⟩
      · obtain ⟨a1, ha1, off, hx⟩ := ih _ h
        exact ⟨a1, List.mem_cons_of_mem _ ha1, off, hx⟩

/-- In a loop that raises nothing the body ran on every descriptor, at some offset, without
raising, and its calls are among those of the loop -/
theorem forAtr_ran (body : Attribute → Int → Run) (l : List Attribute) (offset : Int)
    (h : (forAtr body l offset).err = none) (a : Attribute) (ha : a ∈ l) :
    ∃ off, (body a off).err = none ∧ ∀ op ∈ (body a off).ops, op ∈ (forAtr body l offset).ops := by
  induction l generalizing offset with
  | nil => simp at ha
  | cons d rest ih =>
    simp only [forAtr] at h ⊢
    cases hs : (body d offset).err with
    | some e => simp [hs] at h
    | none =>
      simp only [hs] at h ⊢
      rcases List.mem_cons.mp ha with rfl | ha
      · exact ⟨offset, hs, fun op hop => List.mem_append_left _ hop⟩
      · obtain ⟨off, h1, h2⟩ := ih _ h ha
        exact ⟨off, h1, fun op hop => List.mem_append_right _ (h2 op hop)⟩

/-- A loop whose body raises on no descriptor of the list raises nothing -/
theorem forAtr_ok (body : Attribute → Int → Run) (l : List Attribute) (offset : Int)
    (h : ∀ a ∈ l, ∀ off, (body a off).err = none) : (forAtr body l offset).err = none := by
  induction l generalizing offset with
  | nil => simp [forAtr]
  | cons d rest ih =>
    simp only [forAtr]
    have hd := h d (List.mem_cons_self _ _) offset
    simp only [hd]
    exact ih _ (fun a ha off => h a (List.mem_cons_of_mem _ ha) off)

/-- A name written by a list of calls is written by one of the calls -/
theorem mem_written_names (ops : List Op) (x : String)
    (h : x ∈ (written ops).map Prod.fst) : ∃ op ∈ ops, x ∈ (written [op]).map Prod.fst := by
  induction ops with
  | nil => simp [written] at h
  | cons o rest ih =>
    have hsplit : written (o :: rest) = written [o] ++ written rest :=
      written_append [o] rest
    rw [hsplit, List.map_append, List.mem_append] at h
    rcases h with h | h
    · exact ⟨o, List.mem_cons_self _ _, h⟩
    · obtain ⟨op, hop, hx⟩ := ih h
      exact ⟨op, List.mem_cons_of_mem _ hop, hx⟩

/-- A name written by one of the calls of a list is written by the list -/
theorem written_names_of_mem (ops : List Op) (op : Op) (hop : op ∈ ops) (x : String)
    (h : x ∈ (written [op]).map Prod.fst) : x ∈ (written ops).map Prod.fst := by
  obtain ⟨pre, post, rfl⟩ := List.append_of_mem hop
  have hsplit : written (pre ++ op :: post) = written pre ++ (written [op] ++ written post) := by
    rw [written_append, ← written_append [op] post]
    rfl
  rw [hsplit]
  simp only [List.map_append, List.mem_append]
  exact Or.inr (Or.inl h)

/-- A name registered by a list of calls is registered by one of the calls -/
theorem mem_registered_names (ops : List Op) (x : String)
    (h : x ∈ (registered ops).map Prod.fst) :
    ∃ op ∈ ops, x ∈ (registered [op]).map Prod.fst := by
  induction ops with
  | nil => simp [registered] at h
  | cons o rest ih =>
    have hsplit : registered (o :: rest) = registered [o] ++ registered rest :=
      registered_append [o] rest
    rw [hsplit, List.map_append, List.mem_append] at h
    rcases h with h | h
    · exact ⟨o, List.mem_cons_self _ _, h⟩
    · obtain ⟨op, hop, hx⟩ := ih h
      exact ⟨op, List.mem_cons_of_mem _ hop, hx⟩

/-- A name registered by one of the calls of a list is registered by the list -/
theorem registered_names_of_mem (ops : List Op) (op : Op) (hop : op ∈ ops) (x : String)
    (h : x ∈ (registered [op]).map Prod.fst) : x ∈ (registered ops).map Prod.fst := by
  obtain ⟨pre, post, rfl⟩ := List.append_of_mem hop
  have hsplit : registered (pre ++ op :: post) =
      registered pre ++ (registered [op] ++ registered post) := by
    rw [registered_append, ← registered_append [op] post]
    rfl
  rw [hsplit]
  simp only [List.map_append, List.mem_append]
  exact Or.inr (Or.inl h)

/-- On one descriptor that the declare phase accepts, the load phase raises nothing and writes
the names the declare phase registers, or writes `velocity` where the declare phase registers
nothing -/
theorem declare_load_body_names (listed_in : ListedIn) (b : Bgeo) (allow : String) (n : Int)
    (a : Attribute) (off1 off2 : Int)
    (h : (_createParticleChannels_body listed_in allow a off1).err = none) :
    (_readPointAtr_ParticleShape_body listed_in b allow n a off2).err = none ∧
    ((written (_readPointAtr_ParticleShape_body listed_in b allow n a off2).ops).map Prod.fst =
        (registered (_createParticleChannels_body listed_in allow a off1).ops).map Prod.fst ∨
      ((registered (_createParticleChannels_body listed_in allow a off1).ops).map Prod.fst = [] ∧
        (written (_readPointAtr_ParticleShape_body listed_in b allow n a off2).ops).map
          Prod.fst = ["velocity"])) := by
  by_cases hl : listed_in a.name allow = true
  · revert h
    refine a.kind_cases _ ?_ ?_ ?_ ?_ ?_ ?_ ?_ ?_ ?_ ?_ ?_ <;> intro h1 <;> intros <;>
      simp_all [_createParticleChannels_body, _readPointAtr_ParticleShape_body, NB_THROW,
        registered, written] <;>
      split_ifs at * <;> simp_all [registered, written]
  · simp [_createParticleChannels_body, _readPointAtr_ParticleShape_body, hl, registered,
      written]

/-- The calls of the declare phase on a descriptor do not depend on the offset passed -/
theorem declare_body_ops_indep (listed_in : ListedIn) (allow : String) (a : Attribute)
    (off1 off2 : Int) :
    (_createParticleChannels_body listed_in allow a off1).ops =
      (_createParticleChannels_body listed_in allow a off2).ops := by
  unfold _createParticleChannels_body
  split_ifs <;> rfl

/-- C12: when the particle declare phase and the particle load phase both complete on a point
table and allow-list, every channel name registered by `_createParticleChannels` is written by
the particle `_readPointAtr`, and every name written is a registered one or `velocity`. -/
theorem declared_channels_are_filled (listed_in : ListedIn) (b : Bgeo) (allow : String)
    (n : Int) (hd : (_createParticleChannels listed_in b allow).err = none)
    (hload : (_readPointAtr_ParticleShape listed_in b allow n).err = none) :
    (∀ x ∈ (registered (_createParticleChannels listed_in b allow).ops).map Prod.fst,
      x ∈ (written (_readPointAtr_ParticleShape listed_in b allow n).ops).map Prod.fst) ∧
    (∀ x ∈ (written (_readPointAtr_ParticleShape listed_in b allow n).ops).map Prod.fst,
      x ∈ (registered (_createParticleChannels listed_in b allow).ops).map Prod.fst ∨
        x = "velocity") := by
  constructor
  · intro x hx
    obtain ⟨op, hop, hxop⟩ := mem_registered_names _ x hx
    obtain ⟨a, ha, off, hopa⟩ := forAtr_ops_mem _ _ _ op hop
    obtain ⟨off1, hok1, -⟩ := forAtr_ran _ _ _ hd a ha
    obtain ⟨off2, -, hsub2⟩ := forAtr_ran _ _ _ hload a ha
    have hxa : x ∈ (registered (_createParticleChannels_body listed_in allow a off1).ops).map
        Prod.fst := by
      rw [declare_body_ops_indep listed_in allow a off1 off]
      exact registered_names_of_mem _ op hopa x hxop
    rcases (declare_load_body_names listed_in b allow n a off1 off2 hok1).2 with heq | ⟨hnil, -⟩
    · rw [← heq] at hxa
      obtain ⟨op2, hop2, hx2⟩ := mem_written_names _ x hxa
      exact written_names_of_mem _ op2 (hsub2 op2 hop2) x hx2
    · rw [hnil] at hxa
      simp at hxa
  · intro x hx
    obtain ⟨op, hop, hxop⟩ := mem_written_names _ x hx
    obtain ⟨a, ha, off2, hopa⟩ := forAtr_ops_mem _ _ _ op hop
    obtain ⟨off1, hok1, hsub1⟩ := forAtr_ran _ _ _ hd a ha
    have hxa : x ∈ (written (_readPointAtr_ParticleShape_body listed_in b allow n a off2).ops).map
        Prod.fst := written_names_of_mem _ op hopa x hxop
    rcases (declare_load_body_names listed_in b allow n a off1 off2 hok1).2 with heq | ⟨-, hvel⟩
    · rw [heq] at hxa
      obtain ⟨op1, hop1, hx1⟩ := mem_registered_names _ x hxa
      exact Or.inl (registered_names_of_mem _ op1 (hsub1 op1 hop1) x hx1)
    · rw [hvel] at hxa
      exact Or.inr (by simpa using hxa)

/-- Witness for C12: the sample file with the Float `b` requested -/
theorem declared_channels_are_filled_witness :
    ((_createParticleChannels listedExact skipFile "b").err = none ∧
      (_readPointAtr_ParticleShape listedExact skipFile "b" 4).err = none) ∧
    (∀ x ∈ (registered (_createParticleChannels listedExact skipFile "b").ops).map Prod.fst,
      x ∈ (written (_readPointAtr_ParticleShape listedExact skipFile "b" 4).ops).map
        Prod.fst) ∧
    (∀ x ∈ (written (_readPointAtr_ParticleShape listedExact skipFile "b" 4).ops).map
        Prod.fst,
      x ∈ (registered (_createParticleChannels listedExact skipFile "b").ops).map Prod.fst ∨
        x = "velocity") :=
  ⟨by decide, declared_channels_are_filled listedExact skipFile "b" 4 (by decide) (by decide)⟩

/-- Descriptors on which the body does nothing can be filtered out of the table -/
theorem forAtr_filter (body : Attribute → Int → Run) (p : Attribute → Bool)
    (hp : ∀ a off, p a = false → body a off = ⟨off, [], none⟩) (l : List Attribute)
    (offset : Int) : forAtr body l offset = forAtr body (l.filter p) offset := by
  induction l generalizing offset with
  | nil => rfl
  | cons a rest ih =>
    cases hpa : p a with
    | true =>
      rw [List.filter_cons_of_pos (by simpa using hpa)]
      simp only [forAtr, ih]
    | false =>
      rw [List.filter_cons_of_neg (by simp [hpa])]
      simp only [forAtr, hp a offset hpa, List.nil_append]
      exact ih offset

/-- A loop whose body does nothing on every descriptor does nothing -/
theorem forAtr_nothing (body : Attribute → Int → Run) (l : List Attribute) (offset : Int)
    (h : ∀ a off, body a off = ⟨off, [], none⟩) : forAtr body l offset = ⟨offset, [], none⟩ := by
  induction l generalizing offset with
  | nil => rfl
  | cons a rest ih => simp only [forAtr, h a offset, List.nil_append, ih]

/-- C13: in each of the five attribute routines a descriptor whose name is not in the
allow-list makes no call, raises nothing and keeps the offset, so a routine run on a table
equals its run on the allow-listed descriptors of that table alone; and if the membership test
lists no name in the empty allow-list, every routine run with the empty allow-list makes no call
and raises nothing, whatever the tables. -/
theorem unlisted_attributes_create_nothing (listed_in : ListedIn) (b : Bgeo) (allow : String)
    (n : Int) :
    (∀ a off, listed_in a.name allow = false →
      _createParticleChannels_body listed_in allow a off = ⟨off, [], none⟩ ∧
      _readPointAtr_PointShape_body listed_in b allow n a off = ⟨off, [], none⟩ ∧
      _readPointAtr_ParticleShape_body listed_in b allow n a off = ⟨off, [], none⟩ ∧
      _readPrimAtr_body listed_in b allow n a off = ⟨off, [], none⟩ ∧
      _readVtxAtr_body listed_in b allow n a off = ⟨off, [], none⟩) ∧
    (_createParticleChannels listed_in b allow =
        forAtr (_createParticleChannels_body listed_in allow)
          (b.pointAtr.filter (fun a => listed_in a.name allow)) 0 ∧
      _readPointAtr_PointShape listed_in b allow n =
        forAtr (_readPointAtr_PointShape_body listed_in b allow n)
          (b.pointAtr.filter (fun a => listed_in a.name allow)) (sizeof32 * 4) ∧
      _readPointAtr_ParticleShape listed_in b allow n =
        forAtr (_readPointAtr_ParticleShape_body listed_in b allow n)
          (b.pointAtr.filter (fun a => listed_in a.name allow)) (sizeof32 * 4) ∧
      _readPrimAtr listed_in b allow n =
        forAtr (_readPrimAtr_body listed_in b allow n)
          (b.primAtr.filter (fun a => listed_in a.name allow))
          (b.bytesPerPrimLine - b.primAtrBytes) ∧
      _readVtxAtr listed_in b allow n =
        forAtr (_readVtxAtr_body listed_in b allow n)
          (b.vtxAtr.filter (fun a => listed_in a.name allow)) (5 + b.idxBytes)) ∧
    ((∀ name, listed_in name "" = false) →
      _createParticleChannels listed_in b "" = ⟨0, [], none⟩ ∧
      _readPointAtr_PointShape listed_in b "" n = ⟨sizeof32 * 4, [], none⟩ ∧
      _readPointAtr_ParticleShape listed_in b "" n = ⟨sizeof32 * 4, [], none⟩ ∧
      _readPrimAtr listed_in b "" n = ⟨b.bytesPerPrimLine - b.primAtrBytes, [], none⟩ ∧
      _readVtxAtr listed_in b "" n = ⟨5 + b.idxBytes, [], none⟩) := by
  have h1 : ∀ al a off, listed_in a.name al = false →
      _createParticleChannels_body listed_in al a off = ⟨off, [], none⟩ := by
    intro al a off h
    simp [_createParticleChannels_body, h]
  have h2 : ∀ al a off, listed_in a.name al = false →
      _readPointAtr_PointShape_body listed_in b al n a off = ⟨off, [], none⟩ := by
    intro al a off h
    simp [_readPointAtr_PointShape_body, h]
  have h3 : ∀ al a off, listed_in a.name al = false →
      _readPointAtr_ParticleShape_body listed_in b al n a off = ⟨off, [], none⟩ := by
    intro al a off h
    simp [_readPointAtr_ParticleShape_body, h]
  have h4 : ∀ al a off, listed_in a.name al = false →
      _readPrimAtr_body listed_in b al n a off = ⟨off, [], none⟩ := by
    intro al a off h
    simp [_readPrimAtr_body, h]
  have h5 : ∀ al a off, listed_in a.name al = false →
      _readVtxAtr_body listed_in b al n a off = ⟨off, [], none⟩ := by
    intro al a off h
    simp [_readVtxAtr_body, h]
  refine ⟨fun a off h => ⟨h1 _ a off h, h2 _ a off h, h3 _ a off h, h4 _ a off h, h5 _ a off h⟩,
    ⟨?_, ?_, ?_, ?_, ?_⟩, ?_⟩
  · exact forAtr_filter _ (fun a => listed_in a.name allow) (h1 allow) _ _
  · exact forAtr_filter _ (fun a => listed_in a.name allow) (h2 allow) _ _
  · exact forAtr_filter _ (fun a => listed_in a.name allow) (h3 allow) _ _
  · exact forAtr_filter _ (fun a => listed_in a.name allow) (h4 allow) _ _
  · exact forAtr_filter _ (fun a => listed_in a.name allow) (h5 allow) _ _
  · intro hempty
    exact ⟨forAtr_nothing _ _ _ (fun a off => h1 "" a off (hempty _)),
      forAtr_nothing _ _ _ (fun a off => h2 "" a off (hempty _)),
      forAtr_nothing _ _ _ (fun a off => h3 "" a off (hempty _)),
      forAtr_nothing _ _ _ (fun a off => h4 "" a off (hempty _)),
      forAtr_nothing _ _ _ (fun a off => h5 "" a off (hempty _))⟩

/-- Witness for C13: the sample file, with `b` requested and with the empty allow-list -/
theorem unlisted_attributes_create_nothing_witness :
    (listedNonEmpty "a" "b" = false ∧ ∀ name, listedNonEmpty name "" = false) ∧
    _readPointAtr_PointShape_body listedNonEmpty skipFile "b" 4 ⟨"a", 0, 1, [0]⟩ 16 =
      ⟨16, [], none⟩ ∧
    (_createParticleChannels listedNonEmpty skipFile "" = ⟨0, [], none⟩ ∧
      _readPointAtr_PointShape listedNonEmpty skipFile "" 4 = ⟨sizeof32 * 4, [], none⟩ ∧
      _readPointAtr_ParticleShape listedNonEmpty skipFile "" 4 = ⟨sizeof32 * 4, [], none⟩ ∧
      _readPrimAtr listedNonEmpty skipFile "" 4 =
        ⟨skipFile.bytesPerPrimLine - skipFile.primAtrBytes, [], none⟩ ∧
      _readVtxAtr listedNonEmpty skipFile "" 4 = ⟨5 + skipFile.idxBytes, [], none⟩) :=
  ⟨⟨by decide, fun name => by simp [listedNonEmpty]⟩,
   ((unlisted_attributes_create_nothing listedNonEmpty skipFile "b" 4).1 ⟨"a", 0, 1, [0]⟩ 16
      (by decide)).2.1,
   (unlisted_attributes_create_nothing listedNonEmpty skipFile "b" 4).2.2
      (fun name => by simp [listedNonEmpty])⟩

/-- C14, as stated, fails: the sections of the sample file hold the String attribute `s`, whose
name is not in the allow-list `a`, and each of the five routines completes without an error. -/
theorem unlisted_string_attribute_raises_nothing :
    (_createParticleChannels listedExact stringFile "a").err = none ∧
      (_readPointAtr_PointShape listedExact stringFile "a" 4).err = none ∧
      (_readPointAtr_ParticleShape listedExact stringFile "a" 4).err = none ∧
      (_readPrimAtr listedExact stringFile "a" 2).err = none ∧
      (_readVtxAtr listedExact stringFile "a" 2).err = none := by
  decide

/-- C15, as stated, fails: on the sample file whose point table holds the requested Float
`life` of size 2, the mesh point routine raises the unsupported-size exception for size 2; it
makes no call and its cursor stays at the section base. -/
theorem mesh_point_routine_rejects_life :
    _readPointAtr_PointShape listedExact lifeFile "life" 4 =
      ⟨16, [], some (.floatSize 2)⟩ := by
  decide

/-- C15 (amended): the life split is not applied by mesh point materialization: in the mesh
`_readPointAtr` an allow-listed Float attribute `life` of size 2 raises the unsupported-size
exception for float attributes of size 2, with no channel registered or written and the cursor
not advanced, so the routine ends with an error, having made only the calls of the descriptors
before it. -/
theorem mesh_life_is_unsupported_size (listed_in : ListedIn) (b : Bgeo) (allow : String)
    (n : Int) (a : Attribute) (pre post : List Attribute) (c : Int)
    (hl : listed_in a.name allow = true) (ht : a.type = 0) (hs : a.size = 2)
    (hn : a.name = "life") :
    _readPointAtr_PointShape_body listed_in b allow n a c = ⟨c, [], some (.floatSize 2)⟩ ∧
    (b.pointAtr = pre ++ a :: post →
      (_readPointAtr_PointShape listed_in b allow n).err ≠ none ∧
      (_readPointAtr_PointShape listed_in b allow n).ops =
        (forAtr (_readPointAtr_PointShape_body listed_in b allow n) pre (sizeof32 * 4)).ops) := by
  have hbody : ∀ off, _readPointAtr_PointShape_body listed_in b allow n a off =
      ⟨off, [], some (.floatSize 2)⟩ := by
    intro off
    rw [hn] at hl
    simp [_readPointAtr_PointShape_body, hl, ht, hs, hn, NB_THROW]
  refine ⟨hbody c, ?_⟩
  intro hb
  have := forAtr_throw (_readPointAtr_PointShape_body listed_in b allow n) a
    (fun off => by rw [hbody off]; simp) pre post (sizeof32 * 4)
  simpa [_readPointAtr_PointShape, hb] using this

/-- Witness for C15 (amended): the requested `life` after an unrequested Float `a` -/
theorem mesh_life_is_unsupported_size_witness :
    (listedExact "life" "life" = true ∧
      { skipFile with pointAtr := [⟨"a", 0, 1, [0]⟩, ⟨"life", 0, 2, [0, 0]⟩] }.pointAtr =
        [⟨"a", 0, 1, [0]⟩] ++ ⟨"life", 0, 2, [0, 0]⟩ :: []) ∧
    _readPointAtr_PointShape_body listedExact
        { skipFile with pointAtr := [⟨"a", 0, 1, [0]⟩, ⟨"life", 0, 2, [0, 0]⟩] } "life" 4
        ⟨"life", 0, 2, [0, 0]⟩ 16 = ⟨16, [], some (.floatSize 2)⟩ ∧
    ((_readPointAtr_PointShape listedExact
        { skipFile with pointAtr := [⟨"a", 0, 1, [0]⟩, ⟨"life", 0, 2, [0, 0]⟩] }
        "life" 4).err ≠ none ∧
      (_readPointAtr_PointShape listedExact
        { skipFile with pointAtr := [⟨"a", 0, 1, [0]⟩, ⟨"life", 0, 2, [0, 0]⟩] }
        "life" 4).ops =
        (forAtr (_readPointAtr_PointShape_body listedExact
          { skipFile with pointAtr := [⟨"a", 0, 1, [0]⟩, ⟨"life", 0, 2, [0, 0]⟩] } "life" 4)
          [⟨"a", 0, 1, [0]⟩] (sizeof32 * 4)).ops) :=
  have h := mesh_life_is_unsupported_size listedExact
    { skipFile with pointAtr := [⟨"a", 0, 1, [0]⟩, ⟨"life", 0, 2, [0, 0]⟩] } "life" 4
    ⟨"life", 0, 2, [0, 0]⟩ [⟨"a", 0, 1, [0]⟩] [] 16 (by decide) (by decide) (by decide)
    (by decide)
  ⟨by decide, h.1, h.2 rfl⟩

/-- When the body raises nothing on the first `k` descriptors and moves the offset by `w` on
each, the loop reaches descriptor `k` at the base plus the sum of `w` over them, and the calls
of the body there follow those of the first `k` descriptors -/
theorem forAtr_reaches (body : Attribute → Int → Run) (w : Attribute → Int)
    (l : List Attribute) (k : Nat) (a : Attribute) (rest : List Attribute) (base : Int)
    (hall : ∀ d ∈ l.take k, ∀ off, (body d off).err = none ∧ (body d off).offset = off + w d)
    (hk : l.drop k = a :: rest) :
    (forAtr body (l.take k) base).err = none ∧
    ∃ tail, (forAtr body l base).ops =
      (forAtr body (l.take k) base).ops ++
        (body a (base + ((l.take k).map w).sum)).ops ++ tail := by
  have hok : ∀ (p : List Attribute) (off : Int),
      (∀ d ∈ p, ∀ o, (body d o).err = none ∧ (body d o).offset = o + w d) →
      (forAtr body p off).err = none ∧ (forAtr body p off).offset = off + (p.map w).sum := by
    intro p
    induction p with
    | nil => intro off _; simp [forAtr]
    | cons d ds ih =>
      intro off hp
      have hd := hp d (List.mem_cons_self _ _) off
      have hds := ih (body d off).offset (fun x hx o => hp x (List.mem_cons_of_mem _ hx) o)
      simp only [forAtr, hd.1]
      refine ⟨hds.1, ?_⟩
      rw [hds.2, hd.2, List.map_cons, List.sum_cons]
      ring
  obtain ⟨h1, h2⟩ := hok (l.take k) base hall
  refine ⟨h1, ?_⟩
  have happ := forAtr_append body (l.take k) (l.drop k) base h1
  rw [List.take_append_drop] at happ
  rw [happ, h2, hk]
  simp only [Run.andThen, forAtr]
  cases hs : (body a (base + ((l.take k).map w).sum)).err with
  | some e => exact ⟨[], by simp only [List.append_nil, List.append_assoc]⟩
  | none =>
    exact ⟨(forAtr body rest (body a (base + ((l.take k).map w).sum)).offset).ops,
      by simp only [List.append_assoc]⟩

/-- On an allow-listed descriptor of a supported kind and size the mesh point routine raises
nothing, moves the cursor by the width and extracts first at the cursor -/
theorem pointShape_body_supported (listed_in : ListedIn) (b : Bgeo) (allow : String) (n : Int)
    (a : Attribute) (off : Int) (hl : listed_in a.name allow = true) (hs : supported a = true) :
    (_readPointAtr_PointShape_body listed_in b allow n a off).err = none ∧
    (_readPointAtr_PointShape_body listed_in b allow n a off).offset = off + width b a ∧
    ((extractions (_readPointAtr_PointShape_body listed_in b allow n a off).ops).head?).map
      (fun e => e.offset) = some off := by
  revert hs
  refine a.kind_cases _ ?_ ?_ ?_ ?_ ?_ ?_ ?_ ?_ ?_ ?_ ?_ <;> intros <;>
    simp_all [_readPointAtr_PointShape_body, NB_THROW, width, supported, extractions]

/-- On an allow-listed descriptor of a supported kind and size the particle load phase raises
nothing, moves the cursor by the width and extracts first at the cursor -/
theorem particleShape_body_supported (listed_in : ListedIn) (b : Bgeo) (allow : String)
    (n : Int) (a : Attribute) (off : Int) (hl : listed_in a.name allow = true)
    (hs : supported a = true) :
    (_readPointAtr_ParticleShape_body listed_in b allow n a off).err = none ∧
    (_readPointAtr_ParticleShape_body listed_in b allow n a off).offset = off + width b a ∧
    ((extractions (_readPointAtr_ParticleShape_body listed_in b allow n a off).ops).head?).map
      (fun e => e.offset) = some off := by
  revert hs
  refine a.kind_cases _ ?_ ?_ ?_ ?_ ?_ ?_ ?_ ?_ ?_ ?_ ?_ <;> intros <;>
    simp_all [_readPointAtr_ParticleShape_body, NB_THROW, width, supported, extractions]
  split_ifs <;> simp [extractions]

/-- On an allow-listed descriptor of a supported kind and size the primitive routine raises
nothing, moves the cursor by the width and extracts first at the cursor -/
theorem prim_body_supported (listed_in : ListedIn) (b : Bgeo) (allow : String) (n : Int)
    (a : Attribute) (off : Int) (hl : listed_in a.name allow = true) (hs : supported a = true) :
    (_readPrimAtr_body listed_in b allow n a off).err = none ∧
    (_readPrimAtr_body listed_in b allow n a off).offset = off + width b a ∧
    ((extractions (_readPrimAtr_body listed_in b allow n a off).ops).head?).map
      (fun e => e.offset) = some off := by
  revert hs
  refine a.kind_cases _ ?_ ?_ ?_ ?_ ?_ ?_ ?_ ?_ ?_ ?_ ?_ <;> intros <;>
    simp_all [_readPrimAtr_body, NB_THROW, width, supported, extractions]

/-- On an allow-listed descriptor of a supported kind and size the vertex routine raises
nothing, moves the cursor by the width and extracts first at the cursor -/
theorem vtx_body_supported (listed_in : ListedIn) (b : Bgeo) (allow : String) (n : Int)
    (a : Attribute) (off : Int) (hl : listed_in a.name allow = true) (hs : supported a = true) :
    (_readVtxAtr_body listed_in b allow n a off).err = none ∧
    (_readVtxAtr_body listed_in b allow n a off).offset = off + width b a ∧
    ((extractions (_readVtxAtr_body listed_in b allow n a off).ops).head?).map
      (fun e => e.offset) = some off := by
  revert hs
  refine a.kind_cases _ ?_ ?_ ?_ ?_ ?_ ?_ ?_ ?_ ?_ ?_ ?_ <;> intros <;>
    simp_all [_readVtxAtr_body, NB_THROW, width, supported, extractions]

/-- C17: in each section routine, when every descriptor below index `k` is allow-listed and of a
supported kind and size, the routine raises nothing on them and goes on with descriptor `k` at
the section base plus the sum of `type2Bytes(type) * size` over the descriptors below `k`, where
an allow-listed supported descriptor `k` is first extracted. The base is 16 for the two point
routines, `getBytesPerPrimLine() - getPrimAtrBytes()` for the primitive routine and
`5 + getIdxBytes()` for the vertex routine. -/
theorem attribute_k_read_at_base_plus_widths (listed_in : ListedIn) (b : Bgeo)
    (allow : String) (n : Int) (k : Nat) (a : Attribute) (rest : List Attribute) :
    ((∀ d ∈ b.pointAtr.take k, listed_in d.name allow = true ∧ supported d = true) →
      b.pointAtr.drop k = a :: rest →
      ((forAtr (_readPointAtr_PointShape_body listed_in b allow n) (b.pointAtr.take k) 16).err
          = none ∧
        (∃ tail, (_readPointAtr_PointShape listed_in b allow n).ops =
          (forAtr (_readPointAtr_PointShape_body listed_in b allow n)
            (b.pointAtr.take k) 16).ops ++
          (_readPointAtr_PointShape_body listed_in b allow n a
            (16 + ((b.pointAtr.take k).map (width b)).sum)).ops ++ tail) ∧
        (listed_in a.name allow = true → supported a = true →
          ((extractions (_readPointAtr_PointShape_body listed_in b allow n a
            (16 + ((b.pointAtr.take k).map (width b)).sum)).ops).head?).map
              (fun e => e.offset) = some (16 + ((b.pointAtr.take k).map (width b)).sum))) ∧
      ((forAtr (_readPointAtr_ParticleShape_body listed_in b allow n) (b.pointAtr.take k)
          16).err = none ∧
        (∃ tail, (_readPointAtr_ParticleShape listed_in b allow n).ops =
          (forAtr (_readPointAtr_ParticleShape_body listed_in b allow n)
            (b.pointAtr.take k) 16).ops ++
          (_readPointAtr_ParticleShape_body listed_in b allow n a
            (16 + ((b.pointAtr.take k).map (width b)).sum)).ops ++ tail) ∧
        (listed_in a.name allow = true → supported a = true →
          ((extractions (_readPointAtr_ParticleShape_body listed_in b allow n a
            (16 + ((b.pointAtr.take k).map (width b)).sum)).ops).head?).map
              (fun e => e.offset) = some (16 + ((b.pointAtr.take k).map (width b)).sum)))) ∧
    ((∀ d ∈ b.primAtr.take k, listed_in d.name allow = true ∧ supported d = true) →
      b.primAtr.drop k = a :: rest →
      (forAtr (_readPrimAtr_body listed_in b allow n) (b.primAtr.take k)
          (b.bytesPerPrimLine - b.primAtrBytes)).err = none ∧
        (∃ tail, (_readPrimAtr listed_in b allow n).ops =
          (forAtr (_readPrimAtr_body listed_in b allow n) (b.primAtr.take k)
            (b.bytesPerPrimLine - b.primAtrBytes)).ops ++
          (_readPrimAtr_body listed_in b allow n a
            (b.bytesPerPrimLine - b.primAtrBytes +
              ((b.primAtr.take k).map (width b)).sum)).ops ++ tail) ∧
        (listed_in a.name allow = true → supported a = true →
          ((extractions (_readPrimAtr_body listed_in b allow n a
            (b.bytesPerPrimLine - b.primAtrBytes +
              ((b.primAtr.take k).map (width b)).sum)).ops).head?).map
                (fun e => e.offset) =
            some (b.bytesPerPrimLine - b.primAtrBytes +
              ((b.primAtr.take k).map (width b)).sum))) ∧
    ((∀ d ∈ b.vtxAtr.take k, listed_in d.name allow = true ∧ supported d = true) →
      b.vtxAtr.drop k = a :: rest →
      (forAtr (_readVtxAtr_body listed_in b allow n) (b.vtxAtr.take k)
          (5 + b.idxBytes)).err = none ∧
        (∃ tail, (_readVtxAtr listed_in b allow n).ops =
          (forAtr (_readVtxAtr_body listed_in b allow n) (b.vtxAtr.take k)
            (5 + b.idxBytes)).ops ++
          (_readVtxAtr_body listed_in b allow n a
            (5 + b.idxBytes + ((b.vtxAtr.take k).map (width b)).sum)).ops ++ tail) ∧
        (listed_in a.name allow = true → supported a = true →
          ((extractions (_readVtxAtr_body listed_in b allow n a
            (5 + b.idxBytes + ((b.vtxAtr.take k).map (width b)).sum)).ops).head?).map
                (fun e => e.offset) =
            some (5 + b.idxBytes + ((b.vtxAtr.take k).map (width b)).sum))) := by
  have h16 : sizeof32 * 4 = 16 := by decide
  refine ⟨?_, ?_, ?_⟩
  · intro hall hk
    have hm := forAtr_reaches (_readPointAtr_PointShape_body listed_in b allow n) (width b)
      b.pointAtr k a rest 16
      (fun d hd off =>
        ⟨(pointShape_body_supported listed_in b allow n d off (hall d hd).1 (hall d hd).2).1,
         (pointShape_body_supported listed_in b allow n d off (hall d hd).1 (hall d hd).2).2.1⟩)
      hk
    have hp := forAtr_reaches (_readPointAtr_ParticleShape_body listed_in b allow n) (width b)
      b.pointAtr k a rest 16
      (fun d hd off =>
        ⟨(particleShape_body_supported listed_in b allow n d off (hall d hd).1
            (hall d hd).2).1,
         (particleShape_body_supported listed_in b allow n d off (hall d hd).1
            (hall d hd).2).2.1⟩)
      hk
    refine ⟨⟨hm.1, ?_, ?_⟩, ⟨hp.1, ?_, ?_⟩⟩
    · simpa only [_readPointAtr_PointShape, h16] using hm.2
    · intro hl hs
      exact (pointShape_body_supported listed_in b allow n a _ hl hs).2.2
    · simpa only [_readPointAtr_ParticleShape, h16] using hp.2
    · intro hl hs
      exact (particleShape_body_supported listed_in b allow n a _ hl hs).2.2
  · intro hall hk
    have hq := forAtr_reaches (_readPrimAtr_body listed_in b allow n) (width b)
      b.primAtr k a rest (b.bytesPerPrimLine - b.primAtrBytes)
      (fun d hd off =>
        ⟨(prim_body_supported listed_in b allow n d off (hall d hd).1 (hall d hd).2).1,
         (prim_body_supported listed_in b allow n d off (hall d hd).1 (hall d hd).2).2.1⟩)
      hk
    refine ⟨hq.1, hq.2, ?_⟩
    intro hl hs
    exact (prim_body_supported listed_in b allow n a _ hl hs).2.2
  · intro hall hk
    have hv := forAtr_reaches (_readVtxAtr_body listed_in b allow n) (width b)
      b.vtxAtr k a rest (5 + b.idxBytes)
      (fun d hd off =>
        ⟨(vtx_body_supported listed_in b allow n d off (hall d hd).1 (hall d hd).2).1,
         (vtx_body_supported listed_in b allow n d off (hall d hd).1 (hall d hd).2).2.1⟩)
      hk
    refine ⟨hv.1, hv.2, ?_⟩
    intro hl hs
    exact (vtx_body_supported listed_in b allow n a _ hl hs).2.2

/-- Witness for C17: the second descriptor of each section of the sample file, every name being
requested -/
theorem attribute_k_read_at_base_plus_widths_witness :
    ((∀ d ∈ skipFile.pointAtr.take 1, listedAll d.name "*" = true ∧ supported d = true) ∧
      skipFile.pointAtr.drop 1 = ⟨"b", 0, 1, [0]⟩ :: [] ∧
      (∀ d ∈ skipFile.primAtr.take 1, listedAll d.name "*" = true ∧ supported d = true) ∧
      skipFile.primAtr.drop 1 = ⟨"b", 0, 1, [0]⟩ :: [] ∧
      (∀ d ∈ skipFile.vtxAtr.take 1, listedAll d.name "*" = true ∧ supported d = true) ∧
      skipFile.vtxAtr.drop 1 = ⟨"b", 0, 1, [0]⟩ :: [] ∧
      listedAll "b" "*" = true ∧ supported ⟨"b", 0, 1, [0]⟩ = true) ∧
    ((extractions (_readPointAtr_PointShape_body listedAll skipFile "*" 4 ⟨"b", 0, 1, [0]⟩
        (16 + ((skipFile.pointAtr.take 1).map (width skipFile)).sum)).ops).head?).map
          (fun e => e.offset) = some 20 ∧
    ((extractions (_readPointAtr_ParticleShape_body listedAll skipFile "*" 4 ⟨"b", 0, 1, [0]⟩
        (16 + ((skipFile.pointAtr.take 1).map (width skipFile)).sum)).ops).head?).map
          (fun e => e.offset) = some 20 ∧
    ((extractions (_readPrimAtr_body listedAll skipFile "*" 4 ⟨"b", 0, 1, [0]⟩
        (skipFile.bytesPerPrimLine - skipFile.primAtrBytes +
          ((skipFile.primAtr.take 1).map (width skipFile)).sum)).ops).head?).map
            (fun e => e.offset) = some 41 ∧
    ((extractions (_readVtxAtr_body listedAll skipFile "*" 4 ⟨"b", 0, 1, [0]⟩
        (5 + skipFile.idxBytes + ((skipFile.vtxAtr.take 1).map (width skipFile)).sum)).ops).head?).map
          (fun e => e.offset) = some 13 :=
  have h := attribute_k_read_at_base_plus_widths listedAll skipFile "*" 4 1 ⟨"b", 0, 1, [0]⟩ []
  ⟨by decide,
   ((h.1 (by decide) rfl).1.2.2) rfl rfl,
   ((h.1 (by decide) rfl).2.2.2) rfl rfl,
   ((h.2.1 (by decide) rfl).2.2) rfl rfl,
   ((h.2.2 (by decide) rfl).2.2) rfl rfl⟩

/-- Running the protocol over two lists of calls, one after the other -/
theorem Phase.run_append (p : Phase) (xs ys : List Op) :
    p.run (xs ++ ys) = (p.run xs).bind (fun q => q.run ys) := by
  induction xs generalizing p with
  | nil => rfl
  | cons o rest ih =>
    simp only [List.cons_append, Phase.run]
    cases p.next o with
    | none => rfl
    | some q => exact ih q

/-- A loop whose body keeps the protocol in stage `p` keeps it in stage `p` -/
theorem forAtr_phase (body : Attribute → Int → Run) (p : Phase)
    (h : ∀ a off, p.run (body a off).ops = some p) (l : List Attribute) (offset : Int) :
    p.run (forAtr body l offset).ops = some p := by
  induction l generalizing offset with
  | nil => rfl
  | cons a rest ih =>
    simp only [forAtr]
    cases hs : (body a offset).err with
    | some e => exact h a offset
    | none =>
      simp only [Phase.run_append, h a offset, Option.some_bind]
      exact ih _

/-- The declare phase only registers channels -/
theorem declare_body_phase (listed_in : ListedIn) (allow : String) (a : Attribute)
    (off : Int) :
    Phase.declaring.run (_createParticleChannels_body listed_in allow a off).ops =
      some .declaring := by
  unfold _createParticleChannels_body
  split_ifs <;> rfl

/-- The particle load phase only extracts and writes in bulk -/
theorem load_body_phase (listed_in : ListedIn) (b : Bgeo) (allow : String) (n : Int)
    (a : Attribute) (off : Int) :
    Phase.loading.run (_readPointAtr_ParticleShape_body listed_in b allow n a off).ops =
      some .loading := by
  unfold _readPointAtr_ParticleShape_body
  split_ifs <;> rfl

/-- When the declare phase completes, the load phase raises on no descriptor of the table -/
theorem load_body_ok_of_declare (listed_in : ListedIn) (b : Bgeo) (allow : String) (n : Int)
    (hd : (_createParticleChannels listed_in b allow).err = none) :
    ∀ a ∈ b.pointAtr, ∀ off,
      (_readPointAtr_ParticleShape_body listed_in b allow n a off).err = none := by
  intro a ha off
  obtain ⟨off1, hok, -⟩ := forAtr_ran _ _ _ hd a ha
  exact (declare_load_body_names listed_in b allow n a off1 off hok).1

/-- C18: in Particle mode the calls of `_loadBody` follow the two-phase protocol on every input:
the channel registrations of the declare phase come first; if the declare phase raises, nothing
follows; otherwise come `beginBlockChannelData`, the bulk load of `position`, the extractions
and bulk writes of the load phase, descriptor after descriptor, and `endBlockChannelData`. No
channel is registered once the block write has begun and no bulk write is made outside it. -/
theorem particle_mode_call_order (listed_in : ListedIn) (r : Reader) (bodyName : String)
    (b : Bgeo) (hsig : r.sigFilter = "Particle") :
    Phase.declaring.run (_loadBody listed_in r bodyName b).ops ≠ none ∧
    (∀ e, (_createParticleChannels listed_in b r.pointAttributes).err = some e →
      _loadBody listed_in r bodyName b =
        ⟨[.createBody r.sigFilter bodyName, .readPoints] ++
          (_createParticleChannels listed_in b r.pointAttributes).ops, some e⟩) ∧
    ((_createParticleChannels listed_in b r.pointAttributes).err = none →
      _loadBody listed_in r bodyName b =
        ⟨[.createBody r.sigFilter bodyName, .readPoints] ++
          (_createParticleChannels listed_in b r.pointAttributes).ops ++
          [.beginBlockChannelData, .blockChannelData .c3f "position" .points b.nPoints] ++
          (_readPointAtr_ParticleShape listed_in b r.pointAttributes b.nPoints).ops ++
          [.endBlockChannelData, .computeCachedMinMaxAvg], none⟩ ∧
      Phase.declaring.run (_loadBody listed_in r bodyName b).ops = some .finished ∧
      ∀ k, ∃ off,
        (_readPointAtr_ParticleShape listed_in b r.pointAttributes b.nPoints).ops =
          (forAtr (_readPointAtr_ParticleShape_body listed_in b r.pointAttributes b.nPoints)
            (b.pointAtr.take k) (sizeof32 * 4)).ops ++
          (forAtr (_readPointAtr_ParticleShape_body listed_in b r.pointAttributes b.nPoints)
            (b.pointAtr.drop k) off).ops) := by
  have hm : r.sigFilter ≠ "Mesh" := by rw [hsig]; decide
  have hdp : Phase.declaring.run (_createParticleChannels listed_in b r.pointAttributes).ops =
      some .declaring :=
    forAtr_phase _ _ (declare_body_phase listed_in r.pointAttributes) _ _
  have hlp : Phase.loading.run
      (_readPointAtr_ParticleShape listed_in b r.pointAttributes b.nPoints).ops =
      some .loading :=
    forAtr_phase _ _ (load_body_phase listed_in b r.pointAttributes b.nPoints) _ _
  have hfail : ∀ e, (_createParticleChannels listed_in b r.pointAttributes).err = some e →
      _loadBody listed_in r bodyName b =
        ⟨[.createBody r.sigFilter bodyName, .readPoints] ++
          (_createParticleChannels listed_in b r.pointAttributes).ops, some e⟩ := by
    intro e he
    simp [_loadBody, hm, hsig, he]
  have hgood : (_createParticleChannels listed_in b r.pointAttributes).err = none →
      _loadBody listed_in r bodyName b =
        ⟨[.createBody r.sigFilter bodyName, .readPoints] ++
          (_createParticleChannels listed_in b r.pointAttributes).ops ++
          [.beginBlockChannelData, .blockChannelData .c3f "position" .points b.nPoints] ++
          (_readPointAtr_ParticleShape listed_in b r.pointAttributes b.nPoints).ops ++
          [.endBlockChannelData, .computeCachedMinMaxAvg], none⟩ := by
    intro hd
    have hl : (_readPointAtr_ParticleShape listed_in b r.pointAttributes b.nPoints).err =
        none :=
      forAtr_ok _ _ _ (load_body_ok_of_declare listed_in b r.pointAttributes b.nPoints hd)
    simp [_loadBody, hm, hsig, hd, hl]
  have hrun : (_createParticleChannels listed_in b r.pointAttributes).err = none →
      Phase.declaring.run (_loadBody listed_in r bodyName b).ops = some .finished := by
    intro hd
    rw [hgood hd]
    simp only [Phase.run_append, List.append_assoc]
    simp [Phase.run, Phase.next, Phase.run_append, hdp, hlp]
  refine ⟨?_, hfail, fun hd => ⟨hgood hd, hrun hd, ?_⟩⟩
  · cases he : (_createParticleChannels listed_in b r.pointAttributes).err with
    | none => rw [hrun he]; simp
    | some e =>
      rw [hfail e he]
      simp [Phase.run, Phase.next, hdp]
  · intro k
    have hpre : (forAtr (_readPointAtr_ParticleShape_body listed_in b r.pointAttributes
        b.nPoints) (b.pointAtr.take k) (sizeof32 * 4)).err = none :=
      forAtr_ok _ _ _ (fun a ha off =>
        load_body_ok_of_declare listed_in b r.pointAttributes b.nPoints hd a
          (List.mem_of_mem_take ha) off)
    have happ := forAtr_append _ (b.pointAtr.take k) (b.pointAtr.drop k) (sizeof32 * 4) hpre
    rw [List.take_append_drop] at happ
    exact ⟨_, by rw [_readPointAtr_ParticleShape, happ]; rfl⟩

/-- Witness for C18: the sample file in Particle mode with `b` requested -/
theorem particle_mode_call_order_witness :
    (_createParticleChannels listedExact skipFile "b").err = none ∧
    Phase.declaring.run
      (_loadBody listedExact ⟨"Particle", "b", "", "", false⟩ "body" skipFile).ops ≠ none ∧
    Phase.declaring.run
      (_loadBody listedExact ⟨"Particle", "b", "", "", false⟩ "body" skipFile).ops =
        some .finished :=
  have h := particle_mode_call_order listedExact ⟨"Particle", "b", "", "", false⟩ "body"
    skipFile rfl
  ⟨by decide, h.1, (h.2.2 (by decide)).2.1⟩

/-- The protocol rejects a channel registration made after the block write has begun, and a
bulk write made before it -/
theorem protocol_rejects_calls_out_of_order :
    Phase.declaring.run
        [.beginBlockChannelData, .guaranteeChannel .body .c1f "Particle.a" [0]] = none ∧
      Phase.declaring.run [.blockChannelData .c3f "position" .points 4] = none := by
  decide

/-- Every buffer the mesh point routine resizes on a descriptor is a point buffer resized to
`n` -/
theorem pointShape_body_resize (listed_in : ListedIn) (b : Bgeo) (allow : String) (n : Int)
    (a : Attribute) (off : Int) (sh : Shape) (ty : ChanType) (nm : String) (cnt : Int)
    (h : Op.resize sh ty nm cnt ∈ (_readPointAtr_PointShape_body listed_in b allow n a off).ops) :
    sh = .point ∧ cnt = n := by
  by_cases hl : listed_in a.name allow = true
  · revert h
    refine a.kind_cases _ ?_ ?_ ?_ ?_ ?_ ?_ ?_ ?_ ?_ ?_ ?_ <;> intros <;>
      simp_all [_readPointAtr_PointShape_body, NB_THROW]
  · simp [_readPointAtr_PointShape_body, hl] at h

/-- Every buffer the primitive routine resizes on a descriptor is a triangle buffer resized to
`n` -/
theorem prim_body_resize (listed_in : ListedIn) (b : Bgeo) (allow : String) (n : Int)
    (a : Attribute) (off : Int) (sh : Shape) (ty : ChanType) (nm : String) (cnt : Int)
    (h : Op.resize sh ty nm cnt ∈ (_readPrimAtr_body listed_in b allow n a off).ops) :
    sh = .triangle ∧ cnt = n := by
  by_cases hl : listed_in a.name allow = true
  · revert h
    refine a.kind_cases _ ?_ ?_ ?_ ?_ ?_ ?_ ?_ ?_ ?_ ?_ ?_ <;> intros <;>
      simp_all [_readPrimAtr_body, NB_THROW]
  · simp [_readPrimAtr_body, hl] at h

/-- Every buffer the vertex routine resizes on a descriptor is a triangle buffer resized to
`n` -/
theorem vtx_body_resize (listed_in : ListedIn) (b : Bgeo) (allow : String) (n : Int)
    (a : Attribute) (off : Int) (sh : Shape) (ty : ChanType) (nm : String) (cnt : Int)
    (h : Op.resize sh ty nm cnt ∈ (_readVtxAtr_body listed_in b allow n a off).ops) :
    sh = .triangle ∧ cnt = n := by
  by_cases hl : listed_in a.name allow = true
  · revert h
    refine a.kind_cases _ ?_ ?_ ?_ ?_ ?_ ?_ ?_ ?_ ?_ ?_ ?_ <;> intros <;>
      simp_all [_readVtxAtr_body, NB_THROW]
    all_goals
      rename_i h
      rcases h with ⟨h1, -, -, h2⟩ | ⟨h1, -, -, h2⟩ | ⟨h1, -, -, h2⟩ <;> exact ⟨h1, h2⟩
  · simp [_readVtxAtr_body, hl] at h

/-- Every buffer that is resized in Mesh mode has the element count of its category: a resize
made by the mesh point routine is of a point buffer to the number of points, one made by the
primitive or the vertex routine is of a triangle buffer to the number of primitives, the three
per-corner channels of an unrolled vertex attribute included, and `_loadBody` resizes the
position buffer to the number of points and the index buffer to the number of primitives. -/
theorem mesh_resize_calls_right_sized (listed_in : ListedIn) (r : Reader) (bodyName : String)
    (b : Bgeo) (allow : String) (n : Int) (a : Attribute) (c : Int)
    (sh : Shape) (ty : ChanType) (nm : String) (cnt : Int) :
    (Op.resize sh ty nm cnt ∈ (_readPointAtr_PointShape listed_in b allow n).ops →
      sh = .point ∧ cnt = n) ∧
    (Op.resize sh ty nm cnt ∈ (_readPrimAtr listed_in b allow n).ops →
      sh = .triangle ∧ cnt = n) ∧
    (Op.resize sh ty nm cnt ∈ (_readVtxAtr listed_in b allow n).ops →
      sh = .triangle ∧ cnt = n) ∧
    (listed_in a.name allow = true →
      (a.type = 0 ∧ a.size = 3) ∨ (a.type = 1 ∧ a.size = 3) ∨ a.type = 5 →
      Op.resize .triangle (if a.type = 1 then .c3i else .c3f)
          (a.name ++ (if a.type = 0 then "$v0$3f" else "$v0")) n ∈
        (_readVtxAtr_body listed_in b allow n a c).ops ∧
      Op.resize .triangle (if a.type = 1 then .c3i else .c3f)
          (a.name ++ (if a.type = 0 then "$v1$3f" else "$v1")) n ∈
        (_readVtxAtr_body listed_in b allow n a c).ops ∧
      Op.resize .triangle (if a.type = 1 then .c3i else .c3f)
          (a.name ++ (if a.type = 0 then "$v2$3f" else "$v2")) n ∈
        (_readVtxAtr_body listed_in b allow n a c).ops) ∧
    (r.sigFilter = "Mesh" →
      Op.resize .point .c3f "position" b.nPoints ∈ (_loadBody listed_in r bodyName b).ops ∧
      ((_readPointAtr_PointShape listed_in b r.pointAttributes b.nPoints).err = none →
        Op.resize .triangle .c3i "index" b.nPrims ∈ (_loadBody listed_in r bodyName b).ops) ∧
      (Op.resize sh ty nm cnt ∈ (_loadBody listed_in r bodyName b).ops →
        (sh = .point ∧ cnt = b.nPoints) ∨ (sh = .triangle ∧ cnt = b.nPrims))) := by
  have hP : ∀ al m, Op.resize sh ty nm cnt ∈ (_readPointAtr_PointShape listed_in b al m).ops →
      sh = .point ∧ cnt = m := by
    intro al m h
    obtain ⟨d, -, off, hd⟩ := forAtr_ops_mem _ _ _ _ h
    exact pointShape_body_resize listed_in b al m d off sh ty nm cnt hd
  have hQ : ∀ al m, Op.resize sh ty nm cnt ∈ (_readPrimAtr listed_in b al m).ops →
      sh = .triangle ∧ cnt = m := by
    intro al m h
    obtain ⟨d, -, off, hd⟩ := forAtr_ops_mem _ _ _ _ h
    exact prim_body_resize listed_in b al m d off sh ty nm cnt hd
  have hV : ∀ al m, Op.resize sh ty nm cnt ∈ (_readVtxAtr listed_in b al m).ops →
      sh = .triangle ∧ cnt = m := by
    intro al m h
    obtain ⟨d, -, off, hd⟩ := forAtr_ops_mem _ _ _ _ h
    exact vtx_body_resize listed_in b al m d off sh ty nm cnt hd
  refine ⟨hP allow n, hQ allow n, hV allow n, ?_, ?_⟩
  · intro hl hk
    rcases hk with ⟨ht, hs⟩ | ⟨ht, hs⟩ | ht
    · simp [_readVtxAtr_body, hl, ht, hs]
    · simp [_readVtxAtr_body, hl, ht, hs]
    · simp [_readVtxAtr_body, hl, ht]
  · intro hsig
    refine ⟨?_, ?_, ?_⟩
    · simp only [_loadBody, hsig, if_true]
      split
      · simp
      · split
        · simp
        · split <;> simp
    · intro hp
      simp only [_loadBody, hsig, if_true, hp]
      split
      · simp
      · split <;> simp
    · intro h
      simp only [_loadBody, hsig, if_true] at h
      split at h
      · simp only [List.mem_append, List.mem_cons, List.mem_singleton, List.not_mem_nil,
          reduceCtorEq, or_false, false_or, Op.resize.injEq] at h
        rcases h with ⟨h1, -, -, h2⟩ | h
        · exact Or.inl ⟨h1, h2⟩
        · exact Or.inl (hP _ _ h)
      · split at h
        · simp only [List.mem_append, List.mem_cons, List.mem_singleton, List.not_mem_nil,
            reduceCtorEq, or_false, false_or, Op.resize.injEq] at h
          rcases h with ((⟨h1, -, -, h2⟩ | h) | ⟨h1, -, -, h2⟩) | h
          · exact Or.inl ⟨h1, h2⟩
          · exact Or.inl (hP _ _ h)
          · exact Or.inr ⟨h1, h2⟩
          · exact Or.inr (hQ _ _ h)
        · split at h
          · simp only [List.mem_append, List.mem_cons, List.mem_singleton, List.not_mem_nil,
              reduceCtorEq, or_false, false_or, Op.resize.injEq] at h
            rcases h with (((⟨h1, -, -, h2⟩ | h) | ⟨h1, -, -, h2⟩) | h) | h
            · exact Or.inl ⟨h1, h2⟩
            · exact Or.inl (hP _ _ h)
            · exact Or.inr ⟨h1, h2⟩
            · exact Or.inr (hQ _ _ h)
            · exact Or.inr (hV _ _ h)
          · simp only [List.mem_append, List.mem_cons, List.mem_singleton, List.not_mem_nil,
              reduceCtorEq, or_false, false_or, Op.resize.injEq] at h
            rcases h with (((⟨h1, -, -, h2⟩ | h) | ⟨h1, -, -, h2⟩) | h) | h
            · exact Or.inl ⟨h1, h2⟩
            · exact Or.inl (hP _ _ h)
            · exact Or.inr ⟨h1, h2⟩
            · exact Or.inr (hQ _ _ h)
            · exact Or.inr (hV _ _ h)

/-- Copying one scalar out of a default buffer gives its first scalar -/
theorem copyBufLocal_one (defBuf : List Nat) : copyBufLocal defBuf 1 = [defBuf.getD 0 0] :=
  rfl

/-- C20: in `_readVtxAtr` an allow-listed Float or Int vertex attribute of size 1 whose
decoded default is `d` is registered as one 3-component channel `name$v` with the default
`(d, d, d)`, is filled from a single extraction made with the vertex accessor at the current
cursor, and advances the cursor by `type2Bytes(type) * 1`. -/
theorem scalar_vertex_attribute_broadcast (listed_in : ListedIn) (b : Bgeo) (allow : String)
    (n : Int) (a : Attribute) (c : Int) (hl : listed_in a.name allow = true)
    (hk : a.type = 0 ∨ a.type = 1) (hs : a.size = 1) :
    registered (_readVtxAtr_body listed_in b allow n a c).ops =
        [(a.name ++ "$v", if a.type = 0 then .c3f else .c3i,
          [a.defBuf.getD 0 0, a.defBuf.getD 0 0, a.defBuf.getD 0 0])] ∧
      extractions (_readVtxAtr_body listed_in b allow n a c).ops =
        [⟨.vtx, if a.type = 0 then .f32 else .u32, 1, c⟩] ∧
      written (_readVtxAtr_body listed_in b allow n a c).ops =
        [(a.name ++ "$v", if a.type = 0 then .c3f else .c3i,
          .atr ⟨.vtx, if a.type = 0 then .f32 else .u32, 1, c⟩)] ∧
      (_readVtxAtr_body listed_in b allow n a c).offset = c + b.type2Bytes a.type * 1 ∧
      (_readVtxAtr_body listed_in b allow n a c).err = none := by
  rcases hk with ht | ht <;>
    simp [_readVtxAtr_body, hl, ht, hs, registered, extractions, written, copyBufLocal_one]

/-- Witness for C20: a requested Float `w` of size 1 with default `1.0` met at cursor 9 -/
theorem scalar_vertex_attribute_broadcast_witness :
    registered (_readVtxAtr_body listedExact skipFile "w" 2 ⟨"w", 0, 1, [0x3F800000]⟩ 9).ops =
        [("w" ++ "$v", .c3f, [0x3F800000, 0x3F800000, 0x3F800000])] ∧
      extractions (_readVtxAtr_body listedExact skipFile "w" 2 ⟨"w", 0, 1, [0x3F800000]⟩ 9).ops =
        [⟨.vtx, .f32, 1, 9⟩] ∧
      (_readVtxAtr_body listedExact skipFile "w" 2 ⟨"w", 0, 1, [0x3F800000]⟩ 9).offset =
        9 + skipFile.type2Bytes 0 * 1 :=
  have h := scalar_vertex_attribute_broadcast listedExact skipFile "w" 2
    ⟨"w", 0, 1, [0x3F800000]⟩ 9 (by decide) (by decide) (by decide)
  ⟨h.1, h.2.1, h.2.2.2.1⟩

/-- On an allow-listed descriptor that the declare phase accepts, the particle load phase raises
nothing, writes at least one channel and moves the cursor by the full width -/
theorem load_body_full_width (listed_in : ListedIn) (b : Bgeo) (allow : String) (n : Int)
    (a : Attribute) (off1 off2 : Int)
    (h : (_createParticleChannels_body listed_in allow a off1).err = none)
    (hl : listed_in a.name allow = true) :
    (_readPointAtr_ParticleShape_body listed_in b allow n a off2).err = none ∧
    written (_readPointAtr_ParticleShape_body listed_in b allow n a off2).ops ≠ [] ∧
    (_readPointAtr_ParticleShape_body listed_in b allow n a off2).offset =
      off2 + b.type2Bytes a.type * a.size := by
  revert h
  refine a.kind_cases _ ?_ ?_ ?_ ?_ ?_ ?_ ?_ ?_ ?_ ?_ ?_ <;> intro h1 <;> intros <;>
    simp_all [_createParticleChannels_body, _readPointAtr_ParticleShape_body, NB_THROW,
      written] <;>
    split_ifs at * <;> simp_all [written]
  ring

/-- C21: on every point table and allow-list on which the particle declare phase completes, the
particle load phase raises no exception and takes no silent branch: on each allow-listed
descriptor it raises nothing, writes at least one channel and moves the cursor by
`type2Bytes(type) * size`, so it ends at the section base plus the widths of the allow-listed
descriptors. -/
theorem load_phase_completes_after_declare (listed_in : ListedIn) (b : Bgeo) (allow : String)
    (n : Int) (hd : (_createParticleChannels listed_in b allow).err = none) :
    (_readPointAtr_ParticleShape listed_in b allow n).err = none ∧
    (∀ a ∈ b.pointAtr, listed_in a.name allow = true → ∀ off,
      (_readPointAtr_ParticleShape_body listed_in b allow n a off).err = none ∧
      written (_readPointAtr_ParticleShape_body listed_in b allow n a off).ops ≠ [] ∧
      (_readPointAtr_ParticleShape_body listed_in b allow n a off).offset =
        off + b.type2Bytes a.type * a.size) ∧
    (_readPointAtr_ParticleShape listed_in b allow n).offset =
      sizeof32 * 4 + (b.pointAtr.map (listedWidth listed_in allow b)).sum := by
  have hbody : ∀ a ∈ b.pointAtr, listed_in a.name allow = true → ∀ off,
      (_readPointAtr_ParticleShape_body listed_in b allow n a off).err = none ∧
      written (_readPointAtr_ParticleShape_body listed_in b allow n a off).ops ≠ [] ∧
      (_readPointAtr_ParticleShape_body listed_in b allow n a off).offset =
        off + b.type2Bytes a.type * a.size := by
    intro a ha hl off
    obtain ⟨off1, hok, -⟩ := forAtr_ran _ _ _ hd a ha
    exact load_body_full_width listed_in b allow n a off1 off hok hl
  have hok : (_readPointAtr_ParticleShape listed_in b allow n).err = none :=
    forAtr_ok _ _ _ (load_body_ok_of_declare listed_in b allow n hd)
  refine ⟨hok, hbody, ?_⟩
  have hoff := forAtr_offset _ _ (particleShape_body_offset listed_in b allow n) b.pointAtr
    (sizeof32 * 4) hok
  have hw : b.pointAtr.map (particleWidth listed_in allow b) =
      b.pointAtr.map (listedWidth listed_in allow b) := by
    apply List.map_congr_left
    intro a ha
    by_cases hl : listed_in a.name allow = true
    · have h1 := (hbody a ha hl 0).2.2
      have h2 := particleShape_body_offset listed_in b allow n a 0 (hbody a ha hl 0).1
      rw [h1] at h2
      simp only [listedWidth, hl, if_true, width]
      linarith
    · simp [particleWidth, listedWidth, hl]
  rw [← hw]
  exact hoff

/-- Witness for C21: a point table holding the requested `life` of size 2, on which the declare
phase completes -/
theorem load_phase_completes_after_declare_witness :
    (_createParticleChannels listedExact lifeFile "life").err = none ∧
    (_readPointAtr_ParticleShape listedExact lifeFile "life" 4).err = none ∧
    (_readPointAtr_ParticleShape listedExact lifeFile "life" 4).offset =
      sizeof32 * 4 + (lifeFile.pointAtr.map (listedWidth listedExact "life" lifeFile)).sum :=
  have h := load_phase_completes_after_declare listedExact lifeFile "life" 4 (by decide)
  ⟨by decide, h.1, h.2.2⟩

/-- The extractions of two lists of calls, one after the other -/
theorem extractions_append (xs ys : List Op) :
    extractions (xs ++ ys) = extractions xs ++ extractions ys := by
  induction xs with
  | nil => rfl
  | cons o rest ih => cases o <;> simp [extractions, ih]

/-- When, wherever the first body raises nothing, the second body raises nothing either, makes
the same extractions and leaves the same offset, a loop of the first body that raises nothing is
matched by the loop of the second: same extractions, same final offset, no exception -/
theorem forAtr_same_extractions (body1 body2 : Attribute → Int → Run)
    (h : ∀ a off, (body1 a off).err = none →
      (body2 a off).err = none ∧
      extractions (body1 a off).ops = extractions (body2 a off).ops ∧
      (body1 a off).offset = (body2 a off).offset)
    (l : List Attribute) (offset : Int) (h1 : (forAtr body1 l offset).err = none) :
    (forAtr body2 l offset).err = none ∧
    extractions (forAtr body1 l offset).ops = extractions (forAtr body2 l offset).ops ∧
    (forAtr body1 l offset).offset = (forAtr body2 l offset).offset := by
  induction l generalizing offset with
  | nil => simp [forAtr]
  | cons a rest ih =>
    simp only [forAtr] at h1 ⊢
    cases hs : (body1 a offset).err with
    | some e => simp [hs] at h1
    | none =>
      obtain ⟨h2, hx, ho⟩ := h a offset hs
      simp only [hs] at h1
      obtain ⟨r2, rx, ro⟩ := ih _ h1
      rw [ho] at r2 rx ro
      simp only [hs, h2, extractions_append, hx, ho]
      exact ⟨r2, by rw [rx], ro⟩

/-- On a descriptor where the mesh point routine raises nothing, the particle load phase raises
nothing, makes the same extraction and leaves the same offset -/
theorem pointShape_particleShape_body_agree (listed_in : ListedIn) (b : Bgeo) (allow : String)
    (n m : Int) (a : Attribute) (off : Int)
    (h : (_readPointAtr_PointShape_body listed_in b allow n a off).err = none) :
    (_readPointAtr_ParticleShape_body listed_in b allow m a off).err = none ∧
    extractions (_readPointAtr_PointShape_body listed_in b allow n a off).ops =
      extractions (_readPointAtr_ParticleShape_body listed_in b allow m a off).ops ∧
    (_readPointAtr_PointShape_body listed_in b allow n a off).offset =
      (_readPointAtr_ParticleShape_body listed_in b allow m a off).offset := by
  by_cases hl : listed_in a.name allow = true
  · revert h
    refine a.kind_cases _ ?_ ?_ ?_ ?_ ?_ ?_ ?_ ?_ ?_ ?_ ?_ <;> intro h1 <;> intros <;>
      simp_all [_readPointAtr_PointShape_body, _readPointAtr_ParticleShape_body, NB_THROW,
        extractions]
    split_ifs <;> simp [extractions]
  · simp [_readPointAtr_PointShape_body, _readPointAtr_ParticleShape_body, hl, extractions]

/-- C22: on every point table and allow-list on which the mesh `_readPointAtr` completes
without error, the particle `_readPointAtr` completes as well, and the two routines make the
same sequence of extractions (same accessor, element type, vector size and byte offset, in the
same order) and end with the same offset. -/
theorem point_routines_agree_on_cursor (listed_in : ListedIn) (b : Bgeo) (allow : String)
    (n m : Int) (hmesh : (_readPointAtr_PointShape listed_in b allow n).err = none) :
    (_readPointAtr_ParticleShape listed_in b allow m).err = none ∧
    extractions (_readPointAtr_PointShape listed_in b allow n).ops =
      extractions (_readPointAtr_ParticleShape listed_in b allow m).ops ∧
    (_readPointAtr_PointShape listed_in b allow n).offset =
      (_readPointAtr_ParticleShape listed_in b allow m).offset :=
  forAtr_same_extractions _ _ (pointShape_particleShape_body_agree listed_in b allow n m)
    b.pointAtr (sizeof32 * 4) hmesh

/-- Witness for C22: a point table holding a requested Float of size 3 and a requested
Vector3Float, read at offsets 16 and 28 by both routines -/
theorem point_routines_agree_on_cursor_witness :
    (_readPointAtr_PointShape listedExact
        { skipFile with pointAtr := [⟨"N", 0, 3, [0, 0, 0]⟩, ⟨"N", 5, 3, [1, 1, 1]⟩] }
        "N" 4).err = none ∧
    (_readPointAtr_ParticleShape listedExact
        { skipFile with pointAtr := [⟨"N", 0, 3, [0, 0, 0]⟩, ⟨"N", 5, 3, [1, 1, 1]⟩] }
        "N" 4).err = none ∧
    extractions (_readPointAtr_PointShape listedExact
        { skipFile with pointAtr := [⟨"N", 0, 3, [0, 0, 0]⟩, ⟨"N", 5, 3, [1, 1, 1]⟩] }
        "N" 4).ops =
      extractions (_readPointAtr_ParticleShape listedExact
        { skipFile with pointAtr := [⟨"N", 0, 3, [0, 0, 0]⟩, ⟨"N", 5, 3, [1, 1, 1]⟩] }
        "N" 4).ops ∧
    (_readPointAtr_PointShape listedExact
        { skipFile with pointAtr := [⟨"N", 0, 3, [0, 0, 0]⟩, ⟨"N", 5, 3, [1, 1, 1]⟩] }
        "N" 4).offset =
      (_readPointAtr_ParticleShape listedExact
        { skipFile with pointAtr := [⟨"N", 0, 3, [0, 0, 0]⟩, ⟨"N", 5, 3, [1, 1, 1]⟩] }
        "N" 4).offset :=
  ⟨by decide,
   point_routines_agree_on_cursor listedExact
     { skipFile with pointAtr := [⟨"N", 0, 3, [0, 0, 0]⟩, ⟨"N", 5, 3, [1, 1, 1]⟩] } "N" 4 4
     (by decide)⟩

/-- The extractions of the witness of C22 are not empty: both routines read the Float at 16 and
the Vector3Float at 28 -/
theorem point_routines_extractions_sample :
    extractions (_readPointAtr_ParticleShape listedExact
        { skipFile with pointAtr := [⟨"N", 0, 3, [0, 0, 0]⟩, ⟨"N", 5, 3, [1, 1, 1]⟩] }
        "N" 4).ops = [⟨.point, .f32, 3, 16⟩, ⟨.point, .f32, 3, 28⟩] := by
  decide

/-- On a descriptor that is not allow-listed, or is allow-listed and of a supported kind and
size, the declare phase raises nothing -/
theorem declare_body_ok (listed_in : ListedIn) (allow : String) (a : Attribute) (off : Int)
    (h : listed_in a.name allow = true → supported a = true) :
    (_createParticleChannels_body listed_in allow a off).err = none := by
  by_cases hl : listed_in a.name allow = true
  · have hs := h hl
    revert hs
    refine a.kind_cases _ ?_ ?_ ?_ ?_ ?_ ?_ ?_ ?_ ?_ ?_ ?_ <;> intros <;>
      simp_all [_createParticleChannels_body, NB_THROW, supported]
    split_ifs <;> rfl
  · simp [_createParticleChannels_body, hl]

/-- C14 (amended): a String, Char or Index attribute (type 2, 3 or 4) makes a routine raise
only when its name is in the allow-list. When its name is not in the allow-list, each of the
five routines makes no call for it and raises nothing on it, so a routine whose other
allow-listed descriptors are of a supported kind and size completes without an error although
its table holds the attribute. -/
theorem unsupported_kind_raises_only_when_listed (listed_in : ListedIn) (b : Bgeo)
    (allow : String) (n : Int) (a : Attribute) (pre post : List Attribute) (c : Int)
    (hk : a.type = 2 ∨ a.type = 3 ∨ a.type = 4) :
    (listed_in a.name allow = true →
      (_createParticleChannels_body listed_in allow a c).err ≠ none ∧
      (_readPointAtr_PointShape_body listed_in b allow n a c).err ≠ none ∧
      (_readPointAtr_ParticleShape_body listed_in b allow n a c).err ≠ none ∧
      (_readPrimAtr_body listed_in b allow n a c).err ≠ none ∧
      (_readVtxAtr_body listed_in b allow n a c).err ≠ none) ∧
    (listed_in a.name allow = false →
      (((_createParticleChannels_body listed_in allow a c).ops = [] ∧
          (_createParticleChannels_body listed_in allow a c).err = none) ∧
        ((_readPointAtr_PointShape_body listed_in b allow n a c).ops = [] ∧
          (_readPointAtr_PointShape_body listed_in b allow n a c).err = none) ∧
        ((_readPointAtr_ParticleShape_body listed_in b allow n a c).ops = [] ∧
          (_readPointAtr_ParticleShape_body listed_in b allow n a c).err = none) ∧
        ((_readPrimAtr_body listed_in b allow n a c).ops = [] ∧
          (_readPrimAtr_body listed_in b allow n a c).err = none) ∧
        ((_readVtxAtr_body listed_in b allow n a c).ops = [] ∧
          (_readVtxAtr_body listed_in b allow n a c).err = none)) ∧
      ((∀ d ∈ pre ++ post, listed_in d.name allow = true → supported d = true) →
        (b.pointAtr = pre ++ a :: post →
          (_createParticleChannels listed_in b allow).err = none ∧
          (_readPointAtr_PointShape listed_in b allow n).err = none ∧
          (_readPointAtr_ParticleShape listed_in b allow n).err = none) ∧
        (b.primAtr = pre ++ a :: post → (_readPrimAtr listed_in b allow n).err = none) ∧
        (b.vtxAtr = pre ++ a :: post → (_readVtxAtr listed_in b allow n).err = none))) := by
  constructor
  · intro hl
    refine ⟨?_, ?_, ?_, ?_, ?_⟩
    · rcases hk with hk | hk | hk <;> simp [_createParticleChannels_body, hl, hk, NB_THROW]
    · rcases hk with hk | hk | hk <;> simp [_readPointAtr_PointShape_body, hl, hk, NB_THROW]
    · rcases hk with hk | hk | hk <;> simp [_readPointAtr_ParticleShape_body, hl, hk, NB_THROW]
    · rcases hk with hk | hk | hk <;> simp [_readPrimAtr_body, hl, hk, NB_THROW]
    · rcases hk with hk | hk | hk <;> simp [_readVtxAtr_body, hl, hk, NB_THROW]
  · intro hl
    refine ⟨⟨?_, ?_, ?_, ?_, ?_⟩, ?_⟩
    · simp [_createParticleChannels_body, hl]
    · simp [_readPointAtr_PointShape_body, hl]
    · simp [_readPointAtr_ParticleShape_body, hl]
    · simp [_readPrimAtr_body, hl]
    · simp [_readVtxAtr_body, hl]
    · intro hsup
      have hall : ∀ d ∈ pre ++ a :: post, listed_in d.name allow = true → supported d = true := by
        intro d hd hdl
        rcases List.mem_append.mp hd with hd | hd
        · exact hsup d (List.mem_append_left _ hd) hdl
        · rcases List.mem_cons.mp hd with rfl | hd
          · rw [hl] at hdl
            exact absurd hdl (by simp)
          · exact hsup d (List.mem_append_right _ hd) hdl
      have h1 : ∀ d ∈ pre ++ a :: post, ∀ off,
          (_createParticleChannels_body listed_in allow d off).err = none :=
        fun d hd off => declare_body_ok listed_in allow d off (hall d hd)
      have h2 : ∀ d ∈ pre ++ a :: post, ∀ off,
          (_readPointAtr_PointShape_body listed_in b allow n d off).err = none := by
        intro d hd off
        by_cases hdl : listed_in d.name allow = true
        · exact (pointShape_body_supported listed_in b allow n d off hdl (hall d hd hdl)).1
        · simp [_readPointAtr_PointShape_body, hdl]
      have h3 : ∀ d ∈ pre ++ a :: post, ∀ off,
          (_readPointAtr_ParticleShape_body listed_in b allow n d off).err = none := by
        intro d hd off
        by_cases hdl : listed_in d.name allow = true
        · exact (particleShape_body_supported listed_in b allow n d off hdl (hall d hd hdl)).1
        · simp [_readPointAtr_ParticleShape_body, hdl]
      have h4 : ∀ d ∈ pre ++ a :: post, ∀ off,
          (_readPrimAtr_body listed_in b allow n d off).err = none := by
        intro d hd off
        by_cases hdl : listed_in d.name allow = true
        · exact (prim_body_supported listed_in b allow n d off hdl (hall d hd hdl)).1
        · simp [_readPrimAtr_body, hdl]
      have h5 : ∀ d ∈ pre ++ a :: post, ∀ off,
          (_readVtxAtr_body listed_in b allow n d off).err = none := by
        intro d hd off
        by_cases hdl : listed_in d.name allow = true
        · exact (vtx_body_supported listed_in b allow n d off hdl (hall d hd hdl)).1
        · simp [_readVtxAtr_body, hdl]
      refine ⟨?_, ?_, ?_⟩
      · intro hb
        refine ⟨?_, ?_, ?_⟩
        · rw [_createParticleChannels, hb]
          exact forAtr_ok _ _ _ h1
        · rw [_readPointAtr_PointShape, hb]
          exact forAtr_ok _ _ _ h2
        · rw [_readPointAtr_ParticleShape, hb]
          exact forAtr_ok _ _ _ h3
      · intro hb
        rw [_readPrimAtr, hb]
        exact forAtr_ok _ _ _ h4
      · intro hb
        rw [_readVtxAtr, hb]
        exact forAtr_ok _ _ _ h5

/-- Witness for C14 (amended): the sample file whose sections hold the String attribute `s`
after the Float `a`, with `s` requested and with `a` requested -/
theorem unsupported_kind_raises_only_when_listed_witness :
    (listedExact "s" "s" = true ∧ listedExact "s" "a" = false ∧
      (∀ d ∈ [⟨"a", 0, 1, [0]⟩] ++ ([] : List Attribute),
        listedExact d.name "a" = true → supported d = true) ∧
      stringFile.pointAtr = [⟨"a", 0, 1, [0]⟩] ++ ⟨"s", 2, 1, []⟩ :: [] ∧
      stringFile.primAtr = [⟨"a", 0, 1, [0]⟩] ++ ⟨"s", 2, 1, []⟩ :: [] ∧
      stringFile.vtxAtr = [⟨"a", 0, 1, [0]⟩] ++ ⟨"s", 2, 1, []⟩ :: []) ∧
    (_readPointAtr_PointShape_body listedExact stringFile "s" 4 ⟨"s", 2, 1, []⟩ 20).err ≠ none ∧
    ((_readPointAtr_PointShape_body listedExact stringFile "a" 4 ⟨"s", 2, 1, []⟩ 20).ops = [] ∧
      (_readPointAtr_PointShape_body listedExact stringFile "a" 4 ⟨"s", 2, 1, []⟩ 20).err
        = none) ∧
    ((_createParticleChannels listedExact stringFile "a").err = none ∧
      (_readPointAtr_PointShape listedExact stringFile "a" 4).err = none ∧
      (_readPointAtr_ParticleShape listedExact stringFile "a" 4).err = none) ∧
    (_readPrimAtr listedExact stringFile "a" 4).err = none ∧
    (_readVtxAtr listedExact stringFile "a" 4).err = none :=
  have hs := unsupported_kind_raises_only_when_listed listedExact stringFile "s" 4
    ⟨"s", 2, 1, []⟩ [⟨"a", 0, 1, [0]⟩] [] 20 (by decide)
  have ha := unsupported_kind_raises_only_when_listed listedExact stringFile "a" 4
    ⟨"s", 2, 1, []⟩ [⟨"a", 0, 1, [0]⟩] [] 20 (by decide)
  ⟨by decide, (hs.1 (by decide)).2.1, ((ha.2 (by decide)).1).2.1,
    ((ha.2 (by decide)).2 (by decide)).1 rfl,
    ((ha.2 (by decide)).2 (by decide)).2.1 rfl,
    ((ha.2 (by decide)).2 (by decide)).2.2 rfl⟩

/-- The buffers resized by two lists of calls, one after the other -/
theorem resized_append (xs ys : List Op) : resized (xs ++ ys) = resized xs ++ resized ys := by
  induction xs with
  | nil => rfl
  | cons o rest ih => cases o <;> simp [resized, ih]

/-- A buffer is among the resized ones exactly when the list holds the call that resizes it -/
theorem mem_resized (ops : List Op) (sh : Shape) (ty : ChanType) (nm : String) (cnt : Int) :
    (sh, ty, nm, cnt) ∈ resized ops ↔ Op.resize sh ty nm cnt ∈ ops := by
  induction ops with
  | nil => simp [resized]
  | cons o rest ih => cases o <;> simp [resized, ih]

/-- When the body resizes, on every descriptor, exactly the channels it registers, to the
length `n` on the shape `sh`, so does the loop -/
theorem forAtr_resized (body : Attribute → Int → Run) (sh : Shape) (n : Int)
    (h : ∀ a off, resized (body a off).ops =
      (registered (body a off).ops).map (fun x => (sh, x.2.1, x.1, n)))
    (l : List Attribute) (offset : Int) :
    resized (forAtr body l offset).ops =
      (registered (forAtr body l offset).ops).map (fun x => (sh, x.2.1, x.1, n)) := by
  induction l generalizing offset with
  | nil => rfl
  | cons a rest ih =>
    simp only [forAtr]
    cases hs : (body a offset).err with
    | some e => exact h a offset
    | none => simp only [resized_append, registered_append, List.map_append, h a offset, ih]

/-- The mesh point routine resizes, on a descriptor, exactly the channels it registers, as
point buffers of length `n` -/
theorem pointShape_body_resized (listed_in : ListedIn) (b : Bgeo) (allow : String) (n : Int)
    (a : Attribute) (off : Int) :
    resized (_readPointAtr_PointShape_body listed_in b allow n a off).ops =
      (registered (_readPointAtr_PointShape_body listed_in b allow n a off).ops).map
        (fun x => (Shape.point, x.2.1, x.1, n)) := by
  by_cases hl : listed_in a.name allow = true
  · refine a.kind_cases _ ?_ ?_ ?_ ?_ ?_ ?_ ?_ ?_ ?_ ?_ ?_ <;> intros <;>
      simp_all [_readPointAtr_PointShape_body, NB_THROW, resized, registered]
  · simp [_readPointAtr_PointShape_body, hl, resized, registered]

/-- The primitive routine resizes, on a descriptor, exactly the channels it registers, as
triangle buffers of length `n` -/
theorem prim_body_resized (listed_in : ListedIn) (b : Bgeo) (allow : String) (n : Int)
    (a : Attribute) (off : Int) :
    resized (_readPrimAtr_body listed_in b allow n a off).ops =
      (registered (_readPrimAtr_body listed_in b allow n a off).ops).map
        (fun x => (Shape.triangle, x.2.1, x.1, n)) := by
  by_cases hl : listed_in a.name allow = true
  · refine a.kind_cases _ ?_ ?_ ?_ ?_ ?_ ?_ ?_ ?_ ?_ ?_ ?_ <;> intros <;>
      simp_all [_readPrimAtr_body, NB_THROW, resized, registered]
  · simp [_readPrimAtr_body, hl, resized, registered]

/-- The vertex routine resizes, on a descriptor, exactly the channels it registers, as triangle
buffers of length `n` -/
theorem vtx_body_resized (listed_in : ListedIn) (b : Bgeo) (allow : String) (n : Int)
    (a : Attribute) (off : Int) :
    resized (_readVtxAtr_body listed_in b allow n a off).ops =
      (registered (_readVtxAtr_body listed_in b allow n a off).ops).map
        (fun x => (Shape.triangle, x.2.1, x.1, n)) := by
  by_cases hl : listed_in a.name allow = true
  · refine a.kind_cases _ ?_ ?_ ?_ ?_ ?_ ?_ ?_ ?_ ?_ ?_ ?_ <;> intros <;>
      simp_all [_readVtxAtr_body, NB_THROW, resized, registered]
  · simp [_readVtxAtr_body, hl, resized, registered]

/-- An allow-listed descriptor on which a mesh routine raises nothing gets at least one
channel registered -/
theorem mesh_bodies_register (listed_in : ListedIn) (b : Bgeo) (allow : String) (n : Int)
    (a : Attribute) (off : Int) (hl : listed_in a.name allow = true) :
    ((_readPointAtr_PointShape_body listed_in b allow n a off).err = none →
      registered (_readPointAtr_PointShape_body listed_in b allow n a off).ops ≠ []) ∧
    ((_readPrimAtr_body listed_in b allow n a off).err = none →
      registered (_readPrimAtr_body listed_in b allow n a off).ops ≠ []) ∧
    ((_readVtxAtr_body listed_in b allow n a off).err = none →
      registered (_readVtxAtr_body listed_in b allow n a off).ops ≠ []) := by
  refine ⟨?_, ?_, ?_⟩
  · refine a.kind_cases _ ?_ ?_ ?_ ?_ ?_ ?_ ?_ ?_ ?_ ?_ ?_ <;> intros <;>
      simp_all [_readPointAtr_PointShape_body, NB_THROW, registered]
  · refine a.kind_cases _ ?_ ?_ ?_ ?_ ?_ ?_ ?_ ?_ ?_ ?_ ?_ <;> intros <;>
      simp_all [_readPrimAtr_body, NB_THROW, registered]
  · refine a.kind_cases _ ?_ ?_ ?_ ?_ ?_ ?_ ?_ ?_ ?_ ?_ ?_ <;> intros <;>
      simp_all [_readVtxAtr_body, NB_THROW, registered]

/-- When a loop completes, the channels its body registers on an allow-listed descriptor are
not empty and are each resized, by the loop, to the length `n` on the shape `sh` -/
theorem forAtr_listed_resized (body : Attribute → Int → Run) (sh : Shape) (n : Int)
    (l : List Attribute) (offset : Int) (p : Attribute → Prop)
    (hres : ∀ a off, resized (body a off).ops =
      (registered (body a off).ops).map (fun x => (sh, x.2.1, x.1, n)))
    (hreg : ∀ a off, p a → (body a off).err = none → registered (body a off).ops ≠ [])
    (hok : (forAtr body l offset).err = none) :
    ∀ d ∈ l, p d → ∃ off, registered (body d off).ops ≠ [] ∧
      ∀ x ∈ registered (body d off).ops,
        Op.resize sh x.2.1 x.1 n ∈ (forAtr body l offset).ops := by
  intro d hd hp
  obtain ⟨off, herr, hsub⟩ := forAtr_ran body l offset hok d hd
  refine ⟨off, hreg d off hp herr, ?_⟩
  intro x hx
  apply hsub
  rw [← mem_resized, hres d off]
  exact List.mem_map.mpr ⟨x, hx, rfl⟩

/-- C19: in Mesh mode every channel buffer the decoder creates is resized to the element count
of its category. Each routine resizes exactly the channels it registers, point channels to the
number of points, primitive and vertex channels to the number of primitives; an allow-listed
descriptor of a supported kind and size gets its channel resized (its three per-corner channels
for an unrolled vertex attribute); in a routine that completes every allow-listed descriptor
has registered channels, each resized; and a `_loadBody` that completes has resized the position
buffer to the number of points, the index buffer to the number of primitives, and besides them
the registered attribute channels and nothing else. -/
theorem mesh_buffers_sized_by_category (listed_in : ListedIn) (r : Reader) (bodyName : String)
    (b : Bgeo) (allow : String) (n : Int) (a : Attribute) (c : Int) :
    (resized (_readPointAtr_PointShape listed_in b allow n).ops =
        (registered (_readPointAtr_PointShape listed_in b allow n).ops).map
          (fun x => (Shape.point, x.2.1, x.1, n)) ∧
      resized (_readPrimAtr listed_in b allow n).ops =
        (registered (_readPrimAtr listed_in b allow n).ops).map
          (fun x => (Shape.triangle, x.2.1, x.1, n)) ∧
      resized (_readVtxAtr listed_in b allow n).ops =
        (registered (_readVtxAtr listed_in b allow n).ops).map
          (fun x => (Shape.triangle, x.2.1, x.1, n))) ∧
    (listed_in a.name allow = true → supported a = true →
      resized (_readPointAtr_PointShape_body listed_in b allow n a c).ops =
        [(.point,
          if a.type = 1 then (if a.size = 1 then .c1i else .c3i)
          else if a.type = 0 ∧ a.size = 1 then .c1f else .c3f,
          if a.type = 0 ∧ a.size = 3 then a.name ++ "$3f" else a.name, n)] ∧
      resized (_readPrimAtr_body listed_in b allow n a c).ops =
        [(.triangle,
          if a.type = 1 then (if a.size = 1 then .c1i else .c3i)
          else if a.type = 0 ∧ a.size = 1 then .c1f else .c3f,
          if a.type = 0 ∧ a.size = 3 then a.name ++ "$3f" else a.name, n)] ∧
      resized (_readVtxAtr_body listed_in b allow n a c).ops =
        (if a.type ≠ 5 ∧ a.size = 1 then
          [(.triangle, if a.type = 1 then .c3i else .c3f, a.name ++ "$v", n)]
        else
          [(.triangle, if a.type = 1 then .c3i else .c3f,
              a.name ++ (if a.type = 0 then "$v0$3f" else "$v0"), n),
           (.triangle, if a.type = 1 then .c3i else .c3f,
              a.name ++ (if a.type = 0 then "$v1$3f" else "$v1"), n),
           (.triangle, if a.type = 1 then .c3i else .c3f,
              a.name ++ (if a.type = 0 then "$v2$3f" else "$v2"), n)])) ∧
    (((_readPointAtr_PointShape listed_in b allow n).err = none →
        ∀ d ∈ b.pointAtr, listed_in d.name allow = true →
          ∃ off, registered (_readPointAtr_PointShape_body listed_in b allow n d off).ops ≠ [] ∧
            ∀ x ∈ registered (_readPointAtr_PointShape_body listed_in b allow n d off).ops,
              Op.resize .point x.2.1 x.1 n ∈ (_readPointAtr_PointShape listed_in b allow n).ops) ∧
      ((_readPrimAtr listed_in b allow n).err = none →
        ∀ d ∈ b.primAtr, listed_in d.name allow = true →
          ∃ off, registered (_readPrimAtr_body listed_in b allow n d off).ops ≠ [] ∧
            ∀ x ∈ registered (_readPrimAtr_body listed_in b allow n d off).ops,
              Op.resize .triangle x.2.1 x.1 n ∈ (_readPrimAtr listed_in b allow n).ops) ∧
      ((_readVtxAtr listed_in b allow n).err = none →
        ∀ d ∈ b.vtxAtr, listed_in d.name allow = true →
          ∃ off, registered (_readVtxAtr_body listed_in b allow n d off).ops ≠ [] ∧
            ∀ x ∈ registered (_readVtxAtr_body listed_in b allow n d off).ops,
              Op.resize .triangle x.2.1 x.1 n ∈ (_readVtxAtr listed_in b allow n).ops)) ∧
    (r.sigFilter = "Mesh" → (_loadBody listed_in r bodyName b).err = none →
      resized (_loadBody listed_in r bodyName b).ops =
        (Shape.point, ChanType.c3f, "position", b.nPoints) ::
          ((registered (_readPointAtr_PointShape listed_in b r.pointAttributes
              b.nPoints).ops).map (fun x => (Shape.point, x.2.1, x.1, b.nPoints)) ++
            (Shape.triangle, ChanType.c3i, "index", b.nPrims) ::
              ((registered (_readPrimAtr listed_in b r.primitiveAttributes b.nPrims).ops).map
                  (fun x => (Shape.triangle, x.2.1, x.1, b.nPrims)) ++
                (registered (_readVtxAtr listed_in b r.vertexAttributes b.nPrims).ops).map
                  (fun x => (Shape.triangle, x.2.1, x.1, b.nPrims))))) ∧
    (r.sigFilter = "Mesh" →
      Op.resize .point .c3f "position" b.nPoints ∈ (_loadBody listed_in r bodyName b).ops ∧
      ((_readPointAtr_PointShape listed_in b r.pointAttributes b.nPoints).err = none →
        Op.resize .triangle .c3i "index" b.nPrims ∈ (_loadBody listed_in r bodyName b).ops) ∧
      ∀ sh ty nm cnt, Op.resize sh ty nm cnt ∈ (_loadBody listed_in r bodyName b).ops →
        (sh = .point ∧ cnt = b.nPoints) ∨ (sh = .triangle ∧ cnt = b.nPrims)) := by
  have hP : ∀ al m, resized (_readPointAtr_PointShape listed_in b al m).ops =
      (registered (_readPointAtr_PointShape listed_in b al m).ops).map
        (fun x => (Shape.point, x.2.1, x.1, m)) :=
    fun al m => forAtr_resized _ _ _ (pointShape_body_resized listed_in b al m) _ _
  have hQ : ∀ al m, resized (_readPrimAtr listed_in b al m).ops =
      (registered (_readPrimAtr listed_in b al m).ops).map
        (fun x => (Shape.triangle, x.2.1, x.1, m)) :=
    fun al m => forAtr_resized _ _ _ (prim_body_resized listed_in b al m) _ _
  have hV : ∀ al m, resized (_readVtxAtr listed_in b al m).ops =
      (registered (_readVtxAtr listed_in b al m).ops).map
        (fun x => (Shape.triangle, x.2.1, x.1, m)) :=
    fun al m => forAtr_resized _ _ _ (vtx_body_resized listed_in b al m) _ _
  refine ⟨⟨hP allow n, hQ allow n, hV allow n⟩, ?_, ⟨?_, ?_, ?_⟩, ?_, ?_⟩
  · intro hl hs
    revert hs
    refine a.kind_cases _ ?_ ?_ ?_ ?_ ?_ ?_ ?_ ?_ ?_ ?_ ?_ <;> intros <;>
      simp_all [_readPointAtr_PointShape_body, _readPrimAtr_body, _readVtxAtr_body, NB_THROW,
        resized, supported]
  · intro hok
    exact forAtr_listed_resized _ _ _ _ _ (fun d => listed_in d.name allow = true)
      (pointShape_body_resized listed_in b allow n)
      (fun d off hd => (mesh_bodies_register listed_in b allow n d off hd).1) hok
  · intro hok
    exact forAtr_listed_resized _ _ _ _ _ (fun d => listed_in d.name allow = true)
      (prim_body_resized listed_in b allow n)
      (fun d off hd => (mesh_bodies_register listed_in b allow n d off hd).2.1) hok
  · intro hok
    exact forAtr_listed_resized _ _ _ _ _ (fun d => listed_in d.name allow = true)
      (vtx_body_resized listed_in b allow n)
      (fun d off hd => (mesh_bodies_register listed_in b allow n d off hd).2.2) hok
  · intro hsig herr
    cases h1 : (_readPointAtr_PointShape listed_in b r.pointAttributes b.nPoints).err with
    | some e => simp [_loadBody, hsig, h1] at herr
    | none =>
      cases h2 : (_readPrimAtr listed_in b r.primitiveAttributes b.nPrims).err with
      | some e => simp [_loadBody, hsig, h1, h2] at herr
      | none =>
        cases h3 : (_readVtxAtr listed_in b r.vertexAttributes b.nPrims).err with
        | some e => simp [_loadBody, hsig, h1, h2, h3] at herr
        | none =>
          simp only [_loadBody, hsig, if_true, h1, h2, h3, resized_append, hP, hQ, hV]
          simp [resized]
  · intro hsig
    have hpos := (mesh_resize_calls_right_sized listed_in r bodyName b allow n a c
      .point .c3f "position" b.nPoints).2.2.2.2 hsig
    exact ⟨hpos.1, hpos.2.1, fun sh ty nm cnt =>
      ((mesh_resize_calls_right_sized listed_in r bodyName b allow n a c
        sh ty nm cnt).2.2.2.2 hsig).2.2⟩

/-- Witness for C19: the sample file in Mesh mode with `b` requested in every section; the
buffers resized are `position` and the point channel `b` to 4 points, `index`, the primitive
channel `b` and the vertex channel `b$v` to 2 primitives -/
theorem mesh_buffers_sized_by_category_witness :
    (listedExact "b" "b" = true ∧ supported ⟨"b", 5, 3, [0, 0, 0]⟩ = true ∧
      (_readPointAtr_PointShape listedExact skipFile "b" 4).err = none ∧
      (_loadBody listedExact ⟨"Mesh", "b", "b", "b", false⟩ "body" skipFile).err = none) ∧
    resized (_readVtxAtr_body listedExact skipFile "b" 4 ⟨"b", 5, 3, [0, 0, 0]⟩ 9).ops =
      [(.triangle, .c3f, "b$v0", 4), (.triangle, .c3f, "b$v1", 4),
       (.triangle, .c3f, "b$v2", 4)] ∧
    (∀ d ∈ skipFile.pointAtr, listedExact d.name "b" = true →
      ∃ off, registered (_readPointAtr_PointShape_body listedExact skipFile "b" 4 d off).ops
          ≠ [] ∧
        ∀ x ∈ registered (_readPointAtr_PointShape_body listedExact skipFile "b" 4 d off).ops,
          Op.resize .point x.2.1 x.1 4 ∈
            (_readPointAtr_PointShape listedExact skipFile "b" 4).ops) ∧
    resized (_loadBody listedExact ⟨"Mesh", "b", "b", "b", false⟩ "body" skipFile).ops =
      [(.point, .c3f, "position", 4), (.point, .c1f, "b", 4), (.triangle, .c3i, "index", 2),
       (.triangle, .c1f, "b", 2), (.triangle, .c3f, "b$v", 2)] :=
  have h := mesh_buffers_sized_by_category listedExact ⟨"Mesh", "b", "b", "b", false⟩ "body"
    skipFile "b" 4 ⟨"b", 5, 3, [0, 0, 0]⟩ 9
  ⟨by decide, (h.2.1 (by decide) (by decide)).2.2, h.2.2.1.1 (by decide),
    h.2.2.2.1 rfl (by decide)⟩

end BgeoReader

namespace Plugin

/-- C16: `UserOpAlloc` looks the type up by its lower-cased form only: two type strings equal
after lower-casing build the same user op, each of the six known names builds its own class,
the six classes being pairwise different, and a type whose lower-cased form is none of the six
yields the null result. -/
theorem UserOpAlloc_resolves_lower_cased_type (toLower : String → String)
    (t1 t2 name : String) :
    (toLower t1 = toLower t2 → UserOpAlloc toLower t1 name = UserOpAlloc toLower t2 name) ∧
    (toLower t1 = "renderman-particle" →
      UserOpAlloc toLower t1 name = some (.Renderman_Particle name)) ∧
    (toLower t1 = "renderman-mesh" →
      UserOpAlloc toLower t1 name = some (.Renderman_Mesh name)) ∧
    (toLower t1 = "renderman-rib-write" →
      UserOpAlloc toLower t1 name = some (.Renderman_Rib_Write name)) ∧
    (toLower t1 = "delight-particle" →
      UserOpAlloc toLower t1 name = some (.Delight_Particle name)) ∧
    (toLower t1 = "delight-mesh" →
      UserOpAlloc toLower t1 name = some (.Delight_Mesh name)) ∧
    (toLower t1 = "delight-rib-write" →
      UserOpAlloc toLower t1 name = some (.Delight_Rib_Write name)) ∧
    [UserOp.Renderman_Particle name, .Renderman_Mesh name, .Renderman_Rib_Write name,
      .Delight_Particle name, .Delight_Mesh name, .Delight_Rib_Write name].Nodup ∧
    (toLower t1 ≠ "renderman-particle" → toLower t1 ≠ "renderman-mesh" →
      toLower t1 ≠ "renderman-rib-write" → toLower t1 ≠ "delight-particle" →
      toLower t1 ≠ "delight-mesh" → toLower t1 ≠ "delight-rib-write" →
      UserOpAlloc toLower t1 name = none) := by
  refine ⟨?_, ?_, ?_, ?_, ?_, ?_, ?_, ?_, ?_⟩
  · intro h
    simp [UserOpAlloc, h]
  · intro h
    simp [UserOpAlloc, h]
  · intro h
    simp [UserOpAlloc, h]
  · intro h
    simp [UserOpAlloc, h]
  · intro h
    simp [UserOpAlloc, h]
  · intro h
    simp [UserOpAlloc, h]
  · intro h
    simp [UserOpAlloc, h]
  · simp
  · intro h1 h2 h3 h4 h5 h6
    simp [UserOpAlloc, h1, h2, h3, h4, h5, h6]

/-- Witness for C16: `RenderMan-Mesh` and `renderman-MESH` under ASCII lower-casing, and the
unknown type `Arnold-Mesh` -/
theorem UserOpAlloc_resolves_lower_cased_type_witness :
    (asciiLower "RenderMan-Mesh" = asciiLower "renderman-MESH" ∧
      asciiLower "RenderMan-Mesh" = "renderman-mesh") ∧
    UserOpAlloc asciiLower "RenderMan-Mesh" "op" = UserOpAlloc asciiLower "renderman-MESH" "op" ∧
    UserOpAlloc asciiLower "RenderMan-Mesh" "op" = some (.Renderman_Mesh "op") ∧
    UserOpAlloc asciiLower "Arnold-Mesh" "op" = none :=
  ⟨by decide,
   (UserOpAlloc_resolves_lower_cased_type asciiLower "RenderMan-Mesh" "renderman-MESH"
      "op").1 (by decide),
   (UserOpAlloc_resolves_lower_cased_type asciiLower "RenderMan-Mesh" "renderman-MESH"
      "op").2.2.1 (by decide),
   (UserOpAlloc_resolves_lower_cased_type asciiLower "Arnold-Mesh" "renderman-MESH"
      "op").2.2.2.2.2.2.2.2 (by decide) (by decide) (by decide) (by decide) (by decide)
      (by decide)⟩

end Plugin
